import Mathlib

/-!
# DLSS upscaler plugin (`DLSSUpscaler.cpp`): quality-mode policy, instance pool
and pass validation

A shallow embedding of the functions of `src/DLSSUpscaler.cpp`.

* `check` / `checkf`, the range check of `TArray::operator[]` and a null
  dereference end the process; they are the `Except.error` outcomes of the
  `Checked` result type.
* `float` values are represented by the rational number they denote (NaN and
  the infinities are not represented); wherever the source performs float
  arithmetic the rounding is the function `Externals.roundToFloat`, and
  `RoundToFloat` is that function for IEEE 754 single precision.
* The debug capture writes the file-scope variable `count` and files; both
  are the `DebugDump` component of the state.
* Engine and vendor declarations that the source uses but that live outside
  `src/` (the vendor enumerator values, the numeric limits, the buffer-size
  quantizer, the targetable texture of a pooled render target, the opening of
  a file stream) are the fields of `Externals`.
-/

set_option linter.constructorNameAsVariable false

namespace DLSS

/-! ## Result type -/

/-- Ways in which the process is terminated. -/
inductive Fatal where
  /-- a `check` / `checkf` condition evaluated to false -/
  | check
  /-- an array was indexed outside its bounds -/
  | rangeCheck
  /-- a null pointer was dereferenced -/
  | nullDeref
  deriving DecidableEq, Repr

/-- A computation that either returns a value or terminates the process. -/
abbrev Checked (α : Type) := Except Fatal α

deriving instance DecidableEq for Except

/-! ## Enumerations -/

/-- The enumerators of `EDLSSQualityMode` named in the source; `NumValues` is
the sentinel that is not a quality mode. -/
inductive EDLSSQualityMode where
  | UltraPerformance
  | Performance
  | Balanced
  | Quality
  | UltraQuality
  | NumValues
  deriving DecidableEq, Repr

/-- The five quality modes, in the order of the constructor's loop (line 240). -/
def EDLSSQualityMode.all : List EDLSSQualityMode :=
  [.UltraPerformance, .Performance, .Balanced, .Quality, .UltraQuality]

/-- The vendor enumerators that `ToNGXQuality` returns. -/
inductive NVSDK_NGX_PerfQuality_Value where
  | MaxPerf
  | Balanced
  | MaxQuality
  | UltraPerformance
  | UltraQuality
  deriving DecidableEq, Repr

/-- The function `ToNGXQuality` (lines 144-166); the `default:` label fires
`checkf(false)`. -/
def ToNGXQuality : EDLSSQualityMode → Checked NVSDK_NGX_PerfQuality_Value
  | .UltraPerformance => .ok .UltraPerformance
  | .Performance => .ok .MaxPerf
  | .Balanced => .ok .Balanced
  | .Quality => .ok .MaxQuality
  | .UltraQuality => .ok .UltraQuality
  | .NumValues => .error .check

/-! ## Geometry -/

/-- Two's-complement wrap of an integer into the `int32` range. -/
def wrap32 (x : Int) : Int := (x + 2147483648) % 4294967296 - 2147483648

/-- The engine type `FIntPoint`. -/
structure FIntPoint where
  X : Int
  Y : Int
  deriving DecidableEq, Repr

/-- The constant `FIntPoint::ZeroValue`. -/
def FIntPoint.ZeroValue : FIntPoint := ⟨0, 0⟩

/-- The engine type `FIntRect`, given by its `Min` and `Max` corners. -/
structure FIntRect where
  Min : FIntPoint
  Max : FIntPoint
  deriving DecidableEq, Repr

/-- The method `FIntRect::Width()`. -/
def FIntRect.Width (r : FIntRect) : Int := wrap32 (r.Max.X - r.Min.X)

/-- The method `FIntRect::Height()`. -/
def FIntRect.Height (r : FIntRect) : Int := wrap32 (r.Max.Y - r.Min.Y)

/-- The method `FIntRect::Size()`. -/
def FIntRect.Size (r : FIntRect) : FIntPoint := ⟨r.Width, r.Height⟩

/-! ## Backend records -/

/-- Modelled from the spec: `FDLSSOptimalSettings` is declared outside `src/`;
the record has the fields the source reads, and `IsFixedResolution()` is the
flag the spec lists in the record (`isFixedResolution`). -/
structure FDLSSOptimalSettings where
  bIsSupported : Bool
  OptimalResolutionFraction : ℚ
  MinResolutionFraction : ℚ
  MaxResolutionFraction : ℚ
  Sharpness : ℚ
  IsFixedResolution : Bool
  deriving DecidableEq

/-- The value-initialised record `FDLSSOptimalSettings()` of line 237. -/
def FDLSSOptimalSettings.zero : FDLSSOptimalSettings :=
  ⟨false, 0, 0, 0, 0, false⟩

/-- The backend object behind an `NGXRHI*`: what the source asks of it. -/
structure NGXRHI where
  GetDLSSOptimalSettings : NVSDK_NGX_PerfQuality_Value → FDLSSOptimalSettings

/-- An `FRDGTexture`: an identity and the extent of its descriptor. -/
structure FRDGTexture where
  Name : Nat
  Extent : FIntPoint
  deriving DecidableEq, Repr

/-- The members of the engine's `FTemporalAAHistory` that the source touches;
a render-target slot is `none` when it holds no target. -/
structure FTemporalAAHistory where
  RT : List (Option FRDGTexture)
  ViewportRect : FIntRect
  ReferenceBufferSize : FIntPoint
  deriving DecidableEq, Repr

/-- An `FRHITexture` as the debug capture reads it: the size of its 2D
surface. The texel data is not represented. -/
structure FRHITexture where
  SizeX : Int
  SizeY : Int
  deriving DecidableEq, Repr

/-- The name of a file that the debug capture writes in `D:/pc_code/data/`:
the stem (`DLSS_` or `map_DLSS_`), the value of `count`, two sizes and the
suffix (`_output.txt`, `_input.txt`, `_depth.txt` or `_velocity.txt`), which
lines 341-349, 606-607 and 630-631 join with underscores. -/
structure DumpFile where
  Stem : String
  count : Int
  SizeX : Int
  SizeY : Int
  Suffix : String
  deriving DecidableEq, Repr

/-- The state that the debug capture writes: the file-scope variable `count`
(line 322) and the files written so far, oldest first. -/
structure DebugDump where
  count : Int
  Files : List DumpFile
  deriving DecidableEq, Repr

/-- Declarations used by the source that are not part of it. -/
structure Externals where
  /-- the `int32` value of each vendor enumerator -/
  PerfQualityValue : NVSDK_NGX_PerfQuality_Value → Int
  /-- the value of `TNumericLimits<float>::Max()` -/
  NumericLimitsMax : ℚ
  /-- the value of `TNumericLimits<float>::Min()` -/
  NumericLimitsMin : ℚ
  /-- the engine's `QuantizeSceneBufferSize` -/
  QuantizeSceneBufferSize : FIntPoint → FIntPoint
  /-- rounding of an exact result to the nearest `float` -/
  roundToFloat : ℚ → ℚ
  /-- the engine's `FTemporalAAHistory::IsValid` -/
  TemporalAAHistoryIsValid : FTemporalAAHistory → Bool
  /-- the member `GetRenderTargetItem().TargetableTexture` of the pooled render
  target in a history slot, `none` when that pointer is null -/
  TargetableTexture : FRDGTexture → Option FRHITexture
  /-- whether `std::ofstream` opens the named file for writing -/
  OpenForWriting : DumpFile → Bool

/-! ## Pass parameters -/

/-- The members of `FDLSSPassParameters` that the source reads; a texture
reference is `none` when it is null. -/
structure FDLSSPassParameters where
  InputViewRect : FIntRect
  OutputViewRect : FIntRect
  SceneColorInput : Option FRDGTexture
  SceneDepthInput : Option FRDGTexture
  SceneVelocityInput : Option FRDGTexture
  bHighResolutionMotionVectors : Bool
  deriving DecidableEq, Repr

/-- The method `FDLSSPassParameters::Validate` (lines 132-136). -/
def FDLSSPassParameters.Validate (p : FDLSSPassParameters) : Checked Bool :=
  if p.OutputViewRect.Min = FIntPoint.ZeroValue then .ok true else .error .check

/-- The method `FDLSSPassParameters::GetOutputExtent` (lines 117-130). -/
def FDLSSPassParameters.GetOutputExtent (ext : Externals) (p : FDLSSPassParameters) :
    Checked FIntPoint :=
  match p.Validate with
  | .error e => .error e
  | .ok false => .error .check
  | .ok true =>
    match p.SceneColorInput with
    | none => .error .check
    | some SceneColorInput =>
      let InputExtent := SceneColorInput.Extent
      let QuantizedPrimaryUpscaleViewSize := ext.QuantizeSceneBufferSize p.OutputViewRect.Size
      .ok ⟨max InputExtent.X QuantizedPrimaryUpscaleViewSize.X,
           max InputExtent.Y QuantizedPrimaryUpscaleViewSize.Y⟩

/-! ## Static state -/

/-- A scheduler object: the member the source reads and writes. -/
structure FDLSSUpscaler where
  DLSSQualityMode : EDLSSQualityMode
  deriving DecidableEq, Repr

/-- The static members of `FDLSSUpscaler` (lines 168-175) and the objects made
by `MakeShared`.  A pointer to a scheduler object is a natural number: `0` is
`nullptr` and `a + 1` is the address of `Heap[a]`. -/
structure Statics where
  NGXRHIExtensions : Option NGXRHI
  DLSSUpscalerInstancesPerViewFamily : List Nat
  MinResolutionFraction : ℚ
  MaxResolutionFraction : ℚ
  NumRuntimeQualityModes : Nat
  ResolutionSettings : List FDLSSOptimalSettings
  Heap : List FDLSSUpscaler

/-- The statics as their initialisers leave them (lines 168-175). -/
def Statics.initial (ext : Externals) : Statics where
  NGXRHIExtensions := none
  DLSSUpscalerInstancesPerViewFamily := List.replicate 5 0
  MinResolutionFraction := ext.NumericLimitsMax
  MaxResolutionFraction := ext.NumericLimitsMin
  NumRuntimeQualityModes := 0
  ResolutionSettings := []
  Heap := []

/-- Range-checked `TArray::operator[]` with an `int32` index. -/
def TArrayGet {α : Type} (xs : List α) (i : Int) : Checked α :=
  if 0 ≤ i then
    match xs[i.toNat]? with
    | some x => .ok x
    | none => .error .rangeCheck
  else .error .rangeCheck

/-- The expression `ResolutionSettings[ToNGXQuality(Quality)]`. -/
def ResolutionSettingsAt (ext : Externals) (s : Statics) (Quality : EDLSSQualityMode) :
    Checked FDLSSOptimalSettings :=
  match ToNGXQuality Quality with
  | .error e => .error e
  | .ok q => TArrayGet s.ResolutionSettings (ext.PerfQualityValue q)

/-- The method `FDLSSUpscaler::IsQualityModeSupported` (lines 666-669). -/
def IsQualityModeSupported (ext : Externals) (s : Statics) (InQualityMode : EDLSSQualityMode) :
    Checked Bool :=
  match ResolutionSettingsAt ext s InQualityMode with
  | .error e => .error e
  | .ok r => .ok r.bIsSupported

/-- The shape shared by the five per-mode getters (lines 808-836):
`checkf(IsQualityModeSupported(Quality))`, then a member of the table entry. -/
def SupportedField {α : Type} (ext : Externals) (s : Statics) (Quality : EDLSSQualityMode)
    (field : FDLSSOptimalSettings → α) : Checked α :=
  match IsQualityModeSupported ext s Quality with
  | .error e => .error e
  | .ok false => .error .check
  | .ok true =>
    match ResolutionSettingsAt ext s Quality with
    | .error e => .error e
    | .ok r => .ok (field r)

/-- The method `GetOptimalResolutionFractionForQuality` (lines 808-812). -/
def GetOptimalResolutionFractionForQuality (ext : Externals) (s : Statics)
    (Quality : EDLSSQualityMode) : Checked ℚ :=
  SupportedField ext s Quality (·.OptimalResolutionFraction)

/-- The method `GetOptimalSharpnessForQuality` (lines 814-818). -/
def GetOptimalSharpnessForQuality (ext : Externals) (s : Statics)
    (Quality : EDLSSQualityMode) : Checked ℚ :=
  SupportedField ext s Quality (·.Sharpness)

/-- The method `GetMinResolutionFractionForQuality` (lines 820-824). -/
def GetMinResolutionFractionForQuality (ext : Externals) (s : Statics)
    (Quality : EDLSSQualityMode) : Checked ℚ :=
  SupportedField ext s Quality (·.MinResolutionFraction)

/-- The method `GetMaxResolutionFractionForQuality` (lines 826-830). -/
def GetMaxResolutionFractionForQuality (ext : Externals) (s : Statics)
    (Quality : EDLSSQualityMode) : Checked ℚ :=
  SupportedField ext s Quality (·.MaxResolutionFraction)

/-- The method `IsFixedResolutionFraction` (lines 832-836). -/
def IsFixedResolutionFraction (ext : Externals) (s : Statics)
    (Quality : EDLSSQualityMode) : Checked Bool :=
  SupportedField ext s Quality (·.IsFixedResolution)

/-- The method `GetMinUpsampleResolutionFraction` (lines 798-801). -/
def GetMinUpsampleResolutionFraction (s : Statics) : ℚ := s.MinResolutionFraction

/-- The method `GetMaxUpsampleResolutionFraction` (lines 803-806). -/
def GetMaxUpsampleResolutionFraction (s : Statics) : ℚ := s.MaxResolutionFraction

/-- The short-circuit conjunction `a && b()` whose right operand may terminate
the process. -/
def andAlso (a : Bool) (b : Checked Bool) : Checked Bool :=
  if a then b else .ok false

/-- The method `GetAutoQualityModeFromPixels` (lines 767-783). -/
def GetAutoQualityModeFromPixels (ext : Externals) (s : Statics) (PixelCount : Int) :
    Checked (Option EDLSSQualityMode) :=
  match andAlso (decide (PixelCount ≥ 8300000)) (IsQualityModeSupported ext s .UltraPerformance) with
  | .error e => .error e
  | .ok true => .ok (some .UltraPerformance)
  | .ok false =>
    match andAlso (decide (PixelCount ≥ 3690000)) (IsQualityModeSupported ext s .Performance) with
    | .error e => .error e
    | .ok true => .ok (some .Performance)
    | .ok false =>
      match andAlso (decide (PixelCount ≥ 2030000)) (IsQualityModeSupported ext s .Quality) with
      | .error e => .error e
      | .ok true => .ok (some .Quality)
      | .ok false => .ok none

/-! ## Startup and teardown -/

/-- The body of the constructor's loop once its two index checks have passed
(lines 245-256): the backend's record for the vendor enumerator `q` is stored
in the table and, when the mode is supported and not fixed-resolution, folded
into the global bounds and counted. -/
def StartupStepEffect (ext : Externals) (Backend : NGXRHI) (s : Statics)
    (q : NVSDK_NGX_PerfQuality_Value) : Statics :=
  let OptimalSettings := Backend.GetDLSSOptimalSettings q
  let s1 : Statics :=
    { s with ResolutionSettings :=
        s.ResolutionSettings.set (ext.PerfQualityValue q).toNat OptimalSettings }
  if OptimalSettings.bIsSupported && !OptimalSettings.IsFixedResolution then
    { s1 with
      MinResolutionFraction :=
        min s1.MinResolutionFraction OptimalSettings.OptimalResolutionFraction
      MaxResolutionFraction :=
        max s1.MaxResolutionFraction OptimalSettings.OptimalResolutionFraction
      NumRuntimeQualityModes := (s1.NumRuntimeQualityModes + 1) % 4294967296 }
  else s1

/-- One iteration of the constructor's loop over the quality modes
(lines 242-256). -/
def StartupStep (ext : Externals) (s : Statics) (QualityMode : EDLSSQualityMode) :
    Checked Statics :=
  match ToNGXQuality QualityMode with
  | .error e => .error e
  | .ok q =>
    if ¬ (ext.PerfQualityValue q < (s.ResolutionSettings.length : Int)) then .error .check
    else if ¬ (ext.PerfQualityValue q ≥ 0) then .error .check
    else
      match s.NGXRHIExtensions with
      | none => .error .nullDeref
      | some Backend => .ok (StartupStepEffect ext Backend s q)

/-- The loop of the constructor (line 240) over a list of quality modes. -/
def StartupLoop (ext : Externals) : Statics → List EDLSSQualityMode → Checked Statics
  | s, [] => .ok s
  | s, QualityMode :: rest =>
    match StartupStep ext s QualityMode with
    | .error e => .error e
    | .ok s1 => StartupLoop ext s1 rest

/-- A `check(IsQualityModeSupported(m))` of lines 267-269. -/
def CheckSupported (ext : Externals) (s : Statics) (m : EDLSSQualityMode) : Checked Unit :=
  match IsQualityModeSupported ext s m with
  | .error e => .error e
  | .ok false => .error .check
  | .ok true => .ok ()

/-- The statics on entry to the constructor's loop (lines 235-237). -/
def StartupEntry (s : Statics) (InNGXRHIExtensions : Option NGXRHI) : Statics :=
  { s with NGXRHIExtensions := InNGXRHIExtensions
           ResolutionSettings := List.replicate 5 FDLSSOptimalSettings.zero }

/-- The startup constructor `FDLSSUpscaler::FDLSSUpscaler(NGXRHI*)`
(lines 228-273), as its effect on the statics. -/
def FDLSSUpscaler.Startup (ext : Externals) (s : Statics) (InNGXRHIExtensions : Option NGXRHI) :
    Checked Statics :=
  if s.NGXRHIExtensions.isSome then .error .check
  else
    match StartupLoop ext (StartupEntry s InNGXRHIExtensions) EDLSSQualityMode.all with
    | .error e => .error e
    | .ok s1 =>
      match CheckSupported ext s1 .Performance with
      | .error e => .error e
      | .ok _ =>
        match CheckSupported ext s1 .Balanced with
        | .error e => .error e
        | .ok _ =>
          match CheckSupported ext s1 .Quality with
          | .error e => .error e
          | .ok _ => .ok s1

/-- The function `FDLSSUpscaler::ReleaseStaticResources` (lines 283-293). -/
def ReleaseStaticResources (s : Statics) : Statics :=
  { s with ResolutionSettings := []
           DLSSUpscalerInstancesPerViewFamily :=
             s.DLSSUpscalerInstancesPerViewFamily.map (fun _ => 0) }

/-! ## Instance pool -/

/-- The copy constructor `FDLSSUpscaler(const FDLSSUpscaler*, EDLSSQualityMode)`
(lines 220-225). -/
def FDLSSUpscaler.Copy (s : Statics) (InUpscaler : FDLSSUpscaler)
    (InQualityMode : EDLSSQualityMode) : Checked FDLSSUpscaler :=
  let made : FDLSSUpscaler := { InUpscaler with DLSSQualityMode := InQualityMode }
  if s.NGXRHIExtensions.isSome then .ok made else .error .check

/-- The function `FDLSSUpscaler::GetUpscalerInstanceForViewFamily`
(lines 178-187): the returned pointer and the statics afterwards. -/
def GetUpscalerInstanceForViewFamily (ext : Externals) (s : Statics)
    (InUpscaler : FDLSSUpscaler) (InQualityMode : EDLSSQualityMode) : Checked (Nat × Statics) :=
  match ToNGXQuality InQualityMode with
  | .error e => .error e
  | .ok q =>
    let ArrayIndex : Nat := (ext.PerfQualityValue q % 4294967296).toNat
    match s.DLSSUpscalerInstancesPerViewFamily[ArrayIndex]? with
    | none => .error .rangeCheck
    | some slot =>
      if slot = 0 then
        match FDLSSUpscaler.Copy s InUpscaler InQualityMode with
        | .error e => .error e
        | .ok made =>
          let p := s.Heap.length + 1
          .ok (p, { s with
                    Heap := s.Heap ++ [made]
                    DLSSUpscalerInstancesPerViewFamily :=
                      s.DLSSUpscalerInstancesPerViewFamily.set ArrayIndex p })
      else .ok (slot, s)

/-- A sequence of `GetUpscalerInstanceForViewFamily` calls, one per listed
pair of caller object and quality mode, threading the statics. -/
def GetUpscalerInstances (ext : Externals) :
    Statics → List (FDLSSUpscaler × EDLSSQualityMode) → Checked Statics
  | s, [] => .ok s
  | s, (InUpscaler, InQualityMode) :: rest =>
    match GetUpscalerInstanceForViewFamily ext s InUpscaler InQualityMode with
    | .error e => .error e
    | .ok (_, s1) => GetUpscalerInstances ext s1 rest

/-- The function `FDLSSUpscaler::IsValidUpscalerInstance` (lines 189-206). -/
def IsValidUpscalerInstance (s : Statics) (InUpscaler : Nat) : Bool :=
  if InUpscaler = 0 then false
  else s.DLSSUpscalerInstancesPerViewFamily.any (fun UpscalerInstance => UpscalerInstance == InUpscaler)

/-! ## The upscale pass: validation stage of `AddDLSSPass` -/

/-- The globals and console variables read by `IsDLSSActive` (lines 671-678);
`CVarTemporalAAUpscaler` is `none` when the variable is not found. -/
structure Globals where
  GTemporalUpscaler : Nat
  CVarTemporalAAUpscaler : Option Int
  CVarNGXDLSSEnable : Int
  deriving DecidableEq, Repr

/-- The method `FDLSSUpscaler::IsDLSSActive` (lines 671-678) of the object at
address `This`. -/
def IsDLSSActive (g : Globals) (s : Statics) (This : Nat) : Bool :=
  ((g.GTemporalUpscaler == This) || IsValidUpscalerInstance s This) &&
    (match g.CVarTemporalAAUpscaler with
     | none => false
     | some v => v != 0) &&
    (g.CVarNGXDLSSEnable != 0)

/-- The members of `FViewInfo` (with `View.Family->DeltaWorldTime`) that
`AddDLSSPass` reads. -/
structure FViewInfo where
  bCameraCut : Bool
  bStatePrevViewInfoIsReadOnly : Bool
  TemporalJitterPixels : ℚ × ℚ
  DeltaWorldTime : ℚ
  PreExposure : ℚ
  deriving DecidableEq

/-- The local `bCameraCut` of `AddDLSSPass` (line 428); `OutputHistory` is
`none` when the pointer is null. -/
def CameraCut (ext : Externals) (View : FViewInfo) (InputHistory : FTemporalAAHistory)
    (OutputHistory : Option FTemporalAAHistory) : Bool :=
  !ext.TemporalAAHistoryIsValid InputHistory || View.bCameraCut || OutputHistory.isNone

/-- Rounding of a rational number to the nearest integer, ties to the even
integer. -/
def RoundHalfEven (x : ℚ) : Int :=
  let f := ⌊x⌋
  if x - f < 1 / 2 then f
  else if 1 / 2 < x - f then f + 1
  else if f % 2 = 0 then f else f + 1

/-- Rounding of an exact value to IEEE 754 single precision (`float`), to
nearest with ties to even: a value with binary exponent `e` is rounded to a
multiple of `2^(e-23)`, a subnormal one to a multiple of `2^-149`. Magnitudes
of `2^128 - 2^103` and more, which round to an infinity, are outside the
represented range. -/
def RoundToFloat (x : ℚ) : ℚ :=
  if x = 0 then 0
  else
    let Quantum : ℚ := 2 ^ (max (Int.log 2 |x|) (-126) - 23)
    RoundHalfEven (x / Quantum) * Quantum

/-- The locals `ScaleX` / `ScaleY` of `AddDLSSPass` (lines 434-435):
`float(Src) / float(Dest)`.  For `Dest = 0` the C++ value is an infinity or a
NaN; it is then never compared, because the check is satisfied by
`Dest < 100`. -/
def Scale (ext : Externals) (Src Dest : Int) : ℚ :=
  ext.roundToFloat (ext.roundToFloat Src / ext.roundToFloat Dest)

/-- The condition of one of the `checkf`s of lines 461-462:
`Dest < 100 || Min(mode) - 0.01f <= Scale && Scale <= Max(mode) + 0.01f`,
evaluated left to right with short-circuiting. -/
def ResolutionFractionCondition (ext : Externals) (s : Statics)
    (DLSSQualityMode : EDLSSQualityMode) (Dest : Int) (ScaleAxis : ℚ) : Checked Bool :=
  if Dest < 100 then .ok true
  else
    match GetMinResolutionFractionForQuality ext s DLSSQualityMode with
    | .error e => .error e
    | .ok lo =>
      if ext.roundToFloat (lo - ext.roundToFloat (1 / 100)) ≤ ScaleAxis then
        match GetMaxResolutionFractionForQuality ext s DLSSQualityMode with
        | .error e => .error e
        | .ok hi => .ok (decide (ScaleAxis ≤ ext.roundToFloat (hi + ext.roundToFloat (1 / 100))))
      else .ok false

/-- A `check(c)` / `checkf(c, ...)` whose condition `c` may itself terminate
the process. -/
def Check (c : Checked Bool) : Checked Unit :=
  match c with
  | .error e => .error e
  | .ok false => .error .check
  | .ok true => .ok ()

/-- The two resolution-fraction `checkf`s of `AddDLSSPass` (lines 461-462). -/
def CheckResolutionFractions (ext : Externals) (s : Statics)
    (DLSSQualityMode : EDLSSQualityMode) (SrcRect DestRect : FIntRect) : Checked Unit :=
  let ScaleX := Scale ext SrcRect.Width DestRect.Width
  let ScaleY := Scale ext SrcRect.Height DestRect.Height
  match Check (ResolutionFractionCondition ext s DLSSQualityMode DestRect.Width ScaleX) with
  | .error e => .error e
  | .ok _ => Check (ResolutionFractionCondition ext s DLSSQualityMode DestRect.Height ScaleY)

/-- The quality-mode `checkf`s of `AddDLSSPass` (lines 455-456). -/
def CheckQualityMode (ext : Externals) (s : Statics) (DLSSQualityMode : EDLSSQualityMode) :
    Checked Unit :=
  if DLSSQualityMode = .NumValues then .error .check
  else Check (IsQualityModeSupported ext s DLSSQualityMode)

/-- The function `DumpTexture` (lines 295-320): the texture, taken to be a 2D
texture, is dereferenced, and when the stream opens the file is written. The
bytes written are not represented. -/
def DumpTexture (ext : Externals) (Files : List DumpFile) (Filename : DumpFile)
    (Texture : Option FRHITexture) : Checked (List DumpFile) :=
  match Texture with
  | none => .error .nullDeref
  | some _ => .ok (if ext.OpenForWriting Filename then Files ++ [Filename] else Files)

/-- The function `TextureWriting_RenderThread` (lines 323-355). It runs as a
render command, on the rendering thread, so its first check holds. It returns
at once when the first or the second texture is null; otherwise it
dereferences the velocity texture, dumps the four textures to files named
after `count`, and increments the `int` variable `count`. -/
def TextureWriting_RenderThread (ext : Externals) (D : DebugDump)
    (Texture TextureInput TextureDepth TextureVelocity : Option FRHITexture) :
    Checked DebugDump :=
  match Texture with
  | none => .ok D
  | some T =>
    match TextureInput with
    | none => .ok D
    | some _ =>
      match TextureVelocity with
      | none => .error .nullDeref
      | some V =>
        let FilenameOutput : DumpFile := ⟨"DLSS_", D.count, T.SizeX, T.SizeY, "_output.txt"⟩
        let FilenameInput : DumpFile := ⟨"DLSS_", D.count, T.SizeX, T.SizeY, "_input.txt"⟩
        let FilenameDepth : DumpFile := ⟨"DLSS_", D.count, T.SizeX, T.SizeY, "_depth.txt"⟩
        let FilenameVelocity : DumpFile :=
          ⟨"DLSS_", D.count, V.SizeX, V.SizeY, "_velocity.txt"⟩
        match DumpTexture ext D.Files FilenameOutput Texture with
        | .error e => .error e
        | .ok F1 =>
          match DumpTexture ext F1 FilenameInput TextureInput with
          | .error e => .error e
          | .ok F2 =>
            match DumpTexture ext F2 FilenameDepth TextureDepth with
            | .error e => .error e
            | .ok F3 =>
              match DumpTexture ext F3 FilenameVelocity TextureVelocity with
              | .error e => .error e
              | .ok F4 => .ok ⟨wrap32 (D.count + 1), F4⟩

/-- The capture of lines 437-450: when `RT[0]` of the input history is valid,
`RT[1]`, `RT[2]` and `RT[3]` are dereferenced and the render command runs
`TextureWriting_RenderThread` on the four targetable textures. The pass is
set up on the rendering thread, where the engine runs an enqueued render
command at once. -/
def CaptureInputHistory (ext : Externals) (D : DebugDump) (InputHistory : FTemporalAAHistory) :
    Checked DebugDump :=
  match InputHistory.RT[0]? with
  | some (some RT0) =>
    match InputHistory.RT[1]?, InputHistory.RT[2]?, InputHistory.RT[3]? with
    | some (some RT1), some (some RT2), some (some RT3) =>
      TextureWriting_RenderThread ext D (ext.TargetableTexture RT0) (ext.TargetableTexture RT1)
        (ext.TargetableTexture RT2) (ext.TargetableTexture RT3)
    | _, _, _ => .error .nullDeref
  | _ => .ok D

/-- What the validation stage of `AddDLSSPass` leaves in its locals. -/
structure PassLocals where
  bCameraCut : Bool
  OutputExtent : FIntPoint
  SrcRect : FIntRect
  DestRect : FIntRect
  deriving DecidableEq, Repr

/-- Lines 424-462 of `FDLSSUpscaler::AddDLSSPass`, for the scheduler object
`Self` at address `This`: the checks and the capture up to the creation of the
output texture, in the order of the source; the locals computed on the way and
the debug dump after the capture. -/
def AddDLSSPassValidation (ext : Externals) (g : Globals) (s : Statics) (This : Nat)
    (Self : FDLSSUpscaler) (View : FViewInfo) (Inputs : FDLSSPassParameters)
    (InputHistory : FTemporalAAHistory) (OutputHistory : Option FTemporalAAHistory)
    (D : DebugDump) : Checked (PassLocals × DebugDump) :=
  if ¬ IsValidUpscalerInstance s This then .error .check
  else if ¬ IsDLSSActive g s This then .error .check
  else
    let bCameraCut := CameraCut ext View InputHistory OutputHistory
    match Inputs.GetOutputExtent ext with
    | .error e => .error e
    | .ok OutputExtent =>
      let SrcRect := Inputs.InputViewRect
      let DestRect := Inputs.OutputViewRect
      match CaptureInputHistory ext D InputHistory with
      | .error e => .error e
      | .ok D1 =>
        match CheckQualityMode ext s Self.DLSSQualityMode with
        | .error e => .error e
        | .ok _ =>
          match CheckResolutionFractions ext s Self.DLSSQualityMode SrcRect DestRect with
          | .error e => .error e
          | .ok _ => .ok (⟨bCameraCut, OutputExtent, SrcRect, DestRect⟩, D1)

/-! ## Auxiliary definitions for the statements -/

/-- The vendor enumerators in the order in which the constructor's loop
visits them: `ToNGXQuality` applied to `EDLSSQualityMode.all`. -/
def NVSDK_NGX_PerfQuality_Value.visited : List NVSDK_NGX_PerfQuality_Value :=
  [.UltraPerformance, .MaxPerf, .Balanced, .MaxQuality, .UltraQuality]

/-- The statics after the loop bodies for the listed enumerators have run. -/
def StartupEffects (ext : Externals) (Backend : NGXRHI) (s : Statics)
    (qs : List NVSDK_NGX_PerfQuality_Value) : Statics :=
  qs.foldl (StartupStepEffect ext Backend) s

/-- Whether the constructor folds a record into the global bounds (line 250). -/
def CountsForBounds (r : FDLSSOptimalSettings) : Bool :=
  r.bIsSupported && !r.IsFixedResolution

/-- The optimal fractions of the records that the constructor folds into the
global bounds, for the listed enumerators in order. -/
def CountedFractions (Backend : NGXRHI) (qs : List NVSDK_NGX_PerfQuality_Value) : List ℚ :=
  (qs.filter (fun q => CountsForBounds (Backend.GetDLSSOptimalSettings q))).map
    (fun q => (Backend.GetDLSSOptimalSettings q).OptimalResolutionFraction)

/-! ## Concrete instances used for evaluation -/

/-- An instance of the external declarations: the enumerator order of the
vendor header, the limits of IEEE single precision, a quantizer that rounds
up to a multiple of four, exact arithmetic, and a history that is valid when
its first render-target slot is filled; every pooled render target has a
targetable texture of its extent, and every file of the capture can be opened. -/
def Externals.sample : Externals where
  PerfQualityValue := fun q =>
    match q with
    | .MaxPerf => 0
    | .Balanced => 1
    | .MaxQuality => 2
    | .UltraPerformance => 3
    | .UltraQuality => 4
  NumericLimitsMax := 340282346638528859811704183484516925440
  NumericLimitsMin := 1 / 85070591730234615865843651857942052864
  QuantizeSceneBufferSize := fun v => ⟨(v.X + 3) / 4 * 4, (v.Y + 3) / 4 * 4⟩
  roundToFloat := fun x => x
  TemporalAAHistoryIsValid := fun h =>
    match h.RT.head? with
    | some (some _) => true
    | _ => false
  TargetableTexture := fun t => some ⟨t.Extent.X, t.Extent.Y⟩
  OpenForWriting := fun _ => true

/-- A settings record of a supported, variable-resolution mode with the given
minimum, optimal and maximum fractions. -/
def SupportedSettings (lo opt hi : ℚ) : FDLSSOptimalSettings :=
  ⟨true, opt, lo, hi, 0, false⟩

/-- A backend that supports Performance, Balanced and Quality only. -/
def Backend.threeModes : NGXRHI where
  GetDLSSOptimalSettings := fun q =>
    match q with
    | .MaxPerf => SupportedSettings (1 / 2) (1 / 2) (3 / 5)
    | .Balanced => SupportedSettings (1 / 2) (29 / 50) (7 / 10)
    | .MaxQuality => SupportedSettings (1 / 2) (2 / 3) (1 : ℚ)
    | .UltraPerformance => FDLSSOptimalSettings.zero
    | .UltraQuality => FDLSSOptimalSettings.zero

/-- A backend whose record for Performance is supported with a minimum
fraction above its optimal fraction. -/
def Backend.unordered : NGXRHI where
  GetDLSSOptimalSettings := fun q =>
    match q with
    | .MaxPerf => SupportedSettings (9 / 10) (1 / 2) (1 : ℚ)
    | .Balanced => SupportedSettings (1 / 2) (29 / 50) (7 / 10)
    | .MaxQuality => SupportedSettings (1 / 2) (2 / 3) (1 : ℚ)
    | .UltraPerformance => FDLSSOptimalSettings.zero
    | .UltraQuality => FDLSSOptimalSettings.zero

/-- A backend whose only supported variable-resolution mode, Performance,
reports the optimal fraction `0`; Balanced and Quality are supported with a
fixed resolution. -/
def Backend.zeroFraction : NGXRHI where
  GetDLSSOptimalSettings := fun q =>
    match q with
    | .MaxPerf => SupportedSettings 0 0 1
    | .Balanced => ⟨true, 29 / 50, 29 / 50, 29 / 50, 0, true⟩
    | .MaxQuality => ⟨true, 2 / 3, 2 / 3, 2 / 3, 0, true⟩
    | .UltraPerformance => FDLSSOptimalSettings.zero
    | .UltraQuality => FDLSSOptimalSettings.zero

/-- The table that startup with the three-mode backend builds under the sample
numbering. -/
def Statics.sampleTable : List FDLSSOptimalSettings :=
  [SupportedSettings (1 / 2) (1 / 2) (3 / 5), SupportedSettings (1 / 2) (29 / 50) (7 / 10),
   SupportedSettings (1 / 2) (2 / 3) 1, FDLSSOptimalSettings.zero, FDLSSOptimalSettings.zero]

/-- The statics after startup with the three-mode backend. -/
def Statics.sample : Statics where
  NGXRHIExtensions := some Backend.threeModes
  DLSSUpscalerInstancesPerViewFamily := List.replicate 5 0
  MinResolutionFraction := 1 / 2
  MaxResolutionFraction := 2 / 3
  NumRuntimeQualityModes := 3
  ResolutionSettings := Statics.sampleTable
  Heap := []

/-- The sample statics after the pool has created the Performance instance,
which then lives at address `1`. -/
def Statics.samplePooled : Statics where
  NGXRHIExtensions := some Backend.threeModes
  DLSSUpscalerInstancesPerViewFamily := [1, 0, 0, 0, 0]
  MinResolutionFraction := 1 / 2
  MaxResolutionFraction := 2 / 3
  NumRuntimeQualityModes := 3
  ResolutionSettings := Statics.sampleTable
  Heap := [⟨.Performance⟩]

/-- Globals with the temporal upscaler enabled and set to the object at
address `1`. -/
def Globals.sample : Globals := ⟨1, some 1, 1⟩

/-- A view without an explicit camera cut and with writable history. -/
def FViewInfo.sample : FViewInfo := ⟨false, false, (0, 0), 1 / 60, 1⟩

/-- Pass parameters that upscale a `640x360` view to `1280x720`. -/
def FDLSSPassParameters.sample : FDLSSPassParameters :=
  ⟨⟨⟨0, 0⟩, ⟨640, 360⟩⟩, ⟨⟨0, 0⟩, ⟨1280, 720⟩⟩, some ⟨1, ⟨640, 360⟩⟩, some ⟨2, ⟨640, 360⟩⟩,
   some ⟨3, ⟨640, 360⟩⟩, true⟩

/-- Pass parameters that upscale a `426x240` view to `1280x720`, a third of
the output resolution. -/
def FDLSSPassParameters.sampleThird : FDLSSPassParameters :=
  ⟨⟨⟨0, 0⟩, ⟨426, 240⟩⟩, ⟨⟨0, 0⟩, ⟨1280, 720⟩⟩, some ⟨1, ⟨426, 240⟩⟩, some ⟨2, ⟨426, 240⟩⟩,
   some ⟨3, ⟨426, 240⟩⟩, true⟩

/-- A history whose four render-target slots are filled. -/
def FTemporalAAHistory.sample : FTemporalAAHistory :=
  ⟨[some ⟨10, ⟨1280, 720⟩⟩, some ⟨11, ⟨640, 360⟩⟩, some ⟨12, ⟨640, 360⟩⟩,
    some ⟨13, ⟨640, 360⟩⟩], ⟨⟨0, 0⟩, ⟨1280, 720⟩⟩, ⟨1280, 720⟩⟩

/-- The acceptance condition of one axis in the words of the specification,
for a tolerance `ε` (the specification's is `0.01`): the destination dimension
is below 100 px, or the exact fraction `Src / Dest` lies in
`[lo - ε, hi + ε]`, where `lo` and `hi` are the mode's minimum and maximum
fractions. -/
def AxisAccepted (ε lo hi : ℚ) (Src Dest : Int) : Prop :=
  Dest < 100 ∨ (lo - ε ≤ (Src : ℚ) / (Dest : ℚ) ∧ (Src : ℚ) / (Dest : ℚ) ≤ hi + ε)

instance (ε lo hi : ℚ) (Src Dest : Int) : Decidable (AxisAccepted ε lo hi Src Dest) := by
  unfold AxisAccepted
  infer_instance

/-- The sample externals with single-precision rounding. -/
def Externals.binary32 : Externals := { Externals.sample with roundToFloat := RoundToFloat }

/-- The pooled sample statics with a Performance record whose minimum fraction
is `1/16` and whose maximum fraction is `1`. -/
def Statics.sampleSixteenth : Statics :=
  { Statics.samplePooled with
    ResolutionSettings :=
      [SupportedSettings (1 / 16) (1 / 2) 1, SupportedSettings (1 / 2) (29 / 50) (7 / 10),
       SupportedSettings (1 / 2) (2 / 3) 1, FDLSSOptimalSettings.zero,
       FDLSSOptimalSettings.zero] }

/-- The pooled sample statics with a Performance record whose minimum and
optimal fractions are `11184811 / 2^24`, the `float` nearest to `2/3`
(`0.6666667f`), and whose maximum fraction is `1`. -/
def Statics.sampleTwoThirds : Statics :=
  { Statics.samplePooled with
    ResolutionSettings :=
      [SupportedSettings (11184811 / 16777216) (11184811 / 16777216) 1,
       SupportedSettings (1 / 2) (29 / 50) (7 / 10), SupportedSettings (1 / 2) (2 / 3) 1,
       FDLSSOptimalSettings.zero, FDLSSOptimalSettings.zero] }

/-- The condition of one of the `checkf`s of lines 461-462 as the source
computes it, in `float` arithmetic, from the table's fractions `lo` and `hi`:
`Dest < 100 || lo - 0.01f <= Scale && Scale <= hi + 0.01f`. -/
def AxisCheck (ext : Externals) (lo hi : ℚ) (Src Dest : Int) : Prop :=
  Dest < 100 ∨
    (ext.roundToFloat (lo - ext.roundToFloat (1 / 100)) ≤ Scale ext Src Dest ∧
      Scale ext Src Dest ≤ ext.roundToFloat (hi + ext.roundToFloat (1 / 100)))

instance (ext : Externals) (lo hi : ℚ) (Src Dest : Int) :
    Decidable (AxisCheck ext lo hi Src Dest) := by
  unfold AxisCheck
  infer_instance

/-- The debug dump before any capture: `count` is `0` (line 322) and no file
has been written. -/
def DebugDump.initial : DebugDump := ⟨0, []⟩

/-- The debug dump after the capture of the sample input history, started from
the initial dump. -/
def DebugDump.sampleCaptured : DebugDump :=
  ⟨1, [⟨"DLSS_", 0, 1280, 720, "_output.txt"⟩, ⟨"DLSS_", 0, 1280, 720, "_input.txt"⟩,
       ⟨"DLSS_", 0, 1280, 720, "_depth.txt"⟩, ⟨"DLSS_", 0, 640, 360, "_velocity.txt"⟩]⟩

/-- Every vendor enumerator value is an index into the settings table. -/
def IndicesInRange (ext : Externals) (s : Statics) : Prop :=
  ∀ q, 0 ≤ ext.PerfQualityValue q ∧ ext.PerfQualityValue q < (s.ResolutionSettings.length : Int)

/-! ## Definitions for the selector and the mode count -/

/-- The position of a quality mode in the ordering by resolution fraction,
`UltraPerformance < Performance < Balanced < Quality < UltraQuality`. -/
def FractionRank : EDLSSQualityMode → Nat
  | .UltraPerformance => 0
  | .Performance => 1
  | .Balanced => 2
  | .Quality => 3
  | .UltraQuality => 4
  | .NumValues => 5

/-- The number of quality modes, out of the five, that a backend reports as
supported. -/
def SupportedCount (Backend : NGXRHI) : Nat :=
  (NVSDK_NGX_PerfQuality_Value.visited.filter
    (fun q => (Backend.GetDLSSOptimalSettings q).bIsSupported)).length

/-- A backend that supports all five modes with variable resolution. -/
def Backend.allModes : NGXRHI where
  GetDLSSOptimalSettings := fun q =>
    match q with
    | .MaxPerf => SupportedSettings (1 / 2) (1 / 2) (3 / 5)
    | .Balanced => SupportedSettings (1 / 2) (29 / 50) (7 / 10)
    | .MaxQuality => SupportedSettings (1 / 2) (2 / 3) (1 : ℚ)
    | .UltraPerformance => SupportedSettings (1 / 3) (1 / 3) (1 / 2)
    | .UltraQuality => SupportedSettings (3 / 4) (77 / 100) (1 : ℚ)

/-- The statics after startup with the all-modes backend. -/
def Statics.sampleAllModes : Statics where
  NGXRHIExtensions := some Backend.allModes
  DLSSUpscalerInstancesPerViewFamily := List.replicate 5 0
  MinResolutionFraction := 1 / 3
  MaxResolutionFraction := 77 / 100
  NumRuntimeQualityModes := 5
  ResolutionSettings :=
    [SupportedSettings (1 / 2) (1 / 2) (3 / 5), SupportedSettings (1 / 2) (29 / 50) (7 / 10),
     SupportedSettings (1 / 2) (2 / 3) 1, SupportedSettings (1 / 3) (1 / 3) (1 / 2),
     SupportedSettings (3 / 4) (77 / 100) 1]
  Heap := []

/-! ## Definitions for the instance pool statements -/

/-- The scheduler object that a pointer refers to: `Heap[p - 1]` for a
non-null `p`. -/
def Statics.Deref (s : Statics) (p : Nat) : Option FDLSSUpscaler :=
  if p = 0 then none else s.Heap[p - 1]?

/-- Every filled pool slot points to a live object whose quality mode maps to
the slot's vendor enumerator. -/
def PoolBound (ext : Externals) (s : Statics) : Prop :=
  ∀ (q : NVSDK_NGX_PerfQuality_Value) (p : Nat),
    s.DLSSUpscalerInstancesPerViewFamily[(ext.PerfQualityValue q).toNat]? = some p → p ≠ 0 →
      ∃ U, s.Deref p = some U ∧ ToNGXQuality U.DLSSQualityMode = .ok q

/-! ## The upscale pass: dispatch and history stage of `AddDLSSPass` -/

/-- The console variables that `AddDLSSPass` reads on the render thread
(lines 508-512) and the texture that the engine's `GetEyeAdaptationTexture`
returns for the view (line 496). -/
structure PassSettings where
  CVarNGXDLSSSharpness : ℚ
  CVarNGXDLSSAutoExposure : Int
  CVarNGXDLSSReleaseMemoryOnDelete : Int
  EyeAdaptation : Option FRDGTexture
  deriving DecidableEq

/-- The engine's `FMath::Clamp(X, Min, Max)`:
`X < Min ? Min : X < Max ? X : Max`. -/
def FMathClamp (X Min Max : ℚ) : ℚ :=
  if X < Min then Min else if X < Max then X else Max

/-- The members of `FRHIDLSSArguments` that the pass fills in (lines 525-566);
the RHI texture behind an RDG texture is the texture itself. -/
structure FRHIDLSSArguments where
  SrcRect : FIntRect
  DestRect : FIntRect
  Sharpness : ℚ
  bReset : Bool
  JitterOffset : ℚ × ℚ
  MotionVectorScale : ℚ × ℚ
  bHighResolutionMotionVectors : Bool
  DeltaTime : ℚ
  bReleaseMemoryOnDelete : Bool
  PerfQuality : Int
  InputColor : FRDGTexture
  InputMotionVectors : FRDGTexture
  InputDepth : FRDGTexture
  InputExposure : FRDGTexture
  PreExposure : ℚ
  OutputColor : FRDGTexture
  bUseAutoExposure : Bool
  deriving DecidableEq

/-- An `FDLSSUpscalerHistory` object: its own address and the address of the
backend state it shares (`0` when the shared pointer is null). -/
structure FDLSSUpscalerHistory where
  Address : Nat
  DLSSState : Nat
  deriving DecidableEq, Repr

/-- The local `DLSSState` of line 482, with the largest identity in use
afterwards: the state of the input custom history when that history and its
state are not null, otherwise a state made by `MakeShared` at a fresh
address. -/
def ResolveDLSSState (InputCustomHistory : Option FDLSSUpscalerHistory) (Fresh : Nat) :
    Nat × Nat :=
  match InputCustomHistory with
  | some h => if h.DLSSState ≠ 0 then (h.DLSSState, Fresh) else (Fresh + 1, Fresh + 1)
  | none => (Fresh + 1, Fresh + 1)

/-- The body of the render-graph pass (lines 523-573), run when the graph
executes: the arguments handed to `ExecuteDLSS`. -/
def DLSSPassExecute (cfg : PassSettings) (View : FViewInfo) (Inputs : FDLSSPassParameters)
    (bCameraCut : Bool) (Sharpness : ℚ) (NGXPerfQuality : Int) (SceneColorOutput : FRDGTexture) :
    Checked FRHIDLSSArguments :=
  match Inputs.SceneColorInput with
  | none => .error .check
  | some InputColor =>
    match Inputs.SceneVelocityInput with
    | none => .error .check
    | some InputMotionVectors =>
      match Inputs.SceneDepthInput with
      | none => .error .check
      | some InputDepth =>
        match cfg.EyeAdaptation with
        | none => .error .check
        | some InputExposure =>
          .ok { SrcRect := Inputs.InputViewRect
                DestRect := Inputs.OutputViewRect
                Sharpness := Sharpness
                bReset := bCameraCut
                JitterOffset := View.TemporalJitterPixels
                MotionVectorScale := (1, 1)
                bHighResolutionMotionVectors := Inputs.bHighResolutionMotionVectors
                DeltaTime := View.DeltaWorldTime
                bReleaseMemoryOnDelete := cfg.CVarNGXDLSSReleaseMemoryOnDelete != 0
                PerfQuality := NGXPerfQuality
                InputColor := InputColor
                InputMotionVectors := InputMotionVectors
                InputDepth := InputDepth
                InputExposure := InputExposure
                PreExposure := View.PreExposure
                OutputColor := SceneColorOutput
                bUseAutoExposure := cfg.CVarNGXDLSSAutoExposure != 0 }

/-- The engine's `QueueTextureExtraction(Texture, &Slot)`: the texture is
dereferenced, and the slot holds it once the graph has executed. -/
def QueueTextureExtraction (Texture : Option FRDGTexture) : Checked (Option FRDGTexture) :=
  match Texture with
  | none => .error .nullDeref
  | some t => .ok (some t)

/-- The history extraction of lines 576-587: the output history after the
pass (`none` when the pointer is null). -/
def ExtractHistory (View : FViewInfo) (Inputs : FDLSSPassParameters) (SceneColor : FRDGTexture)
    (DestRect : FIntRect) (OutputExtent : FIntPoint) (OutputHistory : Option FTemporalAAHistory) :
    Checked (Option FTemporalAAHistory) :=
  match OutputHistory with
  | none => .ok none
  | some History =>
    if View.bStatePrevViewInfoIsReadOnly then .ok (some History)
    else
      let Released := History.RT.map (fun _ => (none : Option FRDGTexture))
      match QueueTextureExtraction (some SceneColor) with
      | .error e => .error e
      | .ok r0 =>
        match QueueTextureExtraction Inputs.SceneColorInput with
        | .error e => .error e
        | .ok r1 =>
          match QueueTextureExtraction Inputs.SceneDepthInput with
          | .error e => .error e
          | .ok r2 =>
            match QueueTextureExtraction Inputs.SceneVelocityInput with
            | .error e => .error e
            | .ok r3 =>
              .ok (some { RT := (((Released.set 0 r0).set 1 r1).set 2 r2).set 3 r3
                          ViewportRect := DestRect
                          ReferenceBufferSize := OutputExtent })

/-- The custom-history step of lines 644-650: the slot behind
`OutputCustomHistoryInterface` after the pass (`none` when the pointer is
null), and the largest identity in use afterwards. -/
def ExtractCustomHistory (View : FViewInfo) (DLSSState : Nat) (Fresh : Nat)
    (OutputCustomHistory : Option (Option FDLSSUpscalerHistory)) :
    Option (Option FDLSSUpscalerHistory) × Nat :=
  match OutputCustomHistory with
  | none => (none, Fresh)
  | some Slot =>
    if View.bStatePrevViewInfoIsReadOnly then (some Slot, Fresh)
    else
      match Slot with
      | some Held => (some (some Held), Fresh)
      | none => (some (some ⟨Fresh + 1, DLSSState⟩), Fresh + 1)

/-- The two readback passes of lines 590-641, run when the graph executes:
each writes one file, named after the value of `count` at that time, when its
stream opens. The graph is taken to execute before the next capture, so that
value is the one the capture of this pass leaves. The unused local
`ExtendXWithMSAA` is left out. -/
def ReadbackPasses (ext : Externals) (D : DebugDump) (OutputExtent : FIntPoint)
    (SrcRect : FIntRect) : DebugDump :=
  let Filename : DumpFile :=
    ⟨"map_DLSS_", D.count, OutputExtent.X, OutputExtent.Y, "_output.txt"⟩
  let F1 := if ext.OpenForWriting Filename then D.Files ++ [Filename] else D.Files
  let FilenameInput : DumpFile :=
    ⟨"map_DLSS_", D.count, SrcRect.Width, SrcRect.Height, "_input.txt"⟩
  let F2 := if ext.OpenForWriting FilenameInput then F1 ++ [FilenameInput] else F1
  ⟨D.count, F2⟩

/-- What `AddDLSSPass` returns and leaves behind: the output texture, the
backend state and the arguments handed to `ExecuteDLSS` when the graph
executes the pass, the view's output history and custom-history slot after the
pass, the largest identity in use, the static members and the scheduler
object `*this` after the pass, and the debug dump once the graph has executed
the passes added here. -/
structure FDLSSPassResult where
  SceneColor : FRDGTexture
  DLSSState : Nat
  Request : Checked FRHIDLSSArguments
  OutputHistory : Option FTemporalAAHistory
  OutputCustomHistory : Option (Option FDLSSUpscalerHistory)
  Fresh : Nat
  Statics : Statics
  Instance : FDLSSUpscaler
  Dump : DebugDump

/-- The method `FDLSSUpscaler::AddDLSSPass` (lines 414-652) for the scheduler
object `Self` at address `This`.  `Fresh` is the largest identity in use
before the pass; the output texture created at line 477 gets the next one.
`D` is the debug dump before the pass. No statement of the method assigns a
static member or a member of `*this`. -/
def AddDLSSPass (ext : Externals) (g : Globals) (cfg : PassSettings) (s : Statics) (This : Nat)
    (Self : FDLSSUpscaler) (View : FViewInfo) (Inputs : FDLSSPassParameters)
    (InputHistory : FTemporalAAHistory) (OutputHistory : Option FTemporalAAHistory)
    (InputCustomHistory : Option FDLSSUpscalerHistory)
    (OutputCustomHistory : Option (Option FDLSSUpscalerHistory)) (Fresh : Nat)
    (D : DebugDump) : Checked FDLSSPassResult :=
  match AddDLSSPassValidation ext g s This Self View Inputs InputHistory OutputHistory D with
  | .error e => .error e
  | .ok (Locals, D1) =>
    let SceneColor : FRDGTexture := ⟨Fresh + 1, Locals.OutputExtent⟩
    let State := ResolveDLSSState InputCustomHistory (Fresh + 1)
    let Sharpness := FMathClamp cfg.CVarNGXDLSSSharpness (-1) 1
    match ToNGXQuality Self.DLSSQualityMode with
    | .error e => .error e
    | .ok q =>
      let Request := DLSSPassExecute cfg View Inputs Locals.bCameraCut Sharpness
        (ext.PerfQualityValue q) SceneColor
      match ExtractHistory View Inputs SceneColor Locals.DestRect Locals.OutputExtent
          OutputHistory with
      | .error e => .error e
      | .ok NewHistory =>
        let D2 := ReadbackPasses ext D1 Locals.OutputExtent Locals.SrcRect
        let Custom := ExtractCustomHistory View State.1 State.2 OutputCustomHistory
        .ok ⟨SceneColor, State.1, Request, NewHistory, Custom.1, Custom.2, s, Self, D2⟩

/-- Settings with a user sharpness of `3/2`, which is outside `[-1, 1]`. -/
def PassSettings.sample : PassSettings := ⟨3 / 2, 0, 1, some ⟨4, ⟨1, 1⟩⟩⟩

/-! ## Further instances used for evaluation -/

/-- A view without an explicit camera cut whose history is read-only. -/
def FViewInfo.sampleReadOnly : FViewInfo := ⟨false, true, (0, 0), 1 / 60, 1⟩

/-- A backend that supports no quality mode. -/
def Backend.noModes : NGXRHI where
  GetDLSSOptimalSettings := fun _ => FDLSSOptimalSettings.zero

/-- A backend whose three required modes are supported with a fixed
resolution and whose other modes are unsupported: no mode is counted. -/
def Backend.fixedOnly : NGXRHI where
  GetDLSSOptimalSettings := fun q =>
    match q with
    | .MaxPerf => ⟨true, 1 / 2, 1 / 2, 1 / 2, 0, true⟩
    | .Balanced => ⟨true, 29 / 50, 29 / 50, 29 / 50, 0, true⟩
    | .MaxQuality => ⟨true, 2 / 3, 2 / 3, 2 / 3, 0, true⟩
    | .UltraPerformance => FDLSSOptimalSettings.zero
    | .UltraQuality => FDLSSOptimalSettings.zero

/-! ## The entry point `AddPasses` -/

/-- The engine's `EPrimaryScreenPercentageMethod`. -/
inductive EPrimaryScreenPercentageMethod where
  | SpatialUpscale
  | TemporalUpscale
  | RawOutput
  deriving DecidableEq, Repr

/-- The members of `ITemporalUpscaler::FPassInputs` that `AddPasses` reads. -/
structure FPassInputs where
  bAllowDownsampleSceneColor : Bool
  SceneColorTexture : Option FRDGTexture
  SceneDepthTexture : Option FRDGTexture
  SceneVelocityTexture : Option FRDGTexture
  deriving DecidableEq, Repr

/-- The two history members of an `FPreviousViewInfo`. -/
structure FPreviousViewInfo where
  TemporalAAHistory : FTemporalAAHistory
  CustomTemporalAAHistory : Option FDLSSUpscalerHistory
  deriving DecidableEq, Repr

/-- The view as `AddPasses` reads it: the members read by `AddDLSSPass`, the
screen-percentage method, `View.PrevViewInfo`, and the object that the
constructor `FDLSSPassParameters(View)`, declared outside `src/`, builds from
the view. -/
structure FPassView where
  Info : FViewInfo
  PrimaryScreenPercentageMethod : EPrimaryScreenPercentageMethod
  PrevViewInfo : FPreviousViewInfo
  PassParameters : FDLSSPassParameters
  deriving DecidableEq

/-- The state within reach of `AddPasses`: the static members, the scheduler
object `*this`, the history members of `View.ViewState->PrevFrameViewInfo`
(`none` when `View.ViewState` is null), the largest identity in use, and the
debug dump (the file-scope `count` and the files written). -/
structure FrameState where
  Statics : Statics
  Instance : FDLSSUpscaler
  ViewState : Option FPreviousViewInfo
  Fresh : Nat
  Dump : DebugDump

/-- The out-parameters of `AddPasses`, with the state and the request that
the render-graph pass hands to the backend. -/
structure FAddPassesOutputs where
  OutSceneColorTexture : Option FRDGTexture
  OutSceneColorViewRect : FIntRect
  OutSceneColorHalfResTexture : Option FRDGTexture
  OutSceneColorHalfResViewRect : FIntRect
  DLSSState : Nat
  Request : Checked FRHIDLSSArguments
  deriving DecidableEq

/-- The view state after `AddDLSSPass` has written through the two pointers
`OutputHistory` and `OutputCustomHistoryInterface` (lines 376-377). -/
def WriteBack (ViewState : Option FPreviousViewInfo) (r : FDLSSPassResult) :
    Option FPreviousViewInfo :=
  match ViewState, r.OutputHistory, r.OutputCustomHistory with
  | some _, some History, some Custom => some ⟨History, Custom⟩
  | _, _, _ => ViewState

/-- The method `FDLSSUpscaler::AddPasses` (lines 357-412) of the object at
address `This`. `CombinedVelocityTexture` is the texture that
`AddVelocityCombinePass`, defined outside `src/`, returns. -/
def AddPasses (ext : Externals) (g : Globals) (cfg : PassSettings)
    (CVarNGXDLSSDilateMotionVectors : Int) (CombinedVelocityTexture : Option FRDGTexture)
    (st : FrameState) (This : Nat) (View : FPassView) (PassInputs : FPassInputs) :
    Checked (FAddPassesOutputs × FrameState) :=
  if PassInputs.bAllowDownsampleSceneColor then .error .check
  else if View.PrimaryScreenPercentageMethod ≠ .TemporalUpscale then .error .check
  else
    let InputHistory := View.PrevViewInfo.TemporalAAHistory
    let InputCustomHistory := View.PrevViewInfo.CustomTemporalAAHistory
    let OutputHistory := st.ViewState.map (·.TemporalAAHistory)
    let OutputCustomHistory := st.ViewState.map (·.CustomTemporalAAHistory)
    let SecondaryViewRect := View.PassParameters.OutputViewRect
    let bDilateMotionVectors : Bool := CVarNGXDLSSDilateMotionVectors != 0
    let DLSSParameters : FDLSSPassParameters :=
      { View.PassParameters with
        SceneColorInput := PassInputs.SceneColorTexture
        SceneVelocityInput := CombinedVelocityTexture
        SceneDepthInput := PassInputs.SceneDepthTexture
        bHighResolutionMotionVectors := bDilateMotionVectors }
    match AddDLSSPass ext g cfg st.Statics This st.Instance View.Info DLSSParameters
        InputHistory OutputHistory InputCustomHistory OutputCustomHistory st.Fresh st.Dump with
    | .error e => .error e
    | .ok DLSSOutputs =>
      .ok (⟨some DLSSOutputs.SceneColor, SecondaryViewRect, none,
            ⟨FIntPoint.ZeroValue, FIntPoint.ZeroValue⟩, DLSSOutputs.DLSSState,
            DLSSOutputs.Request⟩,
           { Statics := DLSSOutputs.Statics
             Instance := DLSSOutputs.Instance
             ViewState := WriteBack st.ViewState DLSSOutputs
             Fresh := DLSSOutputs.Fresh
             Dump := DLSSOutputs.Dump })

/-! ## View-family setup -/

/-- The plugin's `EDLSSSettingOverride`. -/
inductive EDLSSSettingOverride where
  | Enabled
  | Disabled
  | UseProjectSettings
  deriving DecidableEq, Repr

/-- The globals, console variables and settings that
`SetupMainGameViewFamily` reads, and the function
`GetSupportedQualityModeFromCVarValue`, declared outside `src/`. -/
structure SetupGlobals where
  GIsAutomationTesting : Bool
  CVarNGXDLSSAutomationTesting : Int
  GCustomStaticScreenPercentage : Nat
  GIsEditor : Bool
  GIsPlayInEditorWorld : Bool
  EnableDLSSInPlayInEditorViewportsOverride : EDLSSSettingOverride
  bEnableDLSSInPlayInEditorViewports : Bool
  CVarNGXDLSSAutoQualitySetting : Bool
  CVarNGXDLSSPerfQualitySetting : Int
  GetSupportedQualityModeFromCVarValue : Int → EDLSSQualityMode

/-- The method `FDLSSUpscaler::EnableDLSSInPlayInEditorViewports`
(lines 786-796). -/
def EnableDLSSInPlayInEditorViewports (G : SetupGlobals) : Bool :=
  if G.EnableDLSSInPlayInEditorViewportsOverride = .UseProjectSettings then
    G.bEnableDLSSInPlayInEditorViewports
  else decide (G.EnableDLSSInPlayInEditorViewportsOverride = .Enabled)

/-- The function `FDLSSUpscaler::IsAutoQualityMode` (lines 208-211). -/
def IsAutoQualityMode (G : SetupGlobals) : Bool := G.CVarNGXDLSSAutoQualitySetting

/-- The screen-percentage driver made at line 716. -/
structure FLegacyScreenPercentageDriver where
  GlobalResolutionFraction : ℚ
  AllowPostProcessSettingsScreenPercentage : Bool
  deriving DecidableEq

/-- The members of `FSceneViewFamily` that the setup reads and writes:
the size of the render target (`none` when the pointer is null), the
`ScreenPercentage` show flag, and the two interfaces. -/
structure FSceneViewFamily where
  RenderTarget : Option FIntPoint
  ScreenPercentageShowFlag : Bool
  TemporalUpscalerInterface : Nat
  ScreenPercentageInterface : Option FLegacyScreenPercentageDriver
  deriving DecidableEq

/-- The method `FDLSSUpscaler::GetAutoQualityModeFromViewFamily`
(lines 755-765); `ensure` logs and goes on, and the product of the two `int32`
sizes wraps. -/
def GetAutoQualityModeFromViewFamily (ext : Externals) (s : Statics)
    (ViewFamily : FSceneViewFamily) : Checked (Option EDLSSQualityMode) :=
  match ViewFamily.RenderTarget with
  | some ViewSize =>
    let Pixels := wrap32 (ViewSize.X * ViewSize.Y)
    GetAutoQualityModeFromPixels ext s Pixels
  | none => .ok none

/-- The engine's `FSceneViewFamily::SetTemporalUpscalerInterface`, which
checks that the upscaler is not null and that none is assigned yet. -/
def SetTemporalUpscalerInterface (ViewFamily : FSceneViewFamily) (p : Nat) :
    Checked FSceneViewFamily :=
  if p = 0 then .error .check
  else if ViewFamily.TemporalUpscalerInterface ≠ 0 then .error .check
  else .ok { ViewFamily with TemporalUpscalerInterface := p }

/-- The method `FDLSSUpscaler::SetupMainGameViewFamily` (lines 681-722) of the
object `Self` at address `This`: the view family and the statics afterwards. -/
def SetupMainGameViewFamily (ext : Externals) (g : Globals) (G : SetupGlobals) (s : Statics)
    (This : Nat) (Self : FDLSSUpscaler) (ViewFamily : FSceneViewFamily) :
    Checked (FSceneViewFamily × Statics) :=
  let bDLSSActiveWithAutomation : Bool :=
    !G.GIsAutomationTesting ||
      (G.GIsAutomationTesting && (G.CVarNGXDLSSAutomationTesting != 0))
  if IsDLSSActive g s This && bDLSSActiveWithAutomation then
    if g.GTemporalUpscaler ≠ This then .error .check
    else if G.GCustomStaticScreenPercentage ≠ This then .error .check
    else if !G.GIsEditor ||
        (G.GIsEditor && G.GIsPlayInEditorWorld && EnableDLSSInPlayInEditorViewports G) then
      let MaybeDLSSQuality : Checked (Option EDLSSQualityMode) :=
        if IsAutoQualityMode G then GetAutoQualityModeFromViewFamily ext s ViewFamily
        else .ok (some (G.GetSupportedQualityModeFromCVarValue G.CVarNGXDLSSPerfQualitySetting))
      match MaybeDLSSQuality with
      | .error e => .error e
      | .ok none => .ok (ViewFamily, s)
      | .ok (some DLSSQuality) =>
        match GetUpscalerInstanceForViewFamily ext s Self DLSSQuality with
        | .error e => .error e
        | .ok (p, s1) =>
          match SetTemporalUpscalerInterface ViewFamily p with
          | .error e => .error e
          | .ok Family1 =>
            if Family1.ScreenPercentageShowFlag && Family1.ScreenPercentageInterface.isNone then
              match GetOptimalResolutionFractionForQuality ext s1 DLSSQuality with
              | .error e => .error e
              | .ok ResolutionFraction =>
                .ok ({ Family1 with
                       ScreenPercentageInterface := some ⟨ResolutionFraction, false⟩ }, s1)
            else .ok (Family1, s1)
    else .ok (ViewFamily, s)
  else .ok (ViewFamily, s)

/-- A view for `AddPasses` whose pass parameters upscale `640x360` to
`1280x720`. -/
def FPassView.sample : FPassView :=
  ⟨FViewInfo.sample, .TemporalUpscale, ⟨FTemporalAAHistory.sample, none⟩,
   ⟨⟨⟨0, 0⟩, ⟨640, 360⟩⟩, ⟨⟨0, 0⟩, ⟨1280, 720⟩⟩, none, none, none, false⟩⟩

/-- Pass inputs with the three input textures and no downsampling. -/
def FPassInputs.sample : FPassInputs :=
  ⟨false, some ⟨1, ⟨640, 360⟩⟩, some ⟨2, ⟨640, 360⟩⟩, some ⟨9, ⟨640, 360⟩⟩⟩

/-- A frame state for the Performance instance of the sample pool, with a view
state whose custom-history slot is empty, before any capture. -/
def FrameState.sample : FrameState :=
  ⟨Statics.samplePooled, ⟨.Performance⟩, some ⟨FTemporalAAHistory.sample, none⟩, 100, ⟨0, []⟩⟩

/-- Globals with the temporal upscaler enabled and set to the module's own
upscaler object, which lives outside the pool at address `1000`. -/
def Globals.sampleMain : Globals := ⟨1000, some 1, 1⟩

/-- Setup globals of a game build with auto-quality mode on and the custom
static screen percentage set to the object at address `1000`. -/
def SetupGlobals.sample : SetupGlobals where
  GIsAutomationTesting := false
  CVarNGXDLSSAutomationTesting := 0
  GCustomStaticScreenPercentage := 1000
  GIsEditor := false
  GIsPlayInEditorWorld := false
  EnableDLSSInPlayInEditorViewportsOverride := .UseProjectSettings
  bEnableDLSSInPlayInEditorViewports := false
  CVarNGXDLSSAutoQualitySetting := true
  CVarNGXDLSSPerfQualitySetting := -1
  GetSupportedQualityModeFromCVarValue := fun _ => .Performance

/-- The sample setup globals with the custom static screen percentage set to
another object, at address `2000`. -/
def SetupGlobals.sampleOtherPlugin : SetupGlobals :=
  { SetupGlobals.sample with GCustomStaticScreenPercentage := 2000 }

/-- A view family with a `1280x720` render target, the screen-percentage show
flag set and no interface assigned. -/
def FSceneViewFamily.sample : FSceneViewFamily := ⟨some ⟨1280, 720⟩, true, 0, none⟩

/-- A view family with a `3840x2160` render target. -/
def FSceneViewFamily.sample4K : FSceneViewFamily := ⟨some ⟨3840, 2160⟩, true, 0, none⟩

/-- A view family whose render target is `65536x32768`, `2^31` pixels. -/
def FSceneViewFamily.sampleHuge : FSceneViewFamily := ⟨some ⟨65536, 32768⟩, true, 0, none⟩

/-! ## Theorems -/

theorem TArrayGet_of_lt {α : Type} (xs : List α) (i : Int) (h0 : 0 ≤ i)
    (h1 : i < (xs.length : Int)) : ∃ x, TArrayGet xs i = .ok x ∧ xs[i.toNat]? = some x := by
  have hlt : i.toNat < xs.length := by omega
  refine ⟨xs[i.toNat], ?_, ?_⟩
  · simp [TArrayGet, h0, List.getElem?_eq_getElem hlt]
  · simp [List.getElem?_eq_getElem hlt]

theorem sample_indicesInRange : IndicesInRange Externals.sample Statics.sample := by
  intro q
  cases q <;> simp [Externals.sample, Statics.sample, Statics.sampleTable]

theorem IsQualityModeSupported_total (ext : Externals) (s : Statics) (h : IndicesInRange ext s)
    (m : EDLSSQualityMode) (hm : m ≠ .NumValues) :
    ∃ r, ResolutionSettingsAt ext s m = .ok r ∧
      IsQualityModeSupported ext s m = .ok r.bIsSupported := by
  have key : ∀ q, ToNGXQuality m = .ok q →
      ∃ r, ResolutionSettingsAt ext s m = .ok r ∧
        IsQualityModeSupported ext s m = .ok r.bIsSupported := by
    intro q hq
    obtain ⟨r, hr, _⟩ := TArrayGet_of_lt s.ResolutionSettings _ (h q).1 (h q).2
    refine ⟨r, ?_, ?_⟩
    · simp [ResolutionSettingsAt, hq, hr]
    · simp [IsQualityModeSupported, ResolutionSettingsAt, hq, hr]
  cases m
  · exact key _ rfl
  · exact key _ rfl
  · exact key _ rfl
  · exact key _ rfl
  · exact key _ rfl
  · exact absurd rfl hm

/-- C1: with every vendor index inside the settings table,
`GetAutoQualityModeFromPixels(p)` returns UltraPerformance if `p >= 8,300,000`
and UltraPerformance is supported; otherwise Performance if `p >= 3,690,000`
and Performance is supported; otherwise Quality if `p >= 2,030,000` and
Quality is supported; otherwise the empty optional. -/
theorem C1_auto_quality_thresholds (ext : Externals) (s : Statics)
    (h : IndicesInRange ext s) (p : Int) :
    GetAutoQualityModeFromPixels ext s p =
      .ok (if p ≥ 8300000 ∧ IsQualityModeSupported ext s .UltraPerformance = .ok true then
             some .UltraPerformance
           else if p ≥ 3690000 ∧ IsQualityModeSupported ext s .Performance = .ok true then
             some .Performance
           else if p ≥ 2030000 ∧ IsQualityModeSupported ext s .Quality = .ok true then
             some .Quality
           else none) := by
  obtain ⟨r1, -, h1⟩ := IsQualityModeSupported_total ext s h .UltraPerformance (by decide)
  obtain ⟨r2, -, h2⟩ := IsQualityModeSupported_total ext s h .Performance (by decide)
  obtain ⟨r3, -, h3⟩ := IsQualityModeSupported_total ext s h .Quality (by decide)
  unfold GetAutoQualityModeFromPixels andAlso
  rw [h1, h2, h3]
  by_cases c1 : p ≥ 8300000 <;> by_cases c2 : p ≥ 3690000 <;> by_cases c3 : p ≥ 2030000 <;>
    cases b1 : r1.bIsSupported <;> cases b2 : r2.bIsSupported <;>
    cases b3 : r3.bIsSupported <;> simp [c1, c2, c3]

/-- Witness of C1 on the sample table at 9,000,000 pixels. -/
theorem C1_auto_quality_thresholds_witness :
    IndicesInRange Externals.sample Statics.sample ∧
      GetAutoQualityModeFromPixels Externals.sample Statics.sample 9000000 =
        .ok (some .Performance) :=
  ⟨sample_indicesInRange,
   (C1_auto_quality_thresholds Externals.sample Statics.sample sample_indicesInRange 9000000).trans
     (by decide)⟩

/-- C2: for a mode the settings table marks unsupported, each of the five
per-mode getters terminates on its `checkf` instead of returning a value; for
a supported mode none of them fails and each returns the corresponding member
of the mode's table entry. -/
theorem C2_getters_require_support (ext : Externals) (s : Statics) (m : EDLSSQualityMode) :
    (IsQualityModeSupported ext s m = .ok false →
      GetOptimalResolutionFractionForQuality ext s m = .error .check ∧
      GetMinResolutionFractionForQuality ext s m = .error .check ∧
      GetMaxResolutionFractionForQuality ext s m = .error .check ∧
      GetOptimalSharpnessForQuality ext s m = .error .check ∧
      IsFixedResolutionFraction ext s m = .error .check) ∧
    (IsQualityModeSupported ext s m = .ok true →
      ∃ r, ResolutionSettingsAt ext s m = .ok r ∧
        GetOptimalResolutionFractionForQuality ext s m = .ok r.OptimalResolutionFraction ∧
        GetMinResolutionFractionForQuality ext s m = .ok r.MinResolutionFraction ∧
        GetMaxResolutionFractionForQuality ext s m = .ok r.MaxResolutionFraction ∧
        GetOptimalSharpnessForQuality ext s m = .ok r.Sharpness ∧
        IsFixedResolutionFraction ext s m = .ok r.IsFixedResolution) := by
  constructor
  · intro h
    simp [GetOptimalResolutionFractionForQuality, GetMinResolutionFractionForQuality,
      GetMaxResolutionFractionForQuality, GetOptimalSharpnessForQuality,
      IsFixedResolutionFraction, SupportedField, h]
  · intro h
    cases hr : ResolutionSettingsAt ext s m with
    | error e => simp [IsQualityModeSupported, hr] at h
    | ok r =>
      refine ⟨r, rfl, ?_⟩
      simp [GetOptimalResolutionFractionForQuality, GetMinResolutionFractionForQuality,
        GetMaxResolutionFractionForQuality, GetOptimalSharpnessForQuality,
        IsFixedResolutionFraction, SupportedField, h, hr]

/-- Witness of C2: on the sample table UltraPerformance is unsupported and its
optimal-fraction getter terminates; Performance is supported and its getters
return the members of its entry. -/
theorem C2_getters_require_support_witness :
    (IsQualityModeSupported Externals.sample Statics.sample .UltraPerformance = .ok false ∧
      GetOptimalResolutionFractionForQuality Externals.sample Statics.sample .UltraPerformance =
        .error .check) ∧
    (IsQualityModeSupported Externals.sample Statics.sample .Performance = .ok true ∧
      ∃ r, ResolutionSettingsAt Externals.sample Statics.sample .Performance = .ok r ∧
        GetOptimalResolutionFractionForQuality Externals.sample Statics.sample .Performance =
          .ok r.OptimalResolutionFraction) :=
  ⟨⟨by decide,
    ((C2_getters_require_support Externals.sample Statics.sample .UltraPerformance).1
      (by decide)).1⟩,
   ⟨by decide,
    let ⟨r, hr, hopt, _⟩ :=
      (C2_getters_require_support Externals.sample Statics.sample .Performance).2 (by decide)
    ⟨r, hr, hopt⟩⟩⟩

/-- C5: `Validate` terminates the process exactly when `OutputViewRect.Min` is
not `(0,0)` and returns true otherwise; an output rect whose origin is `(5,0)`
is rejected. -/
theorem C5_validate (p : FDLSSPassParameters) :
    (p.Validate = .error .check ↔ p.OutputViewRect.Min ≠ FIntPoint.ZeroValue) ∧
    (p.Validate = .ok true ↔ p.OutputViewRect.Min = FIntPoint.ZeroValue) ∧
    (p.OutputViewRect.Min = ⟨5, 0⟩ → p.Validate = .error .check) := by
  refine ⟨?_, ?_, ?_⟩
  · by_cases h : p.OutputViewRect.Min = FIntPoint.ZeroValue <;>
      simp [FDLSSPassParameters.Validate, h]
  · by_cases h : p.OutputViewRect.Min = FIntPoint.ZeroValue <;>
      simp [FDLSSPassParameters.Validate, h]
  · intro h
    simp [FDLSSPassParameters.Validate, h, FIntPoint.ZeroValue]

/-- Witness of C5: the rect from `(5,0)` to `(1285,720)` is rejected. -/
theorem C5_validate_witness :
    FDLSSPassParameters.Validate
      ⟨⟨⟨0, 0⟩, ⟨640, 360⟩⟩, ⟨⟨5, 0⟩, ⟨1285, 720⟩⟩, none, none, none, false⟩ = .error .check :=
  (C5_validate ⟨⟨⟨0, 0⟩, ⟨640, 360⟩⟩, ⟨⟨5, 0⟩, ⟨1285, 720⟩⟩, none, none, none, false⟩).2.2 rfl

/-- C6: for pass parameters with output origin zero and a non-null scene
color input, `GetOutputExtent` returns the component-wise maximum of the input
texture extent and the quantized size of `OutputViewRect.Size()`; it
terminates the process when `Validate` fails or the scene color input is null. -/
theorem C6_output_extent (ext : Externals) (p : FDLSSPassParameters) :
    (∀ tex, p.OutputViewRect.Min = FIntPoint.ZeroValue → p.SceneColorInput = some tex →
      p.GetOutputExtent ext =
        .ok ⟨max tex.Extent.X (ext.QuantizeSceneBufferSize p.OutputViewRect.Size).X,
             max tex.Extent.Y (ext.QuantizeSceneBufferSize p.OutputViewRect.Size).Y⟩) ∧
    (p.Validate = .error .check → p.GetOutputExtent ext = .error .check) ∧
    (p.SceneColorInput = none → p.GetOutputExtent ext = .error .check) := by
  refine ⟨?_, ?_, ?_⟩
  · intro tex h0 ht
    simp [FDLSSPassParameters.GetOutputExtent, FDLSSPassParameters.Validate, h0, ht]
  · intro h
    simp [FDLSSPassParameters.GetOutputExtent, h]
  · intro h
    by_cases h0 : p.OutputViewRect.Min = FIntPoint.ZeroValue <;>
      simp [FDLSSPassParameters.GetOutputExtent, FDLSSPassParameters.Validate, h0, h]

/-- Witness of C6: input extent `(1920,1080)` with an output rect of size
`(1280,720)`, which the sample quantizer leaves unchanged, gives the extent
`(1920,1080)`. -/
theorem C6_output_extent_witness :
    Externals.sample.QuantizeSceneBufferSize (FIntRect.Size ⟨⟨0, 0⟩, ⟨1280, 720⟩⟩) = ⟨1280, 720⟩ ∧
    FDLSSPassParameters.GetOutputExtent Externals.sample
      ⟨⟨⟨0, 0⟩, ⟨640, 360⟩⟩, ⟨⟨0, 0⟩, ⟨1280, 720⟩⟩, some ⟨1, ⟨1920, 1080⟩⟩, none, none, false⟩ =
      .ok ⟨1920, 1080⟩ :=
  ⟨by decide,
   ((C6_output_extent Externals.sample
      ⟨⟨⟨0, 0⟩, ⟨640, 360⟩⟩, ⟨⟨0, 0⟩, ⟨1280, 720⟩⟩, some ⟨1, ⟨1920, 1080⟩⟩, none, none, false⟩).1
      ⟨1, ⟨1920, 1080⟩⟩ rfl rfl).trans (by decide)⟩

/-! ### The startup constructor -/

theorem StartupStepEffect_handle (ext : Externals) (B : NGXRHI) (s : Statics)
    (q : NVSDK_NGX_PerfQuality_Value) :
    (StartupStepEffect ext B s q).NGXRHIExtensions = s.NGXRHIExtensions := by
  unfold StartupStepEffect
  dsimp only
  split <;> rfl

theorem StartupStepEffect_table (ext : Externals) (B : NGXRHI) (s : Statics)
    (q : NVSDK_NGX_PerfQuality_Value) :
    (StartupStepEffect ext B s q).ResolutionSettings =
      s.ResolutionSettings.set (ext.PerfQualityValue q).toNat (B.GetDLSSOptimalSettings q) := by
  unfold StartupStepEffect
  dsimp only
  split <;> rfl

theorem StartupStepEffect_pool (ext : Externals) (B : NGXRHI) (s : Statics)
    (q : NVSDK_NGX_PerfQuality_Value) :
    (StartupStepEffect ext B s q).DLSSUpscalerInstancesPerViewFamily =
        s.DLSSUpscalerInstancesPerViewFamily ∧
      (StartupStepEffect ext B s q).Heap = s.Heap := by
  unfold StartupStepEffect
  dsimp only
  split <;> exact ⟨rfl, rfl⟩

theorem StartupStepEffect_bounds (ext : Externals) (B : NGXRHI) (s : Statics)
    (q : NVSDK_NGX_PerfQuality_Value) :
    (StartupStepEffect ext B s q).MinResolutionFraction =
        (if CountsForBounds (B.GetDLSSOptimalSettings q) then
          min s.MinResolutionFraction (B.GetDLSSOptimalSettings q).OptimalResolutionFraction
         else s.MinResolutionFraction) ∧
      (StartupStepEffect ext B s q).MaxResolutionFraction =
        (if CountsForBounds (B.GetDLSSOptimalSettings q) then
          max s.MaxResolutionFraction (B.GetDLSSOptimalSettings q).OptimalResolutionFraction
         else s.MaxResolutionFraction) ∧
      (StartupStepEffect ext B s q).NumRuntimeQualityModes =
        (if CountsForBounds (B.GetDLSSOptimalSettings q) then
          (s.NumRuntimeQualityModes + 1) % 4294967296
         else s.NumRuntimeQualityModes) := by
  unfold StartupStepEffect CountsForBounds
  dsimp only
  split <;> exact ⟨rfl, rfl, rfl⟩

theorem StartupEffects_handle (ext : Externals) (B : NGXRHI)
    (qs : List NVSDK_NGX_PerfQuality_Value) (s : Statics) :
    (StartupEffects ext B s qs).NGXRHIExtensions = s.NGXRHIExtensions := by
  induction qs generalizing s with
  | nil => rfl
  | cons q qs ih =>
    show (StartupEffects ext B (StartupStepEffect ext B s q) qs).NGXRHIExtensions = _
    rw [ih, StartupStepEffect_handle]

theorem StartupEffects_pool (ext : Externals) (B : NGXRHI)
    (qs : List NVSDK_NGX_PerfQuality_Value) (s : Statics) :
    (StartupEffects ext B s qs).DLSSUpscalerInstancesPerViewFamily =
        s.DLSSUpscalerInstancesPerViewFamily ∧
      (StartupEffects ext B s qs).Heap = s.Heap := by
  induction qs generalizing s with
  | nil => exact ⟨rfl, rfl⟩
  | cons q qs ih =>
    show (StartupEffects ext B (StartupStepEffect ext B s q) qs).DLSSUpscalerInstancesPerViewFamily
        = _ ∧ (StartupEffects ext B (StartupStepEffect ext B s q) qs).Heap = _
    rw [(ih _).1, (ih _).2]
    exact StartupStepEffect_pool ext B s q

theorem StartupEffects_table (ext : Externals) (B : NGXRHI)
    (qs : List NVSDK_NGX_PerfQuality_Value) (s : Statics) :
    (StartupEffects ext B s qs).ResolutionSettings =
      qs.foldl (fun t q => t.set (ext.PerfQualityValue q).toNat (B.GetDLSSOptimalSettings q))
        s.ResolutionSettings := by
  induction qs generalizing s with
  | nil => rfl
  | cons q qs ih =>
    show (StartupEffects ext B (StartupStepEffect ext B s q) qs).ResolutionSettings = _
    rw [ih, StartupStepEffect_table]
    rfl

theorem foldl_set_length {α β : Type} (f : β → Nat) (g : β → α) (qs : List β) (t : List α) :
    (qs.foldl (fun t q => t.set (f q) (g q)) t).length = t.length := by
  induction qs generalizing t with
  | nil => rfl
  | cons q qs ih => simp [List.foldl_cons, ih]

theorem foldl_set_get {α β : Type} (f : β → Nat) (g : β → α) (hf : Function.Injective f)
    (q : β) (qs : List β) (t : List α) (hlt : f q < t.length)
    (h : q ∈ qs ∨ t[f q]? = some (g q)) :
    (qs.foldl (fun t q => t.set (f q) (g q)) t)[f q]? = some (g q) := by
  induction qs generalizing t with
  | nil =>
    rcases h with h | h
    · simp at h
    · simpa using h
  | cons a qs ih =>
    rw [List.foldl_cons]
    apply ih
    · simpa using hlt
    · by_cases haq : a = q
      · right
        subst haq
        simp [List.getElem?_set, hlt]
      · rcases h with h | h
        · left
          rcases List.mem_cons.1 h with h | h
          · exact absurd h.symm haq
          · exact h
        · right
          have hne : f a ≠ f q := fun e => haq (hf e)
          simp [List.getElem?_set, hne, h]

theorem StartupLoop_ok (ext : Externals) (B : NGXRHI) (ms : List EDLSSQualityMode)
    (qs : List NVSDK_NGX_PerfQuality_Value)
    (hq : List.Forall₂ (fun m q => ToNGXQuality m = .ok q) ms qs) (s : Statics)
    (hB : s.NGXRHIExtensions = some B)
    (hr : ∀ q ∈ qs, 0 ≤ ext.PerfQualityValue q ∧
      ext.PerfQualityValue q < (s.ResolutionSettings.length : Int)) :
    StartupLoop ext s ms = .ok (StartupEffects ext B s qs) := by
  induction hq generalizing s with
  | nil => rfl
  | @cons m q ms qs hmq _ ih =>
    have h0 := (hr q (List.mem_cons_self _ _)).1
    have h1 := (hr q (List.mem_cons_self _ _)).2
    have hstep : StartupStep ext s m = .ok (StartupStepEffect ext B s q) := by
      simp [StartupStep, hmq, hB, h0, h1]
    unfold StartupLoop
    rw [hstep]
    show StartupLoop ext (StartupStepEffect ext B s q) ms = _
    rw [ih]
    · rfl
    · rw [StartupStepEffect_handle, hB]
    · intro q2 hq2
      rw [StartupStepEffect_table, List.length_set]
      exact hr q2 (List.mem_cons_of_mem _ hq2)

theorem StartupStep_inv (ext : Externals) (s s1 : Statics) (m : EDLSSQualityMode)
    (h : StartupStep ext s m = .ok s1) :
    ∃ q B, ToNGXQuality m = .ok q ∧ s.NGXRHIExtensions = some B ∧
      0 ≤ ext.PerfQualityValue q ∧
      ext.PerfQualityValue q < (s.ResolutionSettings.length : Int) ∧
      s1 = StartupStepEffect ext B s q := by
  unfold StartupStep at h
  cases hq : ToNGXQuality m with
  | error e => simp [hq] at h
  | ok q =>
    rw [hq] at h
    dsimp only at h
    by_cases h1 : ext.PerfQualityValue q < (s.ResolutionSettings.length : Int)
    · by_cases h0 : ext.PerfQualityValue q ≥ 0
      · cases hB : s.NGXRHIExtensions with
        | none => simp [h1, h0, hB] at h
        | some B =>
          simp [h1, h0, hB] at h
          exact ⟨q, B, rfl, rfl, h0, h1, h.symm⟩
      · simp [h1, h0] at h
    · simp [h1] at h

theorem StartupLoop_inv (ext : Externals) (ms : List EDLSSQualityMode) (s s' : Statics)
    (h : StartupLoop ext s ms = .ok s') :
    ∀ m ∈ ms, ∃ q B, ToNGXQuality m = .ok q ∧ s.NGXRHIExtensions = some B ∧
      0 ≤ ext.PerfQualityValue q ∧
      ext.PerfQualityValue q < (s.ResolutionSettings.length : Int) := by
  induction ms generalizing s with
  | nil => intro m hm; simp at hm
  | cons a ms ih =>
    unfold StartupLoop at h
    cases hstep : StartupStep ext s a with
    | error e => simp [hstep] at h
    | ok s1 =>
      rw [hstep] at h
      dsimp only at h
      obtain ⟨q, B, hq, hB, h0, h1, hs1⟩ := StartupStep_inv ext s s1 a hstep
      intro m hm
      rcases List.mem_cons.1 hm with hm | hm
      · subst hm
        exact ⟨q, B, hq, hB, h0, h1⟩
      · obtain ⟨q2, B2, hq2, hB2, h02, h12⟩ := ih s1 h m hm
        refine ⟨q2, B2, hq2, ?_, h02, ?_⟩
        · rw [hs1, StartupStepEffect_handle] at hB2
          exact hB2
        · rw [hs1, StartupStepEffect_table, List.length_set] at h12
          exact h12

theorem visited_spec :
    List.Forall₂ (fun m q => ToNGXQuality m = .ok q) EDLSSQualityMode.all
      NVSDK_NGX_PerfQuality_Value.visited := by
  unfold EDLSSQualityMode.all NVSDK_NGX_PerfQuality_Value.visited
  repeat first
    | exact List.Forall₂.nil
    | refine List.Forall₂.cons rfl ?_

theorem mem_visited (q : NVSDK_NGX_PerfQuality_Value) :
    q ∈ NVSDK_NGX_PerfQuality_Value.visited := by
  cases q <;> simp [NVSDK_NGX_PerfQuality_Value.visited]

theorem ToNGXQuality_surjective (q : NVSDK_NGX_PerfQuality_Value) :
    ∃ m, m ∈ EDLSSQualityMode.all ∧ ToNGXQuality m = .ok q := by
  cases q
  · exact ⟨.Performance, by simp [EDLSSQualityMode.all], rfl⟩
  · exact ⟨.Balanced, by simp [EDLSSQualityMode.all], rfl⟩
  · exact ⟨.Quality, by simp [EDLSSQualityMode.all], rfl⟩
  · exact ⟨.UltraPerformance, by simp [EDLSSQualityMode.all], rfl⟩
  · exact ⟨.UltraQuality, by simp [EDLSSQualityMode.all], rfl⟩

theorem CheckSupported_ok_iff (ext : Externals) (s : Statics) (m : EDLSSQualityMode) (u : Unit) :
    CheckSupported ext s m = .ok u ↔ IsQualityModeSupported ext s m = .ok true := by
  unfold CheckSupported
  cases h : IsQualityModeSupported ext s m with
  | error e => simp
  | ok b => cases b <;> simp

/-- The startup constructor completes exactly when the stored handle was
null, the passed backend is not, every vendor enumerator value is an index of
the five-entry table, and Performance, Balanced and Quality end up supported;
the statics are then those produced by the five loop bodies. -/
theorem Startup_ok_iff (ext : Externals) (s : Statics) (In : Option NGXRHI) (s' : Statics) :
    FDLSSUpscaler.Startup ext s In = .ok s' ↔
      s.NGXRHIExtensions = none ∧ ∃ B, In = some B ∧
        (∀ q, 0 ≤ ext.PerfQualityValue q ∧ ext.PerfQualityValue q < 5) ∧
        s' = StartupEffects ext B (StartupEntry s In) NVSDK_NGX_PerfQuality_Value.visited ∧
        IsQualityModeSupported ext s' .Performance = .ok true ∧
        IsQualityModeSupported ext s' .Balanced = .ok true ∧
        IsQualityModeSupported ext s' .Quality = .ok true := by
  have hloop : ∀ B, In = some B →
      (∀ q, 0 ≤ ext.PerfQualityValue q ∧ ext.PerfQualityValue q < 5) →
      StartupLoop ext (StartupEntry s In) EDLSSQualityMode.all =
        .ok (StartupEffects ext B (StartupEntry s In) NVSDK_NGX_PerfQuality_Value.visited) := by
    intro B hB hr
    apply StartupLoop_ok ext B _ _ visited_spec
    · simp [StartupEntry, hB]
    · intro q _
      simpa [StartupEntry] using hr q
  constructor
  · intro h
    unfold FDLSSUpscaler.Startup at h
    cases hN : s.NGXRHIExtensions with
    | some B0 => simp [hN] at h
    | none =>
      simp only [hN, Option.isSome_none, Bool.false_eq_true, if_false] at h
      cases hL : StartupLoop ext (StartupEntry s In) EDLSSQualityMode.all with
      | error e => simp [hL] at h
      | ok s1 =>
        have hinv := StartupLoop_inv ext _ _ _ hL
        obtain ⟨q0, B, -, hB, -, -⟩ := hinv .Performance (by simp [EDLSSQualityMode.all])
        have hIn : In = some B := by simpa [StartupEntry] using hB
        have hr : ∀ q, 0 ≤ ext.PerfQualityValue q ∧ ext.PerfQualityValue q < 5 := by
          intro q
          obtain ⟨m, hm, hmq⟩ := ToNGXQuality_surjective q
          obtain ⟨q2, B2, hq2, -, h0, h1⟩ := hinv m hm
          rw [hmq] at hq2
          cases hq2
          simpa [StartupEntry] using And.intro h0 h1
        have hs1 := hloop B hIn hr
        rw [hL] at hs1
        cases hs1
        rw [hL] at h
        dsimp only at h
        cases hP : CheckSupported ext
            (StartupEffects ext B (StartupEntry s In) NVSDK_NGX_PerfQuality_Value.visited)
            .Performance with
        | error e => simp [hP] at h
        | ok u1 =>
          cases hBa : CheckSupported ext
              (StartupEffects ext B (StartupEntry s In) NVSDK_NGX_PerfQuality_Value.visited)
              .Balanced with
          | error e => simp [hP, hBa] at h
          | ok u2 =>
            cases hQ : CheckSupported ext
                (StartupEffects ext B (StartupEntry s In) NVSDK_NGX_PerfQuality_Value.visited)
                .Quality with
            | error e => simp [hP, hBa, hQ] at h
            | ok u3 =>
              simp [hP, hBa, hQ] at h
              subst h
              exact ⟨rfl, B, hIn, hr, rfl, (CheckSupported_ok_iff _ _ _ _).1 hP,
                (CheckSupported_ok_iff _ _ _ _).1 hBa, (CheckSupported_ok_iff _ _ _ _).1 hQ⟩
  · rintro ⟨hN, B, hIn, hr, hs', hP, hBa, hQ⟩
    unfold FDLSSUpscaler.Startup
    simp only [hN, Option.isSome_none, Bool.false_eq_true, if_false]
    rw [hloop B hIn hr, ← hs']
    dsimp only
    rw [(CheckSupported_ok_iff ext s' .Performance ()).2 hP,
      (CheckSupported_ok_iff ext s' .Balanced ()).2 hBa,
      (CheckSupported_ok_iff ext s' .Quality ()).2 hQ]

theorem ResolutionSettingsAt_of_lookup (ext : Externals) (s : Statics) (m : EDLSSQualityMode)
    (q : NVSDK_NGX_PerfQuality_Value) (r : FDLSSOptimalSettings) (hq : ToNGXQuality m = .ok q)
    (h0 : 0 ≤ ext.PerfQualityValue q)
    (hr : s.ResolutionSettings[(ext.PerfQualityValue q).toNat]? = some r) :
    ResolutionSettingsAt ext s m = .ok r ∧ IsQualityModeSupported ext s m = .ok r.bIsSupported := by
  have h1 : ResolutionSettingsAt ext s m = .ok r := by
    simp [ResolutionSettingsAt, hq, TArrayGet, h0, hr]
  exact ⟨h1, by simp [IsQualityModeSupported, h1]⟩

theorem StartupEffects_lookup (ext : Externals) (B : NGXRHI) (s : Statics) (In : Option NGXRHI)
    (hinj : Function.Injective ext.PerfQualityValue)
    (hr : ∀ q, 0 ≤ ext.PerfQualityValue q ∧ ext.PerfQualityValue q < 5)
    (q : NVSDK_NGX_PerfQuality_Value) :
    (StartupEffects ext B (StartupEntry s In)
        NVSDK_NGX_PerfQuality_Value.visited).ResolutionSettings.length = 5 ∧
      (StartupEffects ext B (StartupEntry s In)
        NVSDK_NGX_PerfQuality_Value.visited).ResolutionSettings[(ext.PerfQualityValue q).toNat]? =
        some (B.GetDLSSOptimalSettings q) := by
  rw [StartupEffects_table]
  have hlen : (StartupEntry s In).ResolutionSettings.length = 5 := by simp [StartupEntry]
  have hf : Function.Injective (fun q => (ext.PerfQualityValue q).toNat) := by
    intro a b hab
    apply hinj
    have ha := (hr a).1
    have hb := (hr b).1
    have hab2 : (ext.PerfQualityValue a).toNat = (ext.PerfQualityValue b).toNat := hab
    omega
  constructor
  · rw [foldl_set_length (fun q => (ext.PerfQualityValue q).toNat) B.GetDLSSOptimalSettings]
    exact hlen
  · apply foldl_set_get (fun q => (ext.PerfQualityValue q).toNat) B.GetDLSSOptimalSettings hf
    · have h1 := (hr q).1
      have h2 := (hr q).2
      show (ext.PerfQualityValue q).toNat < _
      rw [hlen]
      omega
    · exact Or.inl (mem_visited q)

/-- With distinct in-range enumerator values, a null stored handle and a
backend that supports Performance, Balanced and Quality, the startup
constructor completes. -/
theorem Startup_ok_of_supported (ext : Externals) (s : Statics) (B : NGXRHI)
    (hinj : Function.Injective ext.PerfQualityValue)
    (hr : ∀ q, 0 ≤ ext.PerfQualityValue q ∧ ext.PerfQualityValue q < 5)
    (hN : s.NGXRHIExtensions = none)
    (hP : (B.GetDLSSOptimalSettings .MaxPerf).bIsSupported = true)
    (hBa : (B.GetDLSSOptimalSettings .Balanced).bIsSupported = true)
    (hQ : (B.GetDLSSOptimalSettings .MaxQuality).bIsSupported = true) :
    FDLSSUpscaler.Startup ext s (some B) =
      .ok (StartupEffects ext B (StartupEntry s (some B)) NVSDK_NGX_PerfQuality_Value.visited) := by
  rw [Startup_ok_iff]
  refine ⟨hN, B, rfl, hr, rfl, ?_, ?_, ?_⟩
  · have h := (ResolutionSettingsAt_of_lookup ext _ .Performance .MaxPerf _ rfl (hr _).1
      (StartupEffects_lookup ext B s (some B) hinj hr .MaxPerf).2).2
    rw [h, hP]
  · have h := (ResolutionSettingsAt_of_lookup ext _ .Balanced .Balanced _ rfl (hr _).1
      (StartupEffects_lookup ext B s (some B) hinj hr .Balanced).2).2
    rw [h, hBa]
  · have h := (ResolutionSettingsAt_of_lookup ext _ .Quality .MaxQuality _ rfl (hr _).1
      (StartupEffects_lookup ext B s (some B) hinj hr .MaxQuality).2).2
    rw [h, hQ]

theorem sample_injective : Function.Injective Externals.sample.PerfQualityValue := by
  intro a b
  cases a <;> cases b <;> simp [Externals.sample]

theorem sample_range (q : NVSDK_NGX_PerfQuality_Value) :
    0 ≤ Externals.sample.PerfQualityValue q ∧ Externals.sample.PerfQualityValue q < 5 := by
  cases q <;> simp [Externals.sample]

/-- After a completed startup with distinct enumerator values the table has
five entries and answers every mode with the backend's record. -/
theorem Startup_records (ext : Externals) (s : Statics) (In : Option NGXRHI)
    (s' : Statics) (hinj : Function.Injective ext.PerfQualityValue)
    (h : FDLSSUpscaler.Startup ext s In = .ok s') :
    ∃ B, In = some B ∧ s'.ResolutionSettings.length = 5 ∧
      ∀ m q, ToNGXQuality m = .ok q →
        (0 ≤ ext.PerfQualityValue q ∧ ext.PerfQualityValue q < 5) ∧
        ResolutionSettingsAt ext s' m = .ok (B.GetDLSSOptimalSettings q) ∧
        IsQualityModeSupported ext s' m = .ok (B.GetDLSSOptimalSettings q).bIsSupported := by
  obtain ⟨-, B, hIn, hr, hs', -, -, -⟩ := (Startup_ok_iff ext s In s').1 h
  refine ⟨B, hIn, ?_, ?_⟩
  · rw [hs']
    exact (StartupEffects_lookup ext B s In hinj hr .MaxPerf).1
  · intro m q hq
    refine ⟨hr q, ?_⟩
    rw [hs']
    exact ResolutionSettingsAt_of_lookup ext _ m q _ hq (hr q).1
      (StartupEffects_lookup ext B s In hinj hr q).2

theorem SupportedField_of_entry {α : Type} (ext : Externals) (s : Statics)
    (m : EDLSSQualityMode) (r : FDLSSOptimalSettings) (field : FDLSSOptimalSettings → α)
    (h : ResolutionSettingsAt ext s m = .ok r) (hs : r.bIsSupported = true) :
    SupportedField ext s m field = .ok (field r) := by
  simp [SupportedField, IsQualityModeSupported, h, hs]

/-- C3: when the vendor enumerators have distinct values and the startup
constructor completes, every vendor index lies inside the five-entry table and
for each quality mode the entry read through `ToNGXQuality` is the record the
backend returned for that mode, so `IsQualityModeSupported` does not fail and
equals the backend's `bIsSupported`. -/
theorem C3_table_holds_backend_records (ext : Externals) (s : Statics) (In : Option NGXRHI)
    (s' : Statics) (hinj : Function.Injective ext.PerfQualityValue)
    (h : FDLSSUpscaler.Startup ext s In = .ok s') :
    ∃ B, In = some B ∧ s'.ResolutionSettings.length = 5 ∧
      ∀ m q, ToNGXQuality m = .ok q →
        (0 ≤ ext.PerfQualityValue q ∧ ext.PerfQualityValue q < 5) ∧
        ResolutionSettingsAt ext s' m = .ok (B.GetDLSSOptimalSettings q) ∧
        IsQualityModeSupported ext s' m = .ok (B.GetDLSSOptimalSettings q).bIsSupported :=
  Startup_records ext s In s' hinj h

/-- Witness of C3: startup on the initial statics with the sample numbering
and the three-mode backend completes, and the table then answers every mode
with the backend's record. -/
theorem C3_table_holds_backend_records_witness :
    Function.Injective Externals.sample.PerfQualityValue ∧
    ∃ s', FDLSSUpscaler.Startup Externals.sample (Statics.initial Externals.sample)
        (some Backend.threeModes) = .ok s' ∧
      ∃ B, some Backend.threeModes = some B ∧ s'.ResolutionSettings.length = 5 ∧
        ∀ m q, ToNGXQuality m = .ok q →
          (0 ≤ Externals.sample.PerfQualityValue q ∧ Externals.sample.PerfQualityValue q < 5) ∧
          ResolutionSettingsAt Externals.sample s' m = .ok (B.GetDLSSOptimalSettings q) ∧
          IsQualityModeSupported Externals.sample s' m =
            .ok (B.GetDLSSOptimalSettings q).bIsSupported :=
  ⟨sample_injective, _,
   Startup_ok_of_supported Externals.sample (Statics.initial Externals.sample)
     Backend.threeModes sample_injective sample_range rfl rfl rfl rfl,
   C3_table_holds_backend_records Externals.sample (Statics.initial Externals.sample)
     (some Backend.threeModes) _ sample_injective
     (Startup_ok_of_supported Externals.sample (Statics.initial Externals.sample)
       Backend.threeModes sample_injective sample_range rfl rfl rfl rfl)⟩

/-- C9 as stated fails: with the backend `Backend.unordered` the startup
constructor completes, Performance is supported, and its minimum fraction
`9/10` exceeds its optimal fraction `1/2`. -/
theorem C9_counterexample :
    ∃ s', FDLSSUpscaler.Startup Externals.sample (Statics.initial Externals.sample)
        (some Backend.unordered) = .ok s' ∧
      IsQualityModeSupported Externals.sample s' .Performance = .ok true ∧
      ∃ lo opt, GetMinResolutionFractionForQuality Externals.sample s' .Performance = .ok lo ∧
        GetOptimalResolutionFractionForQuality Externals.sample s' .Performance = .ok opt ∧
        ¬ lo ≤ opt := by
  have hS := Startup_ok_of_supported Externals.sample (Statics.initial Externals.sample)
    Backend.unordered sample_injective sample_range rfl rfl rfl rfl
  refine ⟨_, hS, ?_⟩
  obtain ⟨B, hB, -, hrec⟩ := Startup_records _ _ _ _ sample_injective hS
  cases hB
  obtain ⟨-, hAt, hSup⟩ := hrec .Performance .MaxPerf rfl
  refine ⟨hSup, 9 / 10, 1 / 2, ?_, ?_, by norm_num⟩
  · exact SupportedField_of_entry _ _ _ _ (·.MinResolutionFraction) hAt rfl
  · exact SupportedField_of_entry _ _ _ _ (·.OptimalResolutionFraction) hAt rfl

/-- C9, amended: once the startup constructor has completed (distinct vendor
enumerator values), for every supported quality mode the three fraction
getters return the minimum, optimal and maximum fractions of the record the
backend reported for that mode; so `Min <= Optimal <= Max` holds for the
getters whenever it holds for the backend's record. -/
theorem C9_fraction_order_from_backend (ext : Externals) (s : Statics) (In : Option NGXRHI)
    (s' : Statics) (hinj : Function.Injective ext.PerfQualityValue)
    (h : FDLSSUpscaler.Startup ext s In = .ok s') :
    ∃ B, In = some B ∧
      ∀ m q, ToNGXQuality m = .ok q → IsQualityModeSupported ext s' m = .ok true →
        GetMinResolutionFractionForQuality ext s' m =
          .ok (B.GetDLSSOptimalSettings q).MinResolutionFraction ∧
        GetOptimalResolutionFractionForQuality ext s' m =
          .ok (B.GetDLSSOptimalSettings q).OptimalResolutionFraction ∧
        GetMaxResolutionFractionForQuality ext s' m =
          .ok (B.GetDLSSOptimalSettings q).MaxResolutionFraction ∧
        ((B.GetDLSSOptimalSettings q).MinResolutionFraction ≤
            (B.GetDLSSOptimalSettings q).OptimalResolutionFraction ∧
          (B.GetDLSSOptimalSettings q).OptimalResolutionFraction ≤
            (B.GetDLSSOptimalSettings q).MaxResolutionFraction →
          ∃ lo opt hi, GetMinResolutionFractionForQuality ext s' m = .ok lo ∧
            GetOptimalResolutionFractionForQuality ext s' m = .ok opt ∧
            GetMaxResolutionFractionForQuality ext s' m = .ok hi ∧ lo ≤ opt ∧ opt ≤ hi) := by
  obtain ⟨B, hB, -, hrec⟩ := Startup_records ext s In s' hinj h
  refine ⟨B, hB, ?_⟩
  intro m q hq hsup
  obtain ⟨-, hAt, hSup⟩ := hrec m q hq
  have hb : (B.GetDLSSOptimalSettings q).bIsSupported = true := by
    rw [hSup] at hsup
    exact Except.ok.inj hsup
  have h1 := SupportedField_of_entry ext s' m _ (·.MinResolutionFraction) hAt hb
  have h2 := SupportedField_of_entry ext s' m _ (·.OptimalResolutionFraction) hAt hb
  have h3 := SupportedField_of_entry ext s' m _ (·.MaxResolutionFraction) hAt hb
  exact ⟨h1, h2, h3, fun hord => ⟨_, _, _, h1, h2, h3, hord.1, hord.2⟩⟩

/-- Witness of the amended C9: with the three-mode backend the startup
constructor completes and Performance's getters return ordered fractions. -/
theorem C9_fraction_order_from_backend_witness :
    Function.Injective Externals.sample.PerfQualityValue ∧
    ∃ s', FDLSSUpscaler.Startup Externals.sample (Statics.initial Externals.sample)
        (some Backend.threeModes) = .ok s' ∧
      ∃ lo opt hi,
        GetMinResolutionFractionForQuality Externals.sample s' .Performance = .ok lo ∧
        GetOptimalResolutionFractionForQuality Externals.sample s' .Performance = .ok opt ∧
        GetMaxResolutionFractionForQuality Externals.sample s' .Performance = .ok hi ∧
        lo ≤ opt ∧ opt ≤ hi := by
  have hS := Startup_ok_of_supported Externals.sample (Statics.initial Externals.sample)
    Backend.threeModes sample_injective sample_range rfl rfl rfl rfl
  refine ⟨sample_injective, _, hS, ?_⟩
  obtain ⟨B, hB, hall⟩ :=
    C9_fraction_order_from_backend Externals.sample _ _ _ sample_injective hS
  cases hB
  refine (hall .Performance .MaxPerf rfl ?_).2.2.2 ?_
  · obtain ⟨B2, hB2, -, hrec⟩ := Startup_records _ _ _ _ sample_injective hS
    cases hB2
    exact (hrec .Performance .MaxPerf rfl).2.2
  · constructor <;> norm_num [Backend.threeModes, SupportedSettings]

/-! ### The global fraction bounds -/

theorem foldl_min_spec (l : List ℚ) (a : ℚ) :
    (∀ x ∈ l, l.foldl min a ≤ x) ∧ l.foldl min a ≤ a ∧
      (l.foldl min a = a ∨ l.foldl min a ∈ l) := by
  induction l generalizing a with
  | nil => simp
  | cons y l ih =>
    obtain ⟨h1, h2, h3⟩ := ih (min a y)
    refine ⟨?_, ?_, ?_⟩
    · intro x hx
      rcases List.mem_cons.1 hx with hx | hx
      · subst hx
        exact le_trans h2 (min_le_right _ _)
      · exact h1 x hx
    · exact le_trans h2 (min_le_left _ _)
    · rcases h3 with h3 | h3
      · rcases min_choice a y with hc | hc
        · left
          rw [List.foldl_cons, h3, hc]
        · right
          rw [List.foldl_cons, h3, hc]
          exact List.mem_cons_self _ _
      · right
        exact List.mem_cons_of_mem _ h3

theorem foldl_max_spec (l : List ℚ) (a : ℚ) :
    (∀ x ∈ l, x ≤ l.foldl max a) ∧ a ≤ l.foldl max a ∧
      (l.foldl max a = a ∨ l.foldl max a ∈ l) := by
  induction l generalizing a with
  | nil => simp
  | cons y l ih =>
    obtain ⟨h1, h2, h3⟩ := ih (max a y)
    refine ⟨?_, ?_, ?_⟩
    · intro x hx
      rcases List.mem_cons.1 hx with hx | hx
      · subst hx
        exact le_trans (le_max_right _ _) h2
      · exact h1 x hx
    · exact le_trans (le_max_left _ _) h2
    · rcases h3 with h3 | h3
      · rcases max_choice a y with hc | hc
        · left
          rw [List.foldl_cons, h3, hc]
        · right
          rw [List.foldl_cons, h3, hc]
          exact List.mem_cons_self _ _
      · right
        exact List.mem_cons_of_mem _ h3

/-- The global bounds after the loop bodies: the seeds folded with the optimal
fractions of the counted records, in loop order. -/
theorem StartupEffects_bounds (ext : Externals) (B : NGXRHI)
    (qs : List NVSDK_NGX_PerfQuality_Value) (s : Statics) :
    (StartupEffects ext B s qs).MinResolutionFraction =
        (CountedFractions B qs).foldl min s.MinResolutionFraction ∧
      (StartupEffects ext B s qs).MaxResolutionFraction =
        (CountedFractions B qs).foldl max s.MaxResolutionFraction := by
  induction qs generalizing s with
  | nil => exact ⟨rfl, rfl⟩
  | cons q qs ih =>
    have hstep := StartupStepEffect_bounds ext B s q
    have hrec := ih (StartupStepEffect ext B s q)
    have hunf : StartupEffects ext B s (q :: qs) =
        StartupEffects ext B (StartupStepEffect ext B s q) qs := rfl
    rw [hunf, hrec.1, hrec.2, hstep.1, hstep.2.1]
    by_cases hc : CountsForBounds (B.GetDLSSOptimalSettings q) = true
    · simp [CountedFractions, hc]
    · simp [CountedFractions, hc]

/-- After startup on freshly initialised statics, when every counted optimal
fraction lies between the two numeric-limit seeds and at least one record is
counted, the global minimum and maximum are the least and the greatest
counted optimal fraction. -/
theorem Startup_bounds_exact (ext : Externals) (In : Option NGXRHI) (s' : Statics)
    (h : FDLSSUpscaler.Startup ext (Statics.initial ext) In = .ok s') :
    ∃ B, In = some B ∧
      GetMinUpsampleResolutionFraction s' =
        (CountedFractions B NVSDK_NGX_PerfQuality_Value.visited).foldl min
          ext.NumericLimitsMax ∧
      GetMaxUpsampleResolutionFraction s' =
        (CountedFractions B NVSDK_NGX_PerfQuality_Value.visited).foldl max
          ext.NumericLimitsMin ∧
      (CountedFractions B NVSDK_NGX_PerfQuality_Value.visited ≠ [] →
        (∀ x ∈ CountedFractions B NVSDK_NGX_PerfQuality_Value.visited,
          ext.NumericLimitsMin ≤ x ∧ x ≤ ext.NumericLimitsMax) →
        (GetMinUpsampleResolutionFraction s' ∈
            CountedFractions B NVSDK_NGX_PerfQuality_Value.visited ∧
          ∀ x ∈ CountedFractions B NVSDK_NGX_PerfQuality_Value.visited,
            GetMinUpsampleResolutionFraction s' ≤ x) ∧
        (GetMaxUpsampleResolutionFraction s' ∈
            CountedFractions B NVSDK_NGX_PerfQuality_Value.visited ∧
          ∀ x ∈ CountedFractions B NVSDK_NGX_PerfQuality_Value.visited,
            x ≤ GetMaxUpsampleResolutionFraction s')) := by
  obtain ⟨-, B, hIn, -, hs', -, -, -⟩ := (Startup_ok_iff ext _ In s').1 h
  have hb := StartupEffects_bounds ext B NVSDK_NGX_PerfQuality_Value.visited
    (StartupEntry (Statics.initial ext) In)
  have hmin : GetMinUpsampleResolutionFraction s' =
      (CountedFractions B NVSDK_NGX_PerfQuality_Value.visited).foldl min
        ext.NumericLimitsMax := by
    rw [hs']
    exact hb.1
  have hmax : GetMaxUpsampleResolutionFraction s' =
      (CountedFractions B NVSDK_NGX_PerfQuality_Value.visited).foldl max
        ext.NumericLimitsMin := by
    rw [hs']
    exact hb.2
  refine ⟨B, hIn, hmin, hmax, ?_⟩
  intro hne hrange
  obtain ⟨x0, hx0⟩ := List.exists_mem_of_ne_nil _ hne
  obtain ⟨a1, a2, a3⟩ :=
    foldl_min_spec (CountedFractions B NVSDK_NGX_PerfQuality_Value.visited) ext.NumericLimitsMax
  obtain ⟨b1, b2, b3⟩ :=
    foldl_max_spec (CountedFractions B NVSDK_NGX_PerfQuality_Value.visited) ext.NumericLimitsMin
  rw [hmin, hmax]
  refine ⟨⟨?_, a1⟩, ⟨?_, b1⟩⟩
  · rcases a3 with a3 | a3
    · have e : (CountedFractions B NVSDK_NGX_PerfQuality_Value.visited).foldl min
          ext.NumericLimitsMax = x0 :=
        le_antisymm (a1 x0 hx0) (by rw [a3]; exact (hrange x0 hx0).2)
      rw [e]
      exact hx0
    · exact a3
  · rcases b3 with b3 | b3
    · have e : (CountedFractions B NVSDK_NGX_PerfQuality_Value.visited).foldl max
          ext.NumericLimitsMin = x0 :=
        le_antisymm (by rw [b3]; exact (hrange x0 hx0).1) (b1 x0 hx0)
      rw [e]
      exact hx0
    · exact b3

/-- C10, the code evaluated at the failing input: on freshly initialised
statics (IEEE single limits) with the backend `Backend.zeroFraction`, whose
only supported variable-resolution mode has the optimal fraction `0`, the
startup constructor completes, the global minimum is `0`, and the global
maximum is still the sentinel `TNumericLimits<float>::Min()`, a positive
number, although the maximum over the counted modes is `0`. -/
theorem C10_max_keeps_positive_sentinel :
    ∃ s', FDLSSUpscaler.Startup Externals.sample (Statics.initial Externals.sample)
        (some Backend.zeroFraction) = .ok s' ∧
      CountsForBounds (Backend.zeroFraction.GetDLSSOptimalSettings .MaxPerf) = true ∧
      (∀ q, CountsForBounds (Backend.zeroFraction.GetDLSSOptimalSettings q) = true →
        (Backend.zeroFraction.GetDLSSOptimalSettings q).OptimalResolutionFraction = 0) ∧
      GetMinUpsampleResolutionFraction s' = 0 ∧
      GetMaxUpsampleResolutionFraction s' = Externals.sample.NumericLimitsMin ∧
      GetMaxUpsampleResolutionFraction s' ≠ 0 := by
  have hS := Startup_ok_of_supported Externals.sample (Statics.initial Externals.sample)
    Backend.zeroFraction sample_injective sample_range rfl rfl rfl rfl
  refine ⟨_, hS, rfl, ?_, ?_, ?_, ?_⟩
  · intro q
    cases q <;> simp [Backend.zeroFraction, CountsForBounds, SupportedSettings,
      FDLSSOptimalSettings.zero]
  · simp [GetMinUpsampleResolutionFraction, StartupEffects,
      NVSDK_NGX_PerfQuality_Value.visited, StartupStepEffect, Backend.zeroFraction,
      SupportedSettings, FDLSSOptimalSettings.zero, StartupEntry, Statics.initial,
      Externals.sample]
  · simp [GetMaxUpsampleResolutionFraction, StartupEffects,
      NVSDK_NGX_PerfQuality_Value.visited, StartupStepEffect, Backend.zeroFraction,
      SupportedSettings, FDLSSOptimalSettings.zero, StartupEntry, Statics.initial,
      Externals.sample]
  · simp [GetMaxUpsampleResolutionFraction, StartupEffects,
      NVSDK_NGX_PerfQuality_Value.visited, StartupStepEffect, Backend.zeroFraction,
      SupportedSettings, FDLSSOptimalSettings.zero, StartupEntry, Statics.initial,
      Externals.sample]

/-! ### The instance pool -/

/-- The pool index of a vendor enumerator whose value is in range. -/
theorem ArrayIndex_eq (v : Int) (h0 : 0 ≤ v) (h1 : v < 5) :
    (v % 4294967296).toNat = v.toNat ∧ v.toNat < 5 := by
  constructor
  · rw [Int.emod_eq_of_lt h0 (by omega)]
  · omega

/-- One pool request with a started backend, a five-slot pool and in-range
enumerator values: it returns a non-null pointer that the mode's slot holds
afterwards, keeps every filled slot, and when the slot was already filled it
returns the slot's pointer and leaves the statics unchanged. -/
theorem GetUpscalerInstance_spec (ext : Externals) (s : Statics) (U : FDLSSUpscaler)
    (m : EDLSSQualityMode) (q : NVSDK_NGX_PerfQuality_Value) (hq : ToNGXQuality m = .ok q)
    (hB : s.NGXRHIExtensions.isSome = true)
    (hlen : s.DLSSUpscalerInstancesPerViewFamily.length = 5)
    (hr : ∀ q, 0 ≤ ext.PerfQualityValue q ∧ ext.PerfQualityValue q < 5) :
    ∃ p s1, GetUpscalerInstanceForViewFamily ext s U m = .ok (p, s1) ∧ p ≠ 0 ∧
      s1.DLSSUpscalerInstancesPerViewFamily[(ext.PerfQualityValue q).toNat]? = some p ∧
      s1.NGXRHIExtensions.isSome = true ∧
      s1.DLSSUpscalerInstancesPerViewFamily.length = 5 ∧
      (∀ (j : Nat) (x : Nat), s.DLSSUpscalerInstancesPerViewFamily[j]? = some x → x ≠ 0 →
        s1.DLSSUpscalerInstancesPerViewFamily[j]? = some x) ∧
      (∀ x, s.DLSSUpscalerInstancesPerViewFamily[(ext.PerfQualityValue q).toNat]? = some x →
        x ≠ 0 → p = x ∧ s1 = s) := by
  obtain ⟨hidx, hlt⟩ := ArrayIndex_eq _ (hr q).1 (hr q).2
  have hlt2 : (ext.PerfQualityValue q).toNat < s.DLSSUpscalerInstancesPerViewFamily.length := by
    rw [hlen]; exact hlt
  have hget : s.DLSSUpscalerInstancesPerViewFamily[(ext.PerfQualityValue q).toNat]? =
      some (s.DLSSUpscalerInstancesPerViewFamily[(ext.PerfQualityValue q).toNat]) :=
    List.getElem?_eq_getElem hlt2
  by_cases hz : s.DLSSUpscalerInstancesPerViewFamily[(ext.PerfQualityValue q).toNat] = 0
  · refine ⟨s.Heap.length + 1,
      { s with
        Heap := s.Heap ++ [{ U with DLSSQualityMode := m }]
        DLSSUpscalerInstancesPerViewFamily :=
          s.DLSSUpscalerInstancesPerViewFamily.set (ext.PerfQualityValue q).toNat
            (s.Heap.length + 1) },
      ?_, Nat.succ_ne_zero _, ?_, hB, ?_, ?_, ?_⟩
    · simp only [GetUpscalerInstanceForViewFamily, hq, hidx, hget, hz, if_true,
        FDLSSUpscaler.Copy, hB]
    · simp [List.getElem?_set, hlt2]
    · simp [hlen]
    · intro j x hj hx
      by_cases hji : (ext.PerfQualityValue q).toNat = j
      · subst hji
        rw [hget, hz] at hj
        exact absurd (Option.some.inj hj).symm hx
      · simp [List.getElem?_set, hji, hj]
    · intro x hx hx0
      rw [hget, hz] at hx
      exact absurd (Option.some.inj hx).symm hx0
  · refine ⟨_, s, ?_, hz, hget, hB, hlen, fun _ _ hj _ => hj, ?_⟩
    · simp only [GetUpscalerInstanceForViewFamily, hq, hidx, hget, hz, if_false]
    · intro x hx _
      rw [hget] at hx
      exact ⟨Option.some.inj hx, rfl⟩

/-- A sequence of pool requests on valid modes completes and keeps every
filled slot. -/
theorem GetUpscalerInstances_spec (ext : Externals)
    (hr : ∀ q, 0 ≤ ext.PerfQualityValue q ∧ ext.PerfQualityValue q < 5)
    (calls : List (FDLSSUpscaler × EDLSSQualityMode))
    (hcalls : ∀ c ∈ calls, c.2 ≠ EDLSSQualityMode.NumValues) (s : Statics)
    (hB : s.NGXRHIExtensions.isSome = true)
    (hlen : s.DLSSUpscalerInstancesPerViewFamily.length = 5) :
    ∃ s2, GetUpscalerInstances ext s calls = .ok s2 ∧
      s2.NGXRHIExtensions.isSome = true ∧
      s2.DLSSUpscalerInstancesPerViewFamily.length = 5 ∧
      ∀ (j : Nat) (x : Nat), s.DLSSUpscalerInstancesPerViewFamily[j]? = some x → x ≠ 0 →
        s2.DLSSUpscalerInstancesPerViewFamily[j]? = some x := by
  induction calls generalizing s with
  | nil => exact ⟨s, rfl, hB, hlen, fun _ _ h _ => h⟩
  | cons c calls ih =>
    obtain ⟨U, m⟩ := c
    have hm : m ≠ .NumValues := hcalls (U, m) (List.mem_cons_self _ _)
    have hq : ∃ q, ToNGXQuality m = .ok q := by
      cases m
      · exact ⟨_, rfl⟩
      · exact ⟨_, rfl⟩
      · exact ⟨_, rfl⟩
      · exact ⟨_, rfl⟩
      · exact ⟨_, rfl⟩
      · exact absurd rfl hm
    obtain ⟨q, hq⟩ := hq
    obtain ⟨p, s1, hcall, -, -, hB1, hlen1, hkeep1, -⟩ :=
      GetUpscalerInstance_spec ext s U m q hq hB hlen hr
    obtain ⟨s2, hrun, hB2, hlen2, hkeep2⟩ :=
      ih (fun c hc => hcalls c (List.mem_cons_of_mem _ hc)) s1 hB1 hlen1
    refine ⟨s2, ?_, hB2, hlen2, fun j x hj hx => hkeep2 j x (hkeep1 j x hj hx) hx⟩
    simp only [GetUpscalerInstances, hcall]
    exact hrun

/-! ### The validation stage of `AddDLSSPass` -/

/-- C7: the camera-cut flag of `AddDLSSPass` is true exactly when the input
temporal history is not valid, or the view signals a camera cut, or there is
no output-history slot; and the validation stage of the pass, when it
completes, carries that flag. -/
theorem C7_camera_cut (ext : Externals) (g : Globals) (s : Statics) (This : Nat)
    (Self : FDLSSUpscaler) (View : FViewInfo) (Inputs : FDLSSPassParameters)
    (InputHistory : FTemporalAAHistory) (OutputHistory : Option FTemporalAAHistory)
    (D : DebugDump) :
    (CameraCut ext View InputHistory OutputHistory = true ↔
      (ext.TemporalAAHistoryIsValid InputHistory = false ∨ View.bCameraCut = true ∨
        OutputHistory = none)) ∧
    (∀ L D1, AddDLSSPassValidation ext g s This Self View Inputs InputHistory OutputHistory D =
        .ok (L, D1) → L.bCameraCut = CameraCut ext View InputHistory OutputHistory) := by
  constructor
  · cases OutputHistory <;> simp [CameraCut]
  · intro L D1 hL
    unfold AddDLSSPassValidation at hL
    split_ifs at hL
    dsimp only at hL
    cases hE : Inputs.GetOutputExtent ext with
    | error e => simp [hE] at hL
    | ok E =>
      cases hC : CaptureInputHistory ext D InputHistory with
      | error e => simp [hE, hC] at hL
      | ok D2 =>
        cases hQ : CheckQualityMode ext s Self.DLSSQualityMode with
        | error e => simp [hE, hC, hQ] at hL
        | ok u =>
          cases hF : CheckResolutionFractions ext s Self.DLSSQualityMode Inputs.InputViewRect
              Inputs.OutputViewRect with
          | error e => simp [hE, hC, hQ, hF] at hL
          | ok u2 =>
            simp [hE, hC, hQ, hF] at hL
            rw [← hL.1]

/-- The capture of the sample input history writes four files and increments
`count`. -/
theorem sample_capture :
    CaptureInputHistory Externals.sample DebugDump.initial FTemporalAAHistory.sample =
      .ok DebugDump.sampleCaptured := by
  decide

/-- The condition of one resolution-fraction `checkf` for a supported mode with
table entry fractions `lo` and `hi`. -/
theorem ResolutionFractionCondition_eq (ext : Externals) (s : Statics) (m : EDLSSQualityMode)
    (Src Dest : Int) (lo hi : ℚ)
    (hlo : GetMinResolutionFractionForQuality ext s m = .ok lo)
    (hhi : GetMaxResolutionFractionForQuality ext s m = .ok hi) :
    ResolutionFractionCondition ext s m Dest (Scale ext Src Dest) =
      .ok (decide (AxisCheck ext lo hi Src Dest)) := by
  unfold ResolutionFractionCondition AxisCheck
  rw [hlo, hhi]
  dsimp only
  by_cases hd : Dest < 100
  · rw [if_pos hd]
    exact congrArg Except.ok (decide_eq_true (Or.inl hd)).symm
  · rw [if_neg hd]
    by_cases h1 : ext.roundToFloat (lo - ext.roundToFloat (1 / 100)) ≤ Scale ext Src Dest
    · rw [if_pos h1]
      refine congrArg Except.ok (decide_eq_decide.2 ⟨fun h => Or.inr ⟨h1, h⟩, fun h => ?_⟩)
      rcases h with h | h
      · exact absurd h hd
      · exact h.2
    · rw [if_neg h1]
      refine congrArg Except.ok (decide_eq_false ?_).symm
      rintro (h | h)
      · exact hd h
      · exact h1 h.1

/-- The two resolution-fraction `checkf`s for a supported mode with table
entry fractions `lo` and `hi`: they pass when the condition of the source
holds on both axes and fire otherwise. -/
theorem CheckResolutionFractions_spec (ext : Externals) (s : Statics) (m : EDLSSQualityMode)
    (Src Dest : FIntRect) (lo hi : ℚ)
    (hlo : GetMinResolutionFractionForQuality ext s m = .ok lo)
    (hhi : GetMaxResolutionFractionForQuality ext s m = .ok hi) :
    (AxisCheck ext lo hi Src.Width Dest.Width ∧ AxisCheck ext lo hi Src.Height Dest.Height →
      CheckResolutionFractions ext s m Src Dest = .ok ()) ∧
    (¬ (AxisCheck ext lo hi Src.Width Dest.Width ∧ AxisCheck ext lo hi Src.Height Dest.Height) →
      CheckResolutionFractions ext s m Src Dest = .error .check) := by
  unfold CheckResolutionFractions
  dsimp only
  rw [ResolutionFractionCondition_eq ext s m _ _ lo hi hlo hhi,
    ResolutionFractionCondition_eq ext s m _ _ lo hi hlo hhi]
  by_cases hx : AxisCheck ext lo hi Src.Width Dest.Width
  · by_cases hy : AxisCheck ext lo hi Src.Height Dest.Height
    · simp [hx, hy, Check]
    · simp [hx, hy, Check]
  · simp [hx, Check]

/-- Once the instance, activity and extent checks, the capture and the
quality-mode checks have passed, the validation stage is decided by the two
resolution-fraction checks. -/
theorem AddDLSSPassValidation_of_checks (ext : Externals) (g : Globals) (s : Statics)
    (This : Nat) (Self : FDLSSUpscaler) (View : FViewInfo) (Inputs : FDLSSPassParameters)
    (InputHistory : FTemporalAAHistory) (OutputHistory : Option FTemporalAAHistory)
    (D D1 : DebugDump) (E : FIntPoint) (hinst : IsValidUpscalerInstance s This = true)
    (hact : IsDLSSActive g s This = true) (hE : Inputs.GetOutputExtent ext = .ok E)
    (hC : CaptureInputHistory ext D InputHistory = .ok D1)
    (hQ : CheckQualityMode ext s Self.DLSSQualityMode = .ok ()) :
    AddDLSSPassValidation ext g s This Self View Inputs InputHistory OutputHistory D =
      match CheckResolutionFractions ext s Self.DLSSQualityMode Inputs.InputViewRect
          Inputs.OutputViewRect with
      | .error e => .error e
      | .ok _ => .ok (⟨CameraCut ext View InputHistory OutputHistory, E, Inputs.InputViewRect,
          Inputs.OutputViewRect⟩, D1) := by
  simp only [AddDLSSPassValidation, hinst, hact, hE, hC, hQ, not_true_eq_false, if_false]

/-- The validation stage completes on the sample inputs for every view. -/
theorem sample_validation_view (View : FViewInfo) :
    AddDLSSPassValidation Externals.sample Globals.sample Statics.samplePooled 1
        ⟨.Performance⟩ View FDLSSPassParameters.sample FTemporalAAHistory.sample
        (some FTemporalAAHistory.sample) DebugDump.initial =
      .ok (⟨CameraCut Externals.sample View FTemporalAAHistory.sample
        (some FTemporalAAHistory.sample), ⟨1280, 720⟩, ⟨⟨0, 0⟩, ⟨640, 360⟩⟩,
        ⟨⟨0, 0⟩, ⟨1280, 720⟩⟩⟩, DebugDump.sampleCaptured) := by
  have hlo : GetMinResolutionFractionForQuality Externals.sample Statics.samplePooled
      .Performance = .ok (1 / 2) := rfl
  have hhi : GetMaxResolutionFractionForQuality Externals.sample Statics.samplePooled
      .Performance = .ok (3 / 5) := rfl
  have hF := (CheckResolutionFractions_spec Externals.sample Statics.samplePooled .Performance
    FDLSSPassParameters.sample.InputViewRect FDLSSPassParameters.sample.OutputViewRect _ _
    hlo hhi).1 (by
      constructor <;> right <;>
        norm_num [Scale, Externals.sample, FDLSSPassParameters.sample, FIntRect.Width,
          FIntRect.Height, wrap32])
  rw [AddDLSSPassValidation_of_checks Externals.sample Globals.sample Statics.samplePooled 1
    ⟨.Performance⟩ View FDLSSPassParameters.sample FTemporalAAHistory.sample
    (some FTemporalAAHistory.sample) DebugDump.initial DebugDump.sampleCaptured ⟨1280, 720⟩
    (by decide) (by decide) (by decide) sample_capture (by decide), hF]
  rfl

/-- The validation stage completes on the sample inputs. -/
theorem sample_validation :
    AddDLSSPassValidation Externals.sample Globals.sample Statics.samplePooled 1
        ⟨.Performance⟩ FViewInfo.sample FDLSSPassParameters.sample FTemporalAAHistory.sample
        (some FTemporalAAHistory.sample) DebugDump.initial =
      .ok (⟨false, ⟨1280, 720⟩, ⟨⟨0, 0⟩, ⟨640, 360⟩⟩, ⟨⟨0, 0⟩, ⟨1280, 720⟩⟩⟩,
        DebugDump.sampleCaptured) :=
  sample_validation_view FViewInfo.sample

/-- Witness of C7: for the sample view with a valid input history and an
output-history slot the validation stage completes with the flag false. -/
theorem C7_camera_cut_witness :
    ∃ L D1, AddDLSSPassValidation Externals.sample Globals.sample Statics.samplePooled 1
        ⟨.Performance⟩ FViewInfo.sample FDLSSPassParameters.sample FTemporalAAHistory.sample
        (some FTemporalAAHistory.sample) DebugDump.initial = .ok (L, D1) ∧
      L.bCameraCut = CameraCut Externals.sample FViewInfo.sample FTemporalAAHistory.sample
        (some FTemporalAAHistory.sample) ∧
      L.bCameraCut = false :=
  ⟨_, _, sample_validation,
    (C7_camera_cut Externals.sample Globals.sample Statics.samplePooled 1 ⟨.Performance⟩
      FViewInfo.sample FDLSSPassParameters.sample FTemporalAAHistory.sample
      (some FTemporalAAHistory.sample) DebugDump.initial).2 _ _ sample_validation, rfl⟩

/-! ### Single-precision rounding and the resolution-fraction checks -/

theorem RoundHalfEven_error (x : ℚ) : |(RoundHalfEven x : ℚ) - x| ≤ 1 / 2 := by
  have h1 : (⌊x⌋ : ℚ) ≤ x := Int.floor_le x
  have h2 : x < ⌊x⌋ + 1 := Int.lt_floor_add_one x
  unfold RoundHalfEven
  dsimp only
  rw [abs_le]
  split_ifs with ha hb hc
  · constructor <;> linarith
  · push_cast
    constructor <;> linarith
  · constructor <;> linarith
  · push_cast
    constructor <;> linarith

theorem RoundHalfEven_intCast (z : Int) : RoundHalfEven (z : ℚ) = z := by
  unfold RoundHalfEven
  simp

theorem RoundHalfEven_of_near (x : ℚ) (z : Int) (h1 : (z : ℚ) - 1 / 2 < x)
    (h2 : x < z + 1 / 2) : RoundHalfEven x = z := by
  have h3 : (⌊x⌋ : ℚ) ≤ x := Int.floor_le x
  have h4 : x < ⌊x⌋ + 1 := Int.lt_floor_add_one x
  unfold RoundHalfEven
  dsimp only
  split_ifs with ha hb hc
  · have : ((⌊x⌋ - z : Int) : ℚ) < 1 := by push_cast; linarith
    have : (((z - ⌊x⌋ : Int)) : ℚ) < 1 := by push_cast; linarith
    have a1 : ⌊x⌋ - z < 1 := by exact_mod_cast ‹((⌊x⌋ - z : Int) : ℚ) < 1›
    have a2 : z - ⌊x⌋ < 1 := by exact_mod_cast this
    omega
  · have : (((⌊x⌋ + 1 - z : Int)) : ℚ) < 1 := by push_cast; linarith
    have a1 : ⌊x⌋ + 1 - z < 1 := by exact_mod_cast this
    have : (((z - (⌊x⌋ + 1) : Int)) : ℚ) < 1 := by push_cast; linarith
    have a2 : z - (⌊x⌋ + 1) < 1 := by exact_mod_cast this
    omega
  · have e : x - ⌊x⌋ = 1 / 2 := le_antisymm (not_lt.1 hb) (not_lt.1 ha)
    have : ((⌊x⌋ - z : Int) : ℚ) < 1 := by push_cast; linarith
    have a1 : ⌊x⌋ - z < 1 := by exact_mod_cast this
    have : (((z - ⌊x⌋ : Int)) : ℚ) < 1 := by push_cast; linarith
    have a2 : z - ⌊x⌋ < 1 := by exact_mod_cast this
    omega
  · have e : x - ⌊x⌋ = 1 / 2 := le_antisymm (not_lt.1 hb) (not_lt.1 ha)
    have : (((⌊x⌋ + 1 - z : Int)) : ℚ) < 1 := by push_cast; linarith
    have a1 : ⌊x⌋ + 1 - z < 1 := by exact_mod_cast this
    have : (((z - (⌊x⌋ + 1) : Int)) : ℚ) < 1 := by push_cast; linarith
    have a2 : z - (⌊x⌋ + 1) < 1 := by exact_mod_cast this
    omega

theorem RoundHalfEven_of_tie (x : ℚ) (z : Int) (h : x = z + 1 / 2) :
    RoundHalfEven x = if z % 2 = 0 then z else z + 1 := by
  have hf : ⌊x⌋ = z := by
    rw [Int.floor_eq_iff]
    constructor <;> linarith
  unfold RoundHalfEven
  dsimp only
  rw [hf]
  have e : x - z = 1 / 2 := by linarith
  rw [e]
  simp

theorem two_zpow_pos (e : Int) : (0 : ℚ) < 2 ^ e := zpow_pos (by norm_num) e

/-- The rounding error of `RoundToFloat`: at most half a unit in the last
place, which is at most `|x| / 2^24` for a normal result and `2^-150` for a
subnormal one. -/
theorem RoundToFloat_error (x : ℚ) :
    |RoundToFloat x - x| ≤ |x| / 2 ^ 24 + 1 / 2 ^ 150 := by
  unfold RoundToFloat
  by_cases hx : x = 0
  · simp [hx]
  · rw [if_neg hx]
    dsimp only
    have hpos : (0 : ℚ) < |x| := abs_pos.2 hx
    set E : Int := max (Int.log 2 |x|) (-126) with hE
    have hq : (0 : ℚ) < 2 ^ (E - 23) := two_zpow_pos _
    have herr := RoundHalfEven_error (x / 2 ^ (E - 23))
    have hkey : |(RoundHalfEven (x / 2 ^ (E - 23)) : ℚ) * 2 ^ (E - 23) - x| ≤
        2 ^ (E - 23) / 2 := by
      have : (RoundHalfEven (x / 2 ^ (E - 23)) : ℚ) * 2 ^ (E - 23) - x =
          ((RoundHalfEven (x / 2 ^ (E - 23)) : ℚ) - x / 2 ^ (E - 23)) * 2 ^ (E - 23) := by
        field_simp
      rw [this, abs_mul, abs_of_pos hq]
      calc |(RoundHalfEven (x / 2 ^ (E - 23)) : ℚ) - x / 2 ^ (E - 23)| * 2 ^ (E - 23)
          ≤ 1 / 2 * 2 ^ (E - 23) := mul_le_mul_of_nonneg_right herr hq.le
        _ = 2 ^ (E - 23) / 2 := by ring
    have hsplit : (2 : ℚ) ^ (E - 23) / 2 = 2 ^ E / 2 ^ 24 := by
      rw [zpow_sub₀ (by norm_num : (2 : ℚ) ≠ 0)]
      norm_num
      ring
    rw [hsplit] at hkey
    have hE2 : (2 : ℚ) ^ E ≤ |x| + 2 ^ (-126 : Int) := by
      rcases le_total (Int.log 2 |x|) (-126) with h | h
      · have : E = -126 := by rw [hE]; exact max_eq_right h
        rw [this]
        linarith
      · have : E = Int.log 2 |x| := by rw [hE]; exact max_eq_left h
        rw [this]
        have := Int.zpow_log_le_self (R := ℚ) (b := 2) (by norm_num) hpos
        have h0 : (0 : ℚ) < 2 ^ (-126 : Int) := two_zpow_pos _
        push_cast at this
        linarith
    calc |(RoundHalfEven (x / 2 ^ (E - 23)) : ℚ) * 2 ^ (E - 23) - x|
        ≤ 2 ^ E / 2 ^ 24 := hkey
      _ ≤ (|x| + 2 ^ (-126 : Int)) / 2 ^ 24 := by
          apply div_le_div_of_nonneg_right hE2 (by positivity)
      _ = |x| / 2 ^ 24 + 1 / 2 ^ 150 := by
          rw [add_div]
          congr 1
          rw [zpow_neg]
          norm_num

/-- An integer of magnitude below `2^24` is a `float`. -/
theorem RoundToFloat_intCast (n : Int) (h : |n| < 16777216) : RoundToFloat (n : ℚ) = n := by
  unfold RoundToFloat
  by_cases hn : (n : ℚ) = 0
  · simp [hn]
  · rw [if_neg hn]
    dsimp only
    have hn0 : n ≠ 0 := by exact_mod_cast hn
    have hpos : (0 : ℚ) < |(n : ℚ)| := abs_pos.2 hn
    have h1 : (1 : ℚ) ≤ |(n : ℚ)| := by
      have : (1 : Int) ≤ |n| := Int.one_le_abs hn0
      exact_mod_cast this
    have hlog0 : 0 ≤ Int.log 2 |(n : ℚ)| := by
      rw [← Int.zpow_le_iff_le_log (by norm_num) hpos]
      simpa using h1
    have hlog1 : Int.log 2 |(n : ℚ)| < 24 := by
      rw [← Int.lt_zpow_iff_log_lt (by norm_num) hpos]
      have : (|n| : Int) < 16777216 := h
      have h2 : |(n : ℚ)| < 16777216 := by exact_mod_cast this
      norm_num
      exact h2
    have hE : max (Int.log 2 |(n : ℚ)|) (-126) = Int.log 2 |(n : ℚ)| :=
      max_eq_left (by omega)
    rw [hE]
    obtain ⟨k, hk⟩ : ∃ k : Nat, Int.log 2 |(n : ℚ)| - 23 = -(k : Int) :=
      ⟨(23 - Int.log 2 |(n : ℚ)|).toNat, by omega⟩
    rw [hk, zpow_neg, zpow_natCast]
    have hint : (n : ℚ) / (2 ^ k)⁻¹ = ((n * 2 ^ k : Int) : ℚ) := by
      push_cast
      field_simp
    rw [hint, RoundHalfEven_intCast]
    push_cast
    field_simp

/-- The value of `RoundToFloat` for a positive number with a known binary
exponent in the normal range. -/
theorem RoundToFloat_of_exponent (x : ℚ) (e : Int) (hx : 0 < x) (h1 : (2 : ℚ) ^ e ≤ x)
    (h2 : x < (2 : ℚ) ^ (e + 1)) (he : -126 ≤ e) :
    RoundToFloat x = RoundHalfEven (x / 2 ^ (e - 23)) * 2 ^ (e - 23) := by
  have hlog : Int.log 2 |x| = e := by
    rw [abs_of_pos hx]
    apply le_antisymm
    · have := (Int.lt_zpow_iff_log_lt (R := ℚ) (b := 2) (by norm_num) hx (x := e + 1)).1
        (by exact_mod_cast h2)
      omega
    · exact (Int.zpow_le_iff_le_log (R := ℚ) (b := 2) (by norm_num) hx).1 (by exact_mod_cast h1)
  unfold RoundToFloat
  rw [if_neg hx.ne']
  dsimp only
  rw [hlog, max_eq_left he]

theorem RoundToFloat_hundredth : RoundToFloat (1 / 100) = 5368709 / 536870912 := by
  rw [RoundToFloat_of_exponent (1 / 100) (-7) (by norm_num) (by norm_num) (by norm_num)
    (by norm_num), RoundHalfEven_of_near _ 10737418 (by norm_num) (by norm_num)]
  norm_num

/-- Bounds on the rounded value of a number of magnitude at most `B`. -/
theorem RoundToFloat_bounds (x B : ℚ) (h : |x| ≤ B) :
    x - (B / 2 ^ 24 + 1 / 2 ^ 150) ≤ RoundToFloat x ∧
      RoundToFloat x ≤ x + (B / 2 ^ 24 + 1 / 2 ^ 150) := by
  have herr := abs_le.1 (RoundToFloat_error x)
  have hdiv : |x| / 2 ^ 24 ≤ B / 2 ^ 24 := div_le_div_of_nonneg_right h (by positivity)
  constructor <;> linarith [herr.1, herr.2]

/-- With dimensions of magnitude below `2^24` the scale of the source is the
correctly rounded quotient. -/
theorem Scale_exact (ext : Externals) (hfl : ext.roundToFloat = RoundToFloat) (Src Dest : Int)
    (hs : |Src| < 16777216) (hd : |Dest| < 16777216) :
    Scale ext Src Dest = RoundToFloat ((Src : ℚ) / (Dest : ℚ)) := by
  unfold Scale
  rw [hfl, RoundToFloat_intCast Src hs, RoundToFloat_intCast Dest hd]

/-- An axis whose exact fraction lies in the band narrowed by `10^-6` passes
the check of the source. -/
theorem AxisCheck_of_accepted (ext : Externals) (hfl : ext.roundToFloat = RoundToFloat)
    (lo hi : ℚ) (Src Dest : Int) (hlo : |lo| ≤ 1) (hhi : |hi| ≤ 1)
    (hs : |Src| < 16777216) (hd : Dest < 16777216)
    (h : AxisAccepted (1 / 100 - 1 / 1000000) lo hi Src Dest) :
    AxisCheck ext lo hi Src Dest := by
  by_cases hsmall : Dest < 100
  · exact Or.inl hsmall
  · right
    have hd2 : |Dest| < 16777216 := by
      rw [abs_lt]
      constructor <;> omega
    rw [Scale_exact ext hfl Src Dest hs hd2, hfl, RoundToFloat_hundredth]
    rcases h with h | ⟨h1, h2⟩
    · exact absurd h hsmall
    · obtain ⟨l1, l2⟩ := abs_le.1 hlo
      obtain ⟨u1, u2⟩ := abs_le.1 hhi
      generalize (Src : ℚ) / (Dest : ℚ) = r at h1 h2 ⊢
      have hr : |r| ≤ 102 / 100 := abs_le.2 ⟨by linarith, by linarith⟩
      have hS := RoundToFloat_bounds r (102 / 100) hr
      have hL := RoundToFloat_bounds (lo - 5368709 / 536870912) (102 / 100)
        (abs_le.2 ⟨by linarith, by linarith⟩)
      have hH := RoundToFloat_bounds (hi + 5368709 / 536870912) (102 / 100)
        (abs_le.2 ⟨by linarith, by linarith⟩)
      norm_num at hS hL hH
      constructor <;> linarith [hS.1, hS.2, hL.1, hL.2, hH.1, hH.2]

/-- An axis of at least 100 px whose exact fraction lies outside the band
widened by `10^-6` fails the check of the source. -/
theorem AxisCheck_rejected (ext : Externals) (hfl : ext.roundToFloat = RoundToFloat)
    (lo hi : ℚ) (Src Dest : Int) (hlo : |lo| ≤ 1) (hhi : |hi| ≤ 1)
    (hs : |Src| < 16777216) (hd : Dest < 16777216)
    (h : ¬ AxisAccepted (1 / 100 + 1 / 1000000) lo hi Src Dest) :
    ¬ AxisCheck ext lo hi Src Dest := by
  unfold AxisAccepted at h
  rw [not_or] at h
  obtain ⟨hbig, hout⟩ := h
  have hd2 : |Dest| < 16777216 := by
    rw [abs_lt]
    constructor <;> omega
  rintro (hc | ⟨c1, c2⟩)
  · exact hbig hc
  · rw [Scale_exact ext hfl Src Dest hs hd2, hfl, RoundToFloat_hundredth] at c1 c2
    obtain ⟨l1, l2⟩ := abs_le.1 hlo
    obtain ⟨u1, u2⟩ := abs_le.1 hhi
    generalize (Src : ℚ) / (Dest : ℚ) = r at hout c1 c2
    have hL := RoundToFloat_bounds (lo - 5368709 / 536870912) (102 / 100)
      (abs_le.2 ⟨by linarith, by linarith⟩)
    have hH := RoundToFloat_bounds (hi + 5368709 / 536870912) (102 / 100)
      (abs_le.2 ⟨by linarith, by linarith⟩)
    norm_num at hL hH
    by_cases hlow : r < lo - (1 / 100 + 1 / 1000000)
    · by_cases hfar : r < -3
      · have hS := RoundToFloat_bounds r (-r) (abs_le.2 ⟨by linarith, by linarith⟩)
        norm_num at hS
        linarith [hS.1, hS.2, hL.1, hL.2]
      · have hS := RoundToFloat_bounds r 3 (abs_le.2 ⟨by linarith, by linarith⟩)
        norm_num at hS
        linarith [hS.1, hS.2, hL.1, hL.2]
    · have hhigh : hi + (1 / 100 + 1 / 1000000) < r := by
        by_contra hn
        exact hout ⟨not_lt.1 hlow, not_lt.1 hn⟩
      by_cases hfar : 3 < r
      · have hS := RoundToFloat_bounds r r (abs_le.2 ⟨by linarith, by linarith⟩)
        norm_num at hS
        linarith [hS.1, hS.2, hH.1, hH.2]
      · have hS := RoundToFloat_bounds r 3 (abs_le.2 ⟨by linarith, by linarith⟩)
        norm_num at hS
        linarith [hS.1, hS.2, hH.1, hH.2]

/-- The `float` nearest to `21/400`. -/
theorem RoundToFloat_21_400 : RoundToFloat (21 / 400) = 14092861 / 268435456 := by
  rw [RoundToFloat_of_exponent (21 / 400) (-5) (by norm_num) (by norm_num) (by norm_num)
    (by norm_num), RoundHalfEven_of_near _ 14092861 (by norm_num) (by norm_num)]
  norm_num

/-- The `float` result of `0.0625f - 0.01f`: the exact difference lies half-way
between two floats and is rounded to the even one, above it. -/
theorem RoundToFloat_sixteenth_minus : RoundToFloat (1 / 16 - 5368709 / 536870912) =
    14092862 / 268435456 := by
  rw [RoundToFloat_of_exponent _ (-5) (by norm_num) (by norm_num) (by norm_num)
    (by norm_num), RoundHalfEven_of_tie _ 14092861 (by norm_num)]
  norm_num

/-- The `float` nearest to `788/1200`. -/
theorem RoundToFloat_788_1200 : RoundToFloat (788 / 1200) = 11017039 / 16777216 := by
  rw [RoundToFloat_of_exponent _ (-1) (by norm_num) (by norm_num) (by norm_num)
    (by norm_num), RoundHalfEven_of_near _ 11017039 (by norm_num) (by norm_num)]
  norm_num

/-- The `float` result of `0.6666667f - 0.01f`. -/
theorem RoundToFloat_two_thirds_minus :
    RoundToFloat (11184811 / 16777216 - 5368709 / 536870912) = 11017039 / 16777216 := by
  rw [RoundToFloat_of_exponent _ (-1) (by norm_num) (by norm_num) (by norm_num)
    (by norm_num), RoundHalfEven_of_near _ 11017039 (by norm_num) (by norm_num)]
  norm_num

/-- The `float` result of `1.0f + 0.01f`. -/
theorem RoundToFloat_one_plus : RoundToFloat (1 + 5368709 / 536870912) = 4236247 / 4194304 := by
  rw [RoundToFloat_of_exponent _ 0 (by norm_num) (by norm_num) (by norm_num)
    (by norm_num), RoundHalfEven_of_near _ 8472494 (by norm_num) (by norm_num)]
  norm_num

/-- The mode count after the loop bodies: one more for every counted record. -/
theorem StartupEffects_count (ext : Externals) (B : NGXRHI)
    (qs : List NVSDK_NGX_PerfQuality_Value) (s : Statics)
    (h : s.NumRuntimeQualityModes + qs.length < 4294967296) :
    (StartupEffects ext B s qs).NumRuntimeQualityModes =
      s.NumRuntimeQualityModes + (CountedFractions B qs).length := by
  induction qs generalizing s with
  | nil => rfl
  | cons q qs ih =>
    have hstep := (StartupStepEffect_bounds ext B s q).2.2
    have hunf : StartupEffects ext B s (q :: qs) =
        StartupEffects ext B (StartupStepEffect ext B s q) qs := rfl
    simp only [List.length_cons] at h
    by_cases hc : CountsForBounds (B.GetDLSSOptimalSettings q) = true
    · rw [if_pos hc] at hstep
      have hlt : (s.NumRuntimeQualityModes + 1) % 4294967296 = s.NumRuntimeQualityModes + 1 :=
        Nat.mod_eq_of_lt (by omega)
      rw [hunf, ih _ (by rw [hstep, hlt]; omega), hstep, hlt]
      simp [CountedFractions, hc]
      omega
    · rw [if_neg hc] at hstep
      rw [hunf, ih _ (by rw [hstep]; omega), hstep]
      simp [CountedFractions, hc]

/-- After startup on freshly initialised statics the mode count is the number
of records that are supported and not fixed-resolution. -/
theorem Startup_count (ext : Externals) (In : Option NGXRHI) (s' : Statics)
    (h : FDLSSUpscaler.Startup ext (Statics.initial ext) In = .ok s') :
    ∃ B, In = some B ∧
      s'.NumRuntimeQualityModes =
        (CountedFractions B NVSDK_NGX_PerfQuality_Value.visited).length := by
  obtain ⟨-, B, hIn, -, hs', -, -, -⟩ := (Startup_ok_iff ext _ In s').1 h
  refine ⟨B, hIn, ?_⟩
  rw [hs', StartupEffects_count]
  · simp [StartupEntry, Statics.initial]
  · simp [StartupEntry, Statics.initial, NVSDK_NGX_PerfQuality_Value.visited]

/-- C11, the code evaluated at the failing input: on freshly initialised
statics with the backend `Backend.zeroFraction`, which reports Performance,
Balanced and Quality as supported (the last two with a fixed resolution), the
startup constructor completes and `NumRuntimeQualityModes` is `1`, while the
number of modes the backend reports as supported is `3`. -/
theorem C11_count_skips_fixed_resolution_modes :
    ∃ s', FDLSSUpscaler.Startup Externals.sample (Statics.initial Externals.sample)
        (some Backend.zeroFraction) = .ok s' ∧
      s'.NumRuntimeQualityModes = 1 ∧ SupportedCount Backend.zeroFraction = 3 := by
  have hS := Startup_ok_of_supported Externals.sample (Statics.initial Externals.sample)
    Backend.zeroFraction sample_injective sample_range rfl rfl rfl rfl
  refine ⟨_, hS, ?_, by decide⟩
  obtain ⟨B, hB, hn⟩ := Startup_count _ _ _ hS
  cases hB
  rw [hn]
  decide

/-! ### The automatic quality selector -/

/-- The selector as a cascade over the three support answers. -/
theorem AutoQuality_of_support (ext : Externals) (s : Statics) (p : Int) (b1 b2 b3 : Bool)
    (h1 : IsQualityModeSupported ext s .UltraPerformance = .ok b1)
    (h2 : IsQualityModeSupported ext s .Performance = .ok b2)
    (h3 : IsQualityModeSupported ext s .Quality = .ok b3) :
    GetAutoQualityModeFromPixels ext s p =
      .ok (if p ≥ 8300000 ∧ b1 = true then some .UltraPerformance
           else if p ≥ 3690000 ∧ b2 = true then some .Performance
           else if p ≥ 2030000 ∧ b3 = true then some .Quality
           else none) := by
  unfold GetAutoQualityModeFromPixels andAlso
  rw [h1, h2, h3]
  by_cases c1 : p ≥ 8300000 <;> by_cases c2 : p ≥ 3690000 <;> by_cases c3 : p ≥ 2030000 <;>
    cases b1 <;> cases b2 <;> cases b3 <;> simp [c1, c2, c3]

/-- C12: for a fixed settings table with in-range vendor indices and pixel
counts `p <= q`, when `GetAutoQualityModeFromPixels` selects a mode for `p` it
selects a mode for `q`, and the mode for `q` does not come later in the
ordering by resolution fraction than the mode for `p`. -/
theorem C12_auto_quality_monotone (ext : Externals) (s : Statics) (h : IndicesInRange ext s)
    (p q : Int) (hpq : p ≤ q) (mp : EDLSSQualityMode)
    (hp : GetAutoQualityModeFromPixels ext s p = .ok (some mp)) :
    ∃ mq, GetAutoQualityModeFromPixels ext s q = .ok (some mq) ∧
      FractionRank mq ≤ FractionRank mp := by
  obtain ⟨r1, -, h1⟩ := IsQualityModeSupported_total ext s h .UltraPerformance (by decide)
  obtain ⟨r2, -, h2⟩ := IsQualityModeSupported_total ext s h .Performance (by decide)
  obtain ⟨r3, -, h3⟩ := IsQualityModeSupported_total ext s h .Quality (by decide)
  rw [AutoQuality_of_support ext s p _ _ _ h1 h2 h3] at hp
  rw [AutoQuality_of_support ext s q _ _ _ h1 h2 h3]
  have hp2 := Except.ok.inj hp
  clear hp
  by_cases a1 : q ≥ 8300000 ∧ r1.bIsSupported = true
  · refine ⟨.UltraPerformance, by rw [if_pos a1], ?_⟩
    simp [FractionRank]
  · have a1p : ¬ (p ≥ 8300000 ∧ r1.bIsSupported = true) := fun hh => a1 ⟨by omega, hh.2⟩
    rw [if_neg a1p] at hp2
    rw [if_neg a1]
    by_cases a2 : q ≥ 3690000 ∧ r2.bIsSupported = true
    · refine ⟨.Performance, by rw [if_pos a2], ?_⟩
      split_ifs at hp2 <;> cases hp2 <;> simp [FractionRank]
    · have a2p : ¬ (p ≥ 3690000 ∧ r2.bIsSupported = true) := fun hh => a2 ⟨by omega, hh.2⟩
      rw [if_neg a2p] at hp2
      rw [if_neg a2]
      by_cases a3 : p ≥ 2030000 ∧ r3.bIsSupported = true
      · rw [if_pos a3] at hp2
        cases hp2
        have a3q : q ≥ 2030000 ∧ r3.bIsSupported = true := ⟨by omega, a3.2⟩
        exact ⟨.Quality, by rw [if_pos a3q], le_refl _⟩
      · rw [if_neg a3] at hp2
        cases hp2

/-- Witness of C12 on the all-modes table: 4,000,000 pixels select
Performance and 9,000,000 pixels select UltraPerformance. -/
theorem C12_auto_quality_monotone_witness :
    GetAutoQualityModeFromPixels Externals.sample Statics.sampleAllModes 4000000 =
      .ok (some .Performance) ∧
    ∃ mq, GetAutoQualityModeFromPixels Externals.sample Statics.sampleAllModes 9000000 =
        .ok (some mq) ∧ FractionRank mq ≤ FractionRank .Performance :=
  ⟨by decide,
   C12_auto_quality_monotone Externals.sample Statics.sampleAllModes
     (by intro q; cases q <;> simp [Externals.sample, Statics.sampleAllModes])
     4000000 9000000 (by decide) .Performance (by decide)⟩

/-- C13: with UltraPerformance, Performance and Quality supported, every
threshold is an inclusive lower bound: 8,300,000 selects UltraPerformance and
8,299,999 Performance; 3,690,000 selects Performance and 3,689,999 Quality;
2,030,000 selects Quality and 2,029,999 selects nothing. -/
theorem C13_thresholds_inclusive (ext : Externals) (s : Statics)
    (h1 : IsQualityModeSupported ext s .UltraPerformance = .ok true)
    (h2 : IsQualityModeSupported ext s .Performance = .ok true)
    (h3 : IsQualityModeSupported ext s .Quality = .ok true) :
    GetAutoQualityModeFromPixels ext s 8300000 = .ok (some .UltraPerformance) ∧
    GetAutoQualityModeFromPixels ext s 8299999 = .ok (some .Performance) ∧
    GetAutoQualityModeFromPixels ext s 3690000 = .ok (some .Performance) ∧
    GetAutoQualityModeFromPixels ext s 3689999 = .ok (some .Quality) ∧
    GetAutoQualityModeFromPixels ext s 2030000 = .ok (some .Quality) ∧
    GetAutoQualityModeFromPixels ext s 2029999 = .ok none := by
  refine ⟨?_, ?_, ?_, ?_, ?_, ?_⟩ <;>
    rw [AutoQuality_of_support ext s _ _ _ _ h1 h2 h3] <;> simp

/-- Witness of C13 on the all-modes table. -/
theorem C13_thresholds_inclusive_witness :
    GetAutoQualityModeFromPixels Externals.sample Statics.sampleAllModes 8300000 =
      .ok (some .UltraPerformance) ∧
    GetAutoQualityModeFromPixels Externals.sample Statics.sampleAllModes 8299999 =
      .ok (some .Performance) ∧
    GetAutoQualityModeFromPixels Externals.sample Statics.sampleAllModes 3690000 =
      .ok (some .Performance) ∧
    GetAutoQualityModeFromPixels Externals.sample Statics.sampleAllModes 3689999 =
      .ok (some .Quality) ∧
    GetAutoQualityModeFromPixels Externals.sample Statics.sampleAllModes 2030000 =
      .ok (some .Quality) ∧
    GetAutoQualityModeFromPixels Externals.sample Statics.sampleAllModes 2029999 = .ok none :=
  C13_thresholds_inclusive Externals.sample Statics.sampleAllModes (by decide) (by decide)
    (by decide)

/-- C14: when UltraPerformance is unsupported and Performance is supported,
every pixel count of at least 3,690,000, also one of at least 8,300,000,
selects Performance. -/
theorem C14_unsupported_mode_falls_through (ext : Externals) (s : Statics) (p : Int)
    (hp : p ≥ 3690000)
    (h1 : IsQualityModeSupported ext s .UltraPerformance = .ok false)
    (h2 : IsQualityModeSupported ext s .Performance = .ok true) :
    GetAutoQualityModeFromPixels ext s p = .ok (some .Performance) := by
  unfold GetAutoQualityModeFromPixels andAlso
  rw [h1, h2]
  by_cases c1 : p ≥ 8300000 <;> simp [c1, hp]

/-- Witness of C14: with Performance, Balanced and Quality supported and the
other two modes unsupported, 9,000,000 pixels select Performance. -/
theorem C14_unsupported_mode_falls_through_witness :
    IsQualityModeSupported Externals.sample Statics.sample .UltraPerformance = .ok false ∧
    IsQualityModeSupported Externals.sample Statics.sample .UltraQuality = .ok false ∧
    IsQualityModeSupported Externals.sample Statics.sample .Performance = .ok true ∧
    IsQualityModeSupported Externals.sample Statics.sample .Balanced = .ok true ∧
    IsQualityModeSupported Externals.sample Statics.sample .Quality = .ok true ∧
    GetAutoQualityModeFromPixels Externals.sample Statics.sample 9000000 =
      .ok (some .Performance) :=
  ⟨by decide, by decide, by decide, by decide, by decide,
   C14_unsupported_mode_falls_through Externals.sample Statics.sample 9000000 (by decide)
     (by decide) (by decide)⟩

/-! ### The instance pool: binding, validity and teardown -/

theorem ToNGXQuality_injective (a b : EDLSSQualityMode) (q : NVSDK_NGX_PerfQuality_Value)
    (ha : ToNGXQuality a = .ok q) (hb : ToNGXQuality b = .ok q) : a = b := by
  rw [← hb] at ha
  cases a <;> cases b <;> first | rfl | (simp [ToNGXQuality] at ha)

theorem ToNGXQuality_of_valid (m : EDLSSQualityMode) (hm : m ≠ .NumValues) :
    ∃ q, ToNGXQuality m = .ok q := by
  cases m
  · exact ⟨_, rfl⟩
  · exact ⟨_, rfl⟩
  · exact ⟨_, rfl⟩
  · exact ⟨_, rfl⟩
  · exact ⟨_, rfl⟩
  · exact absurd rfl hm

theorem Deref_append (s : Statics) (made : FDLSSUpscaler) (pool : List Nat) (p : Nat)
    (U : FDLSSUpscaler) (h : s.Deref p = some U) :
    Statics.Deref { s with Heap := s.Heap ++ [made], DLSSUpscalerInstancesPerViewFamily := pool }
      p = some U := by
  unfold Statics.Deref at h ⊢
  by_cases hp : p = 0
  · simp [hp] at h
  · simp only [hp, if_false] at h ⊢
    have hlt : p - 1 < s.Heap.length := by
      by_contra hn
      rw [List.getElem?_eq_none (by omega)] at h
      cases h
    rw [List.getElem?_append_left hlt]
    exact h

theorem PoolBound_empty (ext : Externals) (s : Statics)
    (h : ∀ x ∈ s.DLSSUpscalerInstancesPerViewFamily, x = 0) : PoolBound ext s := by
  intro q p hp hp0
  exact absurd (h p (List.getElem?_mem hp)) hp0

/-- One pool request keeps the pool bound to its modes, keeps every live
object, and returns a pointer to an object of the requested mode. -/
theorem GetUpscalerInstance_bound (ext : Externals) (s : Statics) (U : FDLSSUpscaler)
    (m : EDLSSQualityMode) (q : NVSDK_NGX_PerfQuality_Value) (hq : ToNGXQuality m = .ok q)
    (hinj : Function.Injective ext.PerfQualityValue)
    (hB : s.NGXRHIExtensions.isSome = true)
    (hlen : s.DLSSUpscalerInstancesPerViewFamily.length = 5)
    (hr : ∀ q, 0 ≤ ext.PerfQualityValue q ∧ ext.PerfQualityValue q < 5)
    (hI : PoolBound ext s) :
    ∃ p s1, GetUpscalerInstanceForViewFamily ext s U m = .ok (p, s1) ∧ p ≠ 0 ∧
      s1.NGXRHIExtensions.isSome = true ∧
      s1.DLSSUpscalerInstancesPerViewFamily.length = 5 ∧ PoolBound ext s1 ∧
      (∃ O, s1.Deref p = some O ∧ O.DLSSQualityMode = m) ∧
      (∀ p' O, s.Deref p' = some O → s1.Deref p' = some O) := by
  obtain ⟨hidx, hlt⟩ := ArrayIndex_eq _ (hr q).1 (hr q).2
  have hlt2 : (ext.PerfQualityValue q).toNat < s.DLSSUpscalerInstancesPerViewFamily.length := by
    rw [hlen]; exact hlt
  have hget : s.DLSSUpscalerInstancesPerViewFamily[(ext.PerfQualityValue q).toNat]? =
      some (s.DLSSUpscalerInstancesPerViewFamily[(ext.PerfQualityValue q).toNat]) :=
    List.getElem?_eq_getElem hlt2
  by_cases hz : s.DLSSUpscalerInstancesPerViewFamily[(ext.PerfQualityValue q).toNat] = 0
  · have hnew : Statics.Deref
        { s with
          Heap := s.Heap ++ [{ U with DLSSQualityMode := m }]
          DLSSUpscalerInstancesPerViewFamily :=
            s.DLSSUpscalerInstancesPerViewFamily.set (ext.PerfQualityValue q).toNat
              (s.Heap.length + 1) }
        (s.Heap.length + 1) = some { U with DLSSQualityMode := m } := by
      simp [Statics.Deref]
    refine ⟨s.Heap.length + 1,
      { s with
        Heap := s.Heap ++ [{ U with DLSSQualityMode := m }]
        DLSSUpscalerInstancesPerViewFamily :=
          s.DLSSUpscalerInstancesPerViewFamily.set (ext.PerfQualityValue q).toNat
            (s.Heap.length + 1) },
      ?_, Nat.succ_ne_zero _, hB, ?_, ?_, ⟨_, hnew, rfl⟩, ?_⟩
    · simp only [GetUpscalerInstanceForViewFamily, hq, hidx, hget, hz, if_true,
        FDLSSUpscaler.Copy, hB]
    · simp [hlen]
    · intro q' p' hp' hp0
      by_cases hqq : q' = q
      · subst hqq
        have : p' = s.Heap.length + 1 := by
          simpa [List.getElem?_set, hlt2] using hp'.symm
        subst this
        exact ⟨_, hnew, hq⟩
      · have hne : (ext.PerfQualityValue q).toNat ≠ (ext.PerfQualityValue q').toNat := by
          intro e
          apply hqq
          apply hinj
          have h1 := (hr q).1
          have h2 := (hr q').1
          omega
        have hp2 : s.DLSSUpscalerInstancesPerViewFamily[(ext.PerfQualityValue q').toNat]? =
            some p' := by
          simpa [List.getElem?_set, hne] using hp'
        obtain ⟨O, hO, hOq⟩ := hI q' p' hp2 hp0
        exact ⟨O, Deref_append s _ _ p' O hO, hOq⟩
    · intro p' O hO
      exact Deref_append s _ _ p' O hO
  · obtain ⟨O, hO, hOq⟩ := hI q _ hget hz
    refine ⟨_, s, ?_, hz, hB, hlen, hI, ⟨O, hO, ToNGXQuality_injective _ _ q hOq hq⟩,
      fun _ _ h => h⟩
    simp only [GetUpscalerInstanceForViewFamily, hq, hidx, hget, hz, if_false]

/-- A sequence of pool requests on valid modes completes, keeps the pool bound
to its modes and keeps every live object. -/
theorem GetUpscalerInstances_bound (ext : Externals)
    (hinj : Function.Injective ext.PerfQualityValue)
    (hr : ∀ q, 0 ≤ ext.PerfQualityValue q ∧ ext.PerfQualityValue q < 5)
    (calls : List (FDLSSUpscaler × EDLSSQualityMode))
    (hcalls : ∀ c ∈ calls, c.2 ≠ EDLSSQualityMode.NumValues) (s : Statics)
    (hB : s.NGXRHIExtensions.isSome = true)
    (hlen : s.DLSSUpscalerInstancesPerViewFamily.length = 5) (hI : PoolBound ext s) :
    ∃ s2, GetUpscalerInstances ext s calls = .ok s2 ∧
      s2.NGXRHIExtensions.isSome = true ∧
      s2.DLSSUpscalerInstancesPerViewFamily.length = 5 ∧ PoolBound ext s2 ∧
      (∀ p' O, s.Deref p' = some O → s2.Deref p' = some O) := by
  induction calls generalizing s with
  | nil => exact ⟨s, rfl, hB, hlen, hI, fun _ _ h => h⟩
  | cons c calls ih =>
    obtain ⟨U, m⟩ := c
    obtain ⟨q, hq⟩ := ToNGXQuality_of_valid m (hcalls (U, m) (List.mem_cons_self _ _))
    obtain ⟨p, s1, hcall, -, hB1, hlen1, hI1, -, hkeep1⟩ :=
      GetUpscalerInstance_bound ext s U m q hq hinj hB hlen hr hI
    obtain ⟨s2, hrun, hB2, hlen2, hI2, hkeep2⟩ :=
      ih (fun c hc => hcalls c (List.mem_cons_of_mem _ hc)) s1 hB1 hlen1 hI1
    refine ⟨s2, ?_, hB2, hlen2, hI2, fun p' O h => hkeep2 p' O (hkeep1 p' O h)⟩
    simp only [GetUpscalerInstances, hcall]
    exact hrun

/-- C15: starting from an empty five-slot pool with a started backend and
distinct in-range vendor enumerator values, after any sequence of requests on
valid modes a request for a valid mode returns an object whose
`DLSSQualityMode` is that mode, and requests for two different valid modes
return different objects. -/
theorem C15_pool_instances_bound_to_mode (ext : Externals) (s : Statics)
    (calls : List (FDLSSUpscaler × EDLSSQualityMode)) (U1 U2 : FDLSSUpscaler)
    (m1 m2 : EDLSSQualityMode) (hinj : Function.Injective ext.PerfQualityValue)
    (hr : ∀ q, 0 ≤ ext.PerfQualityValue q ∧ ext.PerfQualityValue q < 5)
    (hB : s.NGXRHIExtensions.isSome = true)
    (hpool : s.DLSSUpscalerInstancesPerViewFamily = List.replicate 5 0)
    (hcalls : ∀ c ∈ calls, c.2 ≠ EDLSSQualityMode.NumValues)
    (hm1 : m1 ≠ .NumValues) (hm2 : m2 ≠ .NumValues) :
    ∃ s1 p1 s2 p2 s3 O1 O2, GetUpscalerInstances ext s calls = .ok s1 ∧
      GetUpscalerInstanceForViewFamily ext s1 U1 m1 = .ok (p1, s2) ∧
      GetUpscalerInstanceForViewFamily ext s2 U2 m2 = .ok (p2, s3) ∧
      s3.Deref p1 = some O1 ∧ O1.DLSSQualityMode = m1 ∧
      s3.Deref p2 = some O2 ∧ O2.DLSSQualityMode = m2 ∧
      (m1 ≠ m2 → p1 ≠ p2) := by
  have hlen : s.DLSSUpscalerInstancesPerViewFamily.length = 5 := by simp [hpool]
  have hI : PoolBound ext s := PoolBound_empty ext s (by
    intro x hx
    rw [hpool] at hx
    exact (List.mem_replicate.1 hx).2)
  obtain ⟨s1, hrun, hB1, hlen1, hI1, -⟩ :=
    GetUpscalerInstances_bound ext hinj hr calls hcalls s hB hlen hI
  obtain ⟨q1, hq1⟩ := ToNGXQuality_of_valid m1 hm1
  obtain ⟨q2, hq2⟩ := ToNGXQuality_of_valid m2 hm2
  obtain ⟨p1, s2, hc1, -, hB2, hlen2, hI2, ⟨O1, hO1, hO1m⟩, -⟩ :=
    GetUpscalerInstance_bound ext s1 U1 m1 q1 hq1 hinj hB1 hlen1 hr hI1
  obtain ⟨p2, s3, hc2, -, -, -, -, ⟨O2, hO2, hO2m⟩, hkeep⟩ :=
    GetUpscalerInstance_bound ext s2 U2 m2 q2 hq2 hinj hB2 hlen2 hr hI2
  refine ⟨s1, p1, s2, p2, s3, O1, O2, hrun, hc1, hc2, hkeep p1 O1 hO1, hO1m, hO2, hO2m, ?_⟩
  intro hne hpp
  apply hne
  have h1 := hkeep p1 O1 hO1
  rw [hpp, hO2] at h1
  cases h1
  rw [← hO1m, ← hO2m]

/-- Witness of C15: on the sample statics, after requests for Balanced and
Quality, Performance and Quality are requested. -/
theorem C15_pool_instances_bound_to_mode_witness :
    ∃ s1 p1 s2 p2 s3 O1 O2,
      GetUpscalerInstances Externals.sample Statics.sample
        [(⟨.NumValues⟩, .Balanced), (⟨.NumValues⟩, .Quality)] = .ok s1 ∧
      GetUpscalerInstanceForViewFamily Externals.sample s1 ⟨.NumValues⟩ .Performance =
        .ok (p1, s2) ∧
      GetUpscalerInstanceForViewFamily Externals.sample s2 ⟨.NumValues⟩ .Quality =
        .ok (p2, s3) ∧
      s3.Deref p1 = some O1 ∧ O1.DLSSQualityMode = .Performance ∧
      s3.Deref p2 = some O2 ∧ O2.DLSSQualityMode = .Quality ∧
      (EDLSSQualityMode.Performance ≠ EDLSSQualityMode.Quality → p1 ≠ p2) :=
  C15_pool_instances_bound_to_mode Externals.sample Statics.sample
    [(⟨.NumValues⟩, .Balanced), (⟨.NumValues⟩, .Quality)] ⟨.NumValues⟩ ⟨.NumValues⟩
    .Performance .Quality sample_injective sample_range rfl rfl (by decide) (by decide)
    (by decide)

theorem IsValidUpscalerInstance_iff (s : Statics) (p : Nat) :
    IsValidUpscalerInstance s p = true ↔
      p ≠ 0 ∧ p ∈ s.DLSSUpscalerInstancesPerViewFamily := by
  unfold IsValidUpscalerInstance
  by_cases hp : p = 0
  · simp [hp]
  · simp only [hp, if_false, ne_eq, not_false_eq_true, true_and, List.any_eq_true, beq_iff_eq]
    constructor
    · rintro ⟨x, hx, rfl⟩
      exact hx
    · intro h
      exact ⟨p, h, rfl⟩

/-- A pool request keeps every live object: the heap only grows. -/
theorem GetUpscalerInstance_deref (ext : Externals) (s : Statics) (U : FDLSSUpscaler)
    (m : EDLSSQualityMode) (p : Nat) (s1 : Statics)
    (h : GetUpscalerInstanceForViewFamily ext s U m = .ok (p, s1)) :
    ∀ p' O, s.Deref p' = some O → s1.Deref p' = some O := by
  unfold GetUpscalerInstanceForViewFamily at h
  cases hq : ToNGXQuality m with
  | error e => simp [hq] at h
  | ok q =>
    simp only [hq] at h
    cases hs : s.DLSSUpscalerInstancesPerViewFamily[(ext.PerfQualityValue q % 4294967296).toNat]?
      with
    | none => simp [hs] at h
    | some slot =>
      simp only [hs] at h
      by_cases hz : slot = 0
      · simp only [hz, if_true] at h
        cases hc : FDLSSUpscaler.Copy s U m with
        | error e => simp [hc] at h
        | ok made =>
          simp only [hc] at h
          obtain ⟨-, hs1⟩ := Prod.mk.inj (Except.ok.inj h)
          subst hs1
          intro p' O hO
          exact Deref_append s made _ p' O hO
      · simp only [hz, if_false] at h
        obtain ⟨-, hs1⟩ := Prod.mk.inj (Except.ok.inj h)
        subst hs1
        exact fun _ _ hO => hO

/-- A sequence of pool requests keeps every live object. -/
theorem GetUpscalerInstances_deref (ext : Externals)
    (calls : List (FDLSSUpscaler × EDLSSQualityMode)) (s s2 : Statics)
    (h : GetUpscalerInstances ext s calls = .ok s2) :
    ∀ p' O, s.Deref p' = some O → s2.Deref p' = some O := by
  induction calls generalizing s with
  | nil =>
    have : s = s2 := Except.ok.inj h
    subst this
    exact fun _ _ hO => hO
  | cons c calls ih =>
    obtain ⟨U, m⟩ := c
    unfold GetUpscalerInstances at h
    cases hc : GetUpscalerInstanceForViewFamily ext s U m with
    | error e => simp [hc] at h
    | ok r =>
      obtain ⟨p, s1⟩ := r
      simp only [hc] at h
      intro p' O hO
      exact ih s1 h p' O (GetUpscalerInstance_deref ext s U m p s1 hc p' O hO)

/-- C4: with a started backend, a five-slot pool and in-range enumerator
values, a request for a valid mode `m`, any sequence of further requests on
valid modes, and a second request for `m` all complete, and the second request
returns the pointer `p` of the first one and leaves the statics as they are
(nothing is made again). The slot of `m` holds `p` after the first request and
still holds it after the further requests. When the slot was empty before the
first request, that request makes the instance: `p` is the fresh address
`Heap.length + 1`, the heap grows by exactly the copy of the caller's object
with mode `m`, and `p` refers to that object after the first request and after
the further requests. When the slot was filled, the first request returns the
slot's pointer and makes nothing. No object that is live after the first
request is changed by the further requests. -/
theorem C4_pool_instance_stable (ext : Externals) (s : Statics) (U1 U2 : FDLSSUpscaler)
    (m : EDLSSQualityMode) (calls : List (FDLSSUpscaler × EDLSSQualityMode))
    (hr : ∀ q, 0 ≤ ext.PerfQualityValue q ∧ ext.PerfQualityValue q < 5)
    (hB : s.NGXRHIExtensions.isSome = true)
    (hlen : s.DLSSUpscalerInstancesPerViewFamily.length = 5)
    (hm : m ≠ .NumValues) (hcalls : ∀ c ∈ calls, c.2 ≠ EDLSSQualityMode.NumValues) :
    ∃ p s1 s2 q, ToNGXQuality m = .ok q ∧
      GetUpscalerInstanceForViewFamily ext s U1 m = .ok (p, s1) ∧
      GetUpscalerInstances ext s1 calls = .ok s2 ∧
      GetUpscalerInstanceForViewFamily ext s2 U2 m = .ok (p, s2) ∧ p ≠ 0 ∧
      s1.DLSSUpscalerInstancesPerViewFamily[(ext.PerfQualityValue q).toNat]? = some p ∧
      s2.DLSSUpscalerInstancesPerViewFamily[(ext.PerfQualityValue q).toNat]? = some p ∧
      IsValidUpscalerInstance s2 p = true ∧
      (s.DLSSUpscalerInstancesPerViewFamily[(ext.PerfQualityValue q).toNat]? = some 0 →
        p = s.Heap.length + 1 ∧
        s1.Heap = s.Heap ++ [{ U1 with DLSSQualityMode := m }] ∧
        s1.Deref p = some { U1 with DLSSQualityMode := m } ∧
        s2.Deref p = some { U1 with DLSSQualityMode := m }) ∧
      (∀ x, s.DLSSUpscalerInstancesPerViewFamily[(ext.PerfQualityValue q).toNat]? = some x →
        x ≠ 0 → p = x ∧ s1 = s) ∧
      (∀ p' O, s1.Deref p' = some O → s2.Deref p' = some O) := by
  obtain ⟨q, hq⟩ := ToNGXQuality_of_valid m hm
  obtain ⟨p, s1, hcall1, hp, hslot1, hB1, hlen1, -, hreuse⟩ :=
    GetUpscalerInstance_spec ext s U1 m q hq hB hlen hr
  obtain ⟨s2, hrun, hB2, hlen2, hkeep⟩ :=
    GetUpscalerInstances_spec ext hr calls hcalls s1 hB1 hlen1
  obtain ⟨p2, s3, hcall2, -, -, -, -, -, hsame⟩ :=
    GetUpscalerInstance_spec ext s2 U2 m q hq hB2 hlen2 hr
  have hslot2 := hkeep _ p hslot1 hp
  obtain ⟨hpp, hss⟩ := hsame p hslot2 hp
  subst hpp
  subst hss
  have hlive := GetUpscalerInstances_deref ext calls s1 s3 hrun
  refine ⟨p2, s1, s3, q, hq, hcall1, hrun, hcall2, hp, hslot1, hslot2,
    (IsValidUpscalerInstance_iff s3 p2).2 ⟨hp, List.getElem?_mem hslot2⟩, ?_, hreuse, hlive⟩
  intro hempty
  obtain ⟨hidx, -⟩ := ArrayIndex_eq _ (hr q).1 (hr q).2
  have hcall : GetUpscalerInstanceForViewFamily ext s U1 m =
      .ok (s.Heap.length + 1,
        { s with
          Heap := s.Heap ++ [{ U1 with DLSSQualityMode := m }]
          DLSSUpscalerInstancesPerViewFamily :=
            s.DLSSUpscalerInstancesPerViewFamily.set (ext.PerfQualityValue q).toNat
              (s.Heap.length + 1) }) := by
    simp only [GetUpscalerInstanceForViewFamily, hq, hidx, hempty, if_true,
      FDLSSUpscaler.Copy, hB]
  rw [hcall1] at hcall
  obtain ⟨h1, h2⟩ := Prod.mk.inj (Except.ok.inj hcall)
  have hd : s1.Deref p2 = some { U1 with DLSSQualityMode := m } := by
    rw [h1, h2]
    simp [Statics.Deref]
  refine ⟨h1, ?_, hd, hlive _ _ hd⟩
  rw [h2]

/-- Witness of C4: on the sample statics, whose pool is empty, Quality is
requested, then Performance, Quality and Balanced, then Quality again; the
Quality instance is made by the first request at address `1`. -/
theorem C4_pool_instance_stable_witness :
    Statics.sample.DLSSUpscalerInstancesPerViewFamily[2]? = some 0 ∧
    ∃ p s1 s2,
      GetUpscalerInstanceForViewFamily Externals.sample Statics.sample ⟨.NumValues⟩ .Quality =
        .ok (p, s1) ∧
      GetUpscalerInstances Externals.sample s1
        [(⟨.NumValues⟩, .Performance), (⟨.NumValues⟩, .Quality), (⟨.NumValues⟩, .Balanced)] =
        .ok s2 ∧
      GetUpscalerInstanceForViewFamily Externals.sample s2 ⟨.NumValues⟩ .Quality = .ok (p, s2) ∧
      p = 1 ∧ s1.Heap = [⟨.Quality⟩] ∧
      s1.DLSSUpscalerInstancesPerViewFamily[2]? = some p ∧
      s2.DLSSUpscalerInstancesPerViewFamily[2]? = some p ∧
      s2.Deref p = some ⟨.Quality⟩ := by
  refine ⟨rfl, ?_⟩
  obtain ⟨p, s1, s2, q, hq, h1, hrun, h2, -, hs1, hs2, -, hnew, -, -⟩ :=
    C4_pool_instance_stable Externals.sample Statics.sample ⟨.NumValues⟩ ⟨.NumValues⟩ .Quality
      [(⟨.NumValues⟩, .Performance), (⟨.NumValues⟩, .Quality), (⟨.NumValues⟩, .Balanced)]
      sample_range rfl rfl (by decide) (by decide)
  have hqq : q = .MaxQuality := by
    have : ToNGXQuality EDLSSQualityMode.Quality = .ok .MaxQuality := rfl
    rw [this] at hq
    exact (Except.ok.inj hq).symm
  subst hqq
  obtain ⟨hp, hheap, -, hd2⟩ := hnew rfl
  exact ⟨p, s1, s2, h1, hrun, h2, hp, hheap, hs1, hs2, hd2⟩

/-- C16: `IsValidUpscalerInstance(p)` is true exactly when `p` is not null and
is held by one of the pool slots; it is false for the null pointer whatever
the slots hold; and a pointer returned by a pool request is valid right after
the request and after any further requests on valid modes. -/
theorem C16_valid_instance_iff_in_pool (ext : Externals) (s : Statics) (p0 : Nat)
    (U : FDLSSUpscaler) (m : EDLSSQualityMode)
    (calls : List (FDLSSUpscaler × EDLSSQualityMode))
    (hr : ∀ q, 0 ≤ ext.PerfQualityValue q ∧ ext.PerfQualityValue q < 5)
    (hB : s.NGXRHIExtensions.isSome = true)
    (hlen : s.DLSSUpscalerInstancesPerViewFamily.length = 5)
    (hm : m ≠ .NumValues) (hcalls : ∀ c ∈ calls, c.2 ≠ EDLSSQualityMode.NumValues) :
    (IsValidUpscalerInstance s p0 = true ↔
      p0 ≠ 0 ∧ p0 ∈ s.DLSSUpscalerInstancesPerViewFamily) ∧
    IsValidUpscalerInstance s 0 = false ∧
    ∃ p s1 s2, GetUpscalerInstanceForViewFamily ext s U m = .ok (p, s1) ∧
      GetUpscalerInstances ext s1 calls = .ok s2 ∧
      IsValidUpscalerInstance s1 p = true ∧ IsValidUpscalerInstance s2 p = true := by
  refine ⟨IsValidUpscalerInstance_iff s p0, by simp [IsValidUpscalerInstance], ?_⟩
  obtain ⟨q, hq⟩ := ToNGXQuality_of_valid m hm
  obtain ⟨p, s1, hcall, hp, hslot, hB1, hlen1, -, -⟩ :=
    GetUpscalerInstance_spec ext s U m q hq hB hlen hr
  obtain ⟨s2, hrun, -, -, hkeep⟩ := GetUpscalerInstances_spec ext hr calls hcalls s1 hB1 hlen1
  refine ⟨p, s1, s2, hcall, hrun, ?_, ?_⟩
  · exact (IsValidUpscalerInstance_iff s1 p).2 ⟨hp, List.getElem?_mem hslot⟩
  · exact (IsValidUpscalerInstance_iff s2 p).2 ⟨hp, List.getElem?_mem (hkeep _ p hslot hp)⟩

/-- Witness of C16: on the sample statics, whose pool is still empty, the null
pointer is not valid; the pointer returned for Quality is valid after the
request and after further requests for Performance and Balanced. -/
theorem C16_valid_instance_iff_in_pool_witness :
    Statics.sample.DLSSUpscalerInstancesPerViewFamily = [0, 0, 0, 0, 0] ∧
    IsValidUpscalerInstance Statics.sample 0 = false ∧
    ∃ p s1 s2,
      GetUpscalerInstanceForViewFamily Externals.sample Statics.sample ⟨.NumValues⟩ .Quality =
        .ok (p, s1) ∧
      GetUpscalerInstances Externals.sample s1
        [(⟨.NumValues⟩, .Performance), (⟨.NumValues⟩, .Balanced)] = .ok s2 ∧
      IsValidUpscalerInstance s1 p = true ∧ IsValidUpscalerInstance s2 p = true :=
  ⟨rfl,
   (C16_valid_instance_iff_in_pool Externals.sample Statics.sample 0 ⟨.NumValues⟩ .Quality
     [(⟨.NumValues⟩, .Performance), (⟨.NumValues⟩, .Balanced)] sample_range rfl rfl
     (by decide) (by decide)).2⟩

/-- C17: after `ReleaseStaticResources` every pool slot is empty, so
`IsValidUpscalerInstance` is false for every pointer, and the settings table
is empty. -/
theorem C17_release_clears_pool_and_table (s : Statics) (p : Nat) :
    (∀ x ∈ (ReleaseStaticResources s).DLSSUpscalerInstancesPerViewFamily, x = 0) ∧
    (ReleaseStaticResources s).DLSSUpscalerInstancesPerViewFamily.length =
      s.DLSSUpscalerInstancesPerViewFamily.length ∧
    IsValidUpscalerInstance (ReleaseStaticResources s) p = false ∧
    (ReleaseStaticResources s).ResolutionSettings = [] := by
  have hall : ∀ x ∈ (ReleaseStaticResources s).DLSSUpscalerInstancesPerViewFamily, x = 0 := by
    intro x hx
    simp only [ReleaseStaticResources, List.mem_map] at hx
    obtain ⟨_, _, h⟩ := hx
    exact h.symm
  refine ⟨hall, by simp [ReleaseStaticResources], ?_, rfl⟩
  cases hv : IsValidUpscalerInstance (ReleaseStaticResources s) p with
  | false => rfl
  | true =>
    obtain ⟨hp, hmem⟩ := (IsValidUpscalerInstance_iff _ p).1 hv
    exact absurd (hall p hmem) hp

/-! ### The dispatch and history stage of `AddDLSSPass` -/

/-- What a completed validation stage says about its inputs, its locals and
the capture. -/
theorem AddDLSSPassValidation_inv (ext : Externals) (g : Globals) (s : Statics) (This : Nat)
    (Self : FDLSSUpscaler) (View : FViewInfo) (Inputs : FDLSSPassParameters)
    (InputHistory : FTemporalAAHistory) (OutputHistory : Option FTemporalAAHistory)
    (L : PassLocals) (D D1 : DebugDump)
    (hV : AddDLSSPassValidation ext g s This Self View Inputs InputHistory OutputHistory D =
      .ok (L, D1)) :
    L.bCameraCut = CameraCut ext View InputHistory OutputHistory ∧
    Inputs.GetOutputExtent ext = .ok L.OutputExtent ∧
    L.SrcRect = Inputs.InputViewRect ∧ L.DestRect = Inputs.OutputViewRect ∧
    Self.DLSSQualityMode ≠ .NumValues ∧
    (∃ q, ToNGXQuality Self.DLSSQualityMode = .ok q) ∧
    (∃ c, Inputs.SceneColorInput = some c) ∧
    CaptureInputHistory ext D InputHistory = .ok D1 := by
  unfold AddDLSSPassValidation at hV
  split_ifs at hV
  dsimp only at hV
  cases hE : Inputs.GetOutputExtent ext with
  | error e => simp [hE] at hV
  | ok E =>
    cases hC : CaptureInputHistory ext D InputHistory with
    | error e => simp [hE, hC] at hV
    | ok D2 =>
      cases hQ : CheckQualityMode ext s Self.DLSSQualityMode with
      | error e => simp [hE, hC, hQ] at hV
      | ok u =>
        cases hF : CheckResolutionFractions ext s Self.DLSSQualityMode Inputs.InputViewRect
            Inputs.OutputViewRect with
        | error e => simp [hE, hC, hQ, hF] at hV
        | ok u2 =>
          simp [hE, hC, hQ, hF] at hV
          have hmode : Self.DLSSQualityMode ≠ .NumValues := by
            intro hn
            simp [CheckQualityMode, hn] at hQ
          have hcol : ∃ c, Inputs.SceneColorInput = some c := by
            cases hc : Inputs.SceneColorInput with
            | some c => exact ⟨c, rfl⟩
            | none =>
              unfold FDLSSPassParameters.GetOutputExtent at hE
              rw [hc] at hE
              split at hE <;> simp at hE
          obtain ⟨hL, hD⟩ := hV
          rw [← hL, ← hD]
          exact ⟨rfl, rfl, rfl, rfl, hmode, ToNGXQuality_of_valid _ hmode, hcol, rfl⟩

/-- The pass result once the validation stage, the vendor mapping and the
history extraction have completed. -/
theorem AddDLSSPass_eq (ext : Externals) (g : Globals) (cfg : PassSettings) (s : Statics)
    (This : Nat) (Self : FDLSSUpscaler) (View : FViewInfo) (Inputs : FDLSSPassParameters)
    (InputHistory : FTemporalAAHistory) (OutputHistory : Option FTemporalAAHistory)
    (InputCustomHistory : Option FDLSSUpscalerHistory)
    (OutputCustomHistory : Option (Option FDLSSUpscalerHistory)) (Fresh : Nat)
    (L : PassLocals) (D D1 : DebugDump) (q : NVSDK_NGX_PerfQuality_Value)
    (H : Option FTemporalAAHistory)
    (hV : AddDLSSPassValidation ext g s This Self View Inputs InputHistory OutputHistory D =
      .ok (L, D1))
    (hq : ToNGXQuality Self.DLSSQualityMode = .ok q)
    (hH : ExtractHistory View Inputs ⟨Fresh + 1, L.OutputExtent⟩ L.DestRect L.OutputExtent
      OutputHistory = .ok H) :
    AddDLSSPass ext g cfg s This Self View Inputs InputHistory OutputHistory
        InputCustomHistory OutputCustomHistory Fresh D =
      .ok ⟨⟨Fresh + 1, L.OutputExtent⟩, (ResolveDLSSState InputCustomHistory (Fresh + 1)).1,
        DLSSPassExecute cfg View Inputs L.bCameraCut (FMathClamp cfg.CVarNGXDLSSSharpness (-1) 1)
          (ext.PerfQualityValue q) ⟨Fresh + 1, L.OutputExtent⟩,
        H,
        (ExtractCustomHistory View (ResolveDLSSState InputCustomHistory (Fresh + 1)).1
          (ResolveDLSSState InputCustomHistory (Fresh + 1)).2 OutputCustomHistory).1,
        (ExtractCustomHistory View (ResolveDLSSState InputCustomHistory (Fresh + 1)).1
          (ResolveDLSSState InputCustomHistory (Fresh + 1)).2 OutputCustomHistory).2,
        s, Self, ReadbackPasses ext D1 L.OutputExtent L.SrcRect⟩ := by
  simp only [AddDLSSPass, hV, hq, hH]

theorem ExtractHistory_unwritable (View : FViewInfo) (Inputs : FDLSSPassParameters)
    (SceneColor : FRDGTexture) (DestRect : FIntRect) (OutputExtent : FIntPoint)
    (OutputHistory : Option FTemporalAAHistory)
    (h : View.bStatePrevViewInfoIsReadOnly = true ∨ OutputHistory = none) :
    ExtractHistory View Inputs SceneColor DestRect OutputExtent OutputHistory =
      .ok OutputHistory := by
  cases OutputHistory with
  | none => rfl
  | some History =>
    rcases h with h | h
    · simp [ExtractHistory, h]
    · cases h

theorem ExtractHistory_writable (View : FViewInfo) (Inputs : FDLSSPassParameters)
    (SceneColor : FRDGTexture) (DestRect : FIntRect) (OutputExtent : FIntPoint)
    (History : FTemporalAAHistory) (c d v : FRDGTexture)
    (hw : View.bStatePrevViewInfoIsReadOnly = false) (hlen : History.RT.length = 4)
    (hc : Inputs.SceneColorInput = some c) (hd : Inputs.SceneDepthInput = some d)
    (hv : Inputs.SceneVelocityInput = some v) :
    ExtractHistory View Inputs SceneColor DestRect OutputExtent (some History) =
      .ok (some ⟨[some SceneColor, some c, some d, some v], DestRect, OutputExtent⟩) := by
  obtain ⟨RT, VR, RB⟩ := History
  match RT, hlen with
  | [a0, a1, a2, a3], _ =>
    simp [ExtractHistory, hw, hc, hd, hv, QueueTextureExtraction]

theorem ExtractHistory_total (View : FViewInfo) (Inputs : FDLSSPassParameters)
    (SceneColor : FRDGTexture) (DestRect : FIntRect) (OutputExtent : FIntPoint)
    (OutputHistory : Option FTemporalAAHistory) (c d v : FRDGTexture)
    (hc : Inputs.SceneColorInput = some c) (hd : Inputs.SceneDepthInput = some d)
    (hv : Inputs.SceneVelocityInput = some v) :
    ∃ H, ExtractHistory View Inputs SceneColor DestRect OutputExtent OutputHistory = .ok H := by
  cases OutputHistory with
  | none => exact ⟨none, rfl⟩
  | some History =>
    cases hw : View.bStatePrevViewInfoIsReadOnly with
    | true => exact ⟨_, ExtractHistory_unwritable _ _ _ _ _ _ (Or.inl hw)⟩
    | false =>
      exact ⟨some ⟨((((History.RT.map (fun _ => (none : Option FRDGTexture))).set 0
        (some SceneColor)).set 1 (some c)).set 2 (some d)).set 3 (some v), DestRect,
        OutputExtent⟩, by simp only [ExtractHistory, hw, hc, hd, hv, QueueTextureExtraction,
          Bool.false_eq_true, if_false]⟩

theorem FMathClamp_spec (x : ℚ) :
    (-1 ≤ FMathClamp x (-1) 1 ∧ FMathClamp x (-1) 1 ≤ 1) ∧
    (-1 ≤ x → x ≤ 1 → FMathClamp x (-1) 1 = x) ∧
    (x < -1 → FMathClamp x (-1) 1 = -1) ∧
    (1 < x → FMathClamp x (-1) 1 = 1) := by
  unfold FMathClamp
  refine ⟨?_, ?_, ?_, ?_⟩
  · split_ifs with h1 h2
    · norm_num
    · exact ⟨not_lt.1 h1, le_of_lt h2⟩
    · norm_num
  · intro h1 h2
    rw [if_neg (not_lt.2 h1)]
    split_ifs with h3
    · rfl
    · exact le_antisymm (not_lt.1 h3) h2
  · intro h
    rw [if_pos h]
  · intro h
    rw [if_neg (not_lt.2 (by linarith)), if_neg (not_lt.2 (le_of_lt h))]

/-- With a completed validation stage and with non-null depth, velocity and
exposure textures, the pass completes and its render-graph pass hands an
explicit request to the backend. -/
theorem AddDLSSPass_request (ext : Externals) (g : Globals) (cfg : PassSettings) (s : Statics)
    (This : Nat) (Self : FDLSSUpscaler) (View : FViewInfo) (Inputs : FDLSSPassParameters)
    (InputHistory : FTemporalAAHistory) (OutputHistory : Option FTemporalAAHistory)
    (InputCustomHistory : Option FDLSSUpscalerHistory)
    (OutputCustomHistory : Option (Option FDLSSUpscalerHistory)) (Fresh : Nat)
    (L : PassLocals) (D D1 : DebugDump) (d v e : FRDGTexture)
    (hV : AddDLSSPassValidation ext g s This Self View Inputs InputHistory OutputHistory D =
      .ok (L, D1))
    (hd : Inputs.SceneDepthInput = some d) (hv : Inputs.SceneVelocityInput = some v)
    (he : cfg.EyeAdaptation = some e) :
    ∃ r q c, AddDLSSPass ext g cfg s This Self View Inputs InputHistory OutputHistory
        InputCustomHistory OutputCustomHistory Fresh D = .ok r ∧
      ToNGXQuality Self.DLSSQualityMode = .ok q ∧ Inputs.SceneColorInput = some c ∧
      r.Request = .ok
        { SrcRect := Inputs.InputViewRect
          DestRect := Inputs.OutputViewRect
          Sharpness := FMathClamp cfg.CVarNGXDLSSSharpness (-1) 1
          bReset := CameraCut ext View InputHistory OutputHistory
          JitterOffset := View.TemporalJitterPixels
          MotionVectorScale := (1, 1)
          bHighResolutionMotionVectors := Inputs.bHighResolutionMotionVectors
          DeltaTime := View.DeltaWorldTime
          bReleaseMemoryOnDelete := cfg.CVarNGXDLSSReleaseMemoryOnDelete != 0
          PerfQuality := ext.PerfQualityValue q
          InputColor := c
          InputMotionVectors := v
          InputDepth := d
          InputExposure := e
          PreExposure := View.PreExposure
          OutputColor := r.SceneColor
          bUseAutoExposure := cfg.CVarNGXDLSSAutoExposure != 0 } := by
  obtain ⟨hcut, -, -, -, -, ⟨q, hq⟩, ⟨c, hc⟩, -⟩ :=
    AddDLSSPassValidation_inv ext g s This Self View Inputs InputHistory OutputHistory L D D1 hV
  obtain ⟨H, hH⟩ := ExtractHistory_total View Inputs ⟨Fresh + 1, L.OutputExtent⟩ L.DestRect
    L.OutputExtent OutputHistory c d v hc hd hv
  refine ⟨_, q, c, AddDLSSPass_eq ext g cfg s This Self View Inputs InputHistory OutputHistory
    InputCustomHistory OutputCustomHistory Fresh L D D1 q H hV hq hH, hq, hc, ?_⟩
  simp only [DLSSPassExecute, hc, hd, hv, he, hcut]

/-- C18: the request that the render-graph pass of `AddDLSSPass` hands to the
backend has `SrcRect` the input view rect, `DestRect` the output view rect,
`bReset` the camera-cut flag of this frame, `MotionVectorScale = (1,1)`,
`bHighResolutionMotionVectors` the flag of the pass parameters, `DeltaTime`
the delta world time of the view family, and `PerfQuality` the value of
`ToNGXQuality` of the instance's quality mode. -/
theorem C18_request_fields (ext : Externals) (g : Globals) (cfg : PassSettings) (s : Statics)
    (This : Nat) (Self : FDLSSUpscaler) (View : FViewInfo) (Inputs : FDLSSPassParameters)
    (InputHistory : FTemporalAAHistory) (OutputHistory : Option FTemporalAAHistory)
    (InputCustomHistory : Option FDLSSUpscalerHistory)
    (OutputCustomHistory : Option (Option FDLSSUpscalerHistory)) (Fresh : Nat)
    (L : PassLocals) (D D1 : DebugDump) (d v e : FRDGTexture)
    (hV : AddDLSSPassValidation ext g s This Self View Inputs InputHistory OutputHistory D =
      .ok (L, D1))
    (hd : Inputs.SceneDepthInput = some d) (hv : Inputs.SceneVelocityInput = some v)
    (he : cfg.EyeAdaptation = some e) :
    ∃ r a q, AddDLSSPass ext g cfg s This Self View Inputs InputHistory OutputHistory
        InputCustomHistory OutputCustomHistory Fresh D = .ok r ∧
      r.Request = .ok a ∧ ToNGXQuality Self.DLSSQualityMode = .ok q ∧
      a.SrcRect = Inputs.InputViewRect ∧ a.DestRect = Inputs.OutputViewRect ∧
      a.bReset = CameraCut ext View InputHistory OutputHistory ∧
      a.MotionVectorScale = (1, 1) ∧
      a.bHighResolutionMotionVectors = Inputs.bHighResolutionMotionVectors ∧
      a.DeltaTime = View.DeltaWorldTime ∧
      a.PerfQuality = ext.PerfQualityValue q := by
  obtain ⟨r, q, c, hr, hq, -, hreq⟩ := AddDLSSPass_request ext g cfg s This Self View Inputs
    InputHistory OutputHistory InputCustomHistory OutputCustomHistory Fresh L D D1 d v e hV hd hv he
  exact ⟨r, _, q, hr, hreq, hq, rfl, rfl, rfl, rfl, rfl, rfl, rfl⟩

/-- Witness of C18 on the sample inputs: the request of the Performance
instance has `PerfQuality` `0`, no reset, and the rects `640x360` and
`1280x720`. -/
theorem C18_request_fields_witness :
    ∃ r a q, AddDLSSPass Externals.sample Globals.sample PassSettings.sample
        Statics.samplePooled 1 ⟨.Performance⟩ FViewInfo.sample FDLSSPassParameters.sample
        FTemporalAAHistory.sample (some FTemporalAAHistory.sample) none (some none) 100 DebugDump.initial =
        .ok r ∧
      r.Request = .ok a ∧ ToNGXQuality EDLSSQualityMode.Performance = .ok q ∧
      a.SrcRect = ⟨⟨0, 0⟩, ⟨640, 360⟩⟩ ∧ a.DestRect = ⟨⟨0, 0⟩, ⟨1280, 720⟩⟩ ∧
      a.bReset = CameraCut Externals.sample FViewInfo.sample FTemporalAAHistory.sample
        (some FTemporalAAHistory.sample) ∧
      a.MotionVectorScale = (1, 1) ∧
      a.bHighResolutionMotionVectors = true ∧
      a.DeltaTime = 1 / 60 ∧
      a.PerfQuality = Externals.sample.PerfQualityValue q :=
  C18_request_fields Externals.sample Globals.sample PassSettings.sample
    Statics.samplePooled 1 ⟨.Performance⟩ FViewInfo.sample FDLSSPassParameters.sample
    FTemporalAAHistory.sample (some FTemporalAAHistory.sample) none (some none) 100 _
    DebugDump.initial _ ⟨2, ⟨640, 360⟩⟩ ⟨3, ⟨640, 360⟩⟩ ⟨4, ⟨1, 1⟩⟩ sample_validation rfl rfl
    rfl

/-- C19: the sharpness in the request that the pass hands to the backend is
the user value `r.NGX.DLSS.Sharpness` clamped to `[-1, 1]`: it lies in
`[-1, 1]`, equals the user value when that lies in `[-1, 1]`, equals `-1`
when the user value is below `-1`, and equals `1` when it is above `1`. -/
theorem C19_sharpness_clamped (ext : Externals) (g : Globals) (cfg : PassSettings)
    (s : Statics) (This : Nat) (Self : FDLSSUpscaler) (View : FViewInfo)
    (Inputs : FDLSSPassParameters) (InputHistory : FTemporalAAHistory)
    (OutputHistory : Option FTemporalAAHistory)
    (InputCustomHistory : Option FDLSSUpscalerHistory)
    (OutputCustomHistory : Option (Option FDLSSUpscalerHistory)) (Fresh : Nat)
    (L : PassLocals) (D D1 : DebugDump) (d v e : FRDGTexture)
    (hV : AddDLSSPassValidation ext g s This Self View Inputs InputHistory OutputHistory D =
      .ok (L, D1))
    (hd : Inputs.SceneDepthInput = some d) (hv : Inputs.SceneVelocityInput = some v)
    (he : cfg.EyeAdaptation = some e) :
    ∃ r a, AddDLSSPass ext g cfg s This Self View Inputs InputHistory OutputHistory
        InputCustomHistory OutputCustomHistory Fresh D = .ok r ∧
      r.Request = .ok a ∧
      (-1 ≤ a.Sharpness ∧ a.Sharpness ≤ 1) ∧
      (-1 ≤ cfg.CVarNGXDLSSSharpness → cfg.CVarNGXDLSSSharpness ≤ 1 →
        a.Sharpness = cfg.CVarNGXDLSSSharpness) ∧
      (cfg.CVarNGXDLSSSharpness < -1 → a.Sharpness = -1) ∧
      (1 < cfg.CVarNGXDLSSSharpness → a.Sharpness = 1) := by
  obtain ⟨r, q, c, hr, -, -, hreq⟩ := AddDLSSPass_request ext g cfg s This Self View Inputs
    InputHistory OutputHistory InputCustomHistory OutputCustomHistory Fresh L D D1 d v e hV hd hv he
  exact ⟨r, _, hr, hreq, FMathClamp_spec cfg.CVarNGXDLSSSharpness⟩

/-- Witness of C19: with the user sharpness `3/2` the request carries the
sharpness `1`. -/
theorem C19_sharpness_clamped_witness :
    PassSettings.sample.CVarNGXDLSSSharpness = 3 / 2 ∧
    ∃ r a, AddDLSSPass Externals.sample Globals.sample PassSettings.sample
        Statics.samplePooled 1 ⟨.Performance⟩ FViewInfo.sample FDLSSPassParameters.sample
        FTemporalAAHistory.sample (some FTemporalAAHistory.sample) none (some none) 100 DebugDump.initial =
        .ok r ∧
      r.Request = .ok a ∧ a.Sharpness = 1 := by
  refine ⟨rfl, ?_⟩
  obtain ⟨r, a, hr, ha, -, -, -, hhi⟩ :=
    C19_sharpness_clamped Externals.sample Globals.sample PassSettings.sample
      Statics.samplePooled 1 ⟨.Performance⟩ FViewInfo.sample FDLSSPassParameters.sample
      FTemporalAAHistory.sample (some FTemporalAAHistory.sample) none (some none) 100 _
      DebugDump.initial _ ⟨2, ⟨640, 360⟩⟩ ⟨3, ⟨640, 360⟩⟩ ⟨4, ⟨1, 1⟩⟩ sample_validation rfl rfl
      rfl
  exact ⟨r, a, hr, ha, hhi (by norm_num [PassSettings.sample])⟩

/-- C20: with a completed validation stage, `AddDLSSPass` updates the output
history exactly when it is writable. When
`bStatePrevViewInfoIsReadOnly` is false and an output history exists (with
non-null depth and velocity inputs), the pass completes and the four slots
hold the output color, the input color, the input depth and the input
velocity, `ViewportRect` is the destination rect and `ReferenceBufferSize` the
output extent. When the history is read-only or there is no output history,
the pass completes and the output history is unchanged; when it is read-only,
the custom-history slot is unchanged as well. -/
theorem C20_history_updated_when_writable (ext : Externals) (g : Globals)
    (cfg : PassSettings) (s : Statics) (This : Nat) (Self : FDLSSUpscaler) (View : FViewInfo)
    (Inputs : FDLSSPassParameters) (InputHistory : FTemporalAAHistory)
    (OutputHistory : Option FTemporalAAHistory)
    (InputCustomHistory : Option FDLSSUpscalerHistory)
    (OutputCustomHistory : Option (Option FDLSSUpscalerHistory)) (Fresh : Nat)
    (L : PassLocals) (D D1 : DebugDump)
    (hV : AddDLSSPassValidation ext g s This Self View Inputs InputHistory OutputHistory D =
      .ok (L, D1)) :
    (∀ History d v, View.bStatePrevViewInfoIsReadOnly = false →
      OutputHistory = some History → History.RT.length = 4 →
      Inputs.SceneDepthInput = some d → Inputs.SceneVelocityInput = some v →
      ∃ r c, AddDLSSPass ext g cfg s This Self View Inputs InputHistory OutputHistory
          InputCustomHistory OutputCustomHistory Fresh D = .ok r ∧
        Inputs.SceneColorInput = some c ∧
        Inputs.GetOutputExtent ext = .ok L.OutputExtent ∧
        r.OutputHistory =
          some ⟨[some r.SceneColor, some c, some d, some v], Inputs.OutputViewRect,
            L.OutputExtent⟩) ∧
    (View.bStatePrevViewInfoIsReadOnly = true ∨ OutputHistory = none →
      ∃ r, AddDLSSPass ext g cfg s This Self View Inputs InputHistory OutputHistory
          InputCustomHistory OutputCustomHistory Fresh D = .ok r ∧
        r.OutputHistory = OutputHistory ∧
        (View.bStatePrevViewInfoIsReadOnly = true →
          r.OutputCustomHistory = OutputCustomHistory)) := by
  obtain ⟨-, hE, -, hdest, -, ⟨q, hq⟩, ⟨c, hc⟩, -⟩ :=
    AddDLSSPassValidation_inv ext g s This Self View Inputs InputHistory OutputHistory L D D1 hV
  constructor
  · intro History d v hw hOH hlen hd hv
    have hH := ExtractHistory_writable View Inputs ⟨Fresh + 1, L.OutputExtent⟩ L.DestRect
      L.OutputExtent History c d v hw hlen hc hd hv
    rw [← hOH] at hH
    refine ⟨_, c, AddDLSSPass_eq ext g cfg s This Self View Inputs InputHistory OutputHistory
      InputCustomHistory OutputCustomHistory Fresh L D D1 q _ hV hq hH, hc, hE, ?_⟩
    rw [hdest]
  · intro hro
    have hH := ExtractHistory_unwritable View Inputs ⟨Fresh + 1, L.OutputExtent⟩ L.DestRect
      L.OutputExtent OutputHistory hro
    refine ⟨_, AddDLSSPass_eq ext g cfg s This Self View Inputs InputHistory OutputHistory
      InputCustomHistory OutputCustomHistory Fresh L D D1 q _ hV hq hH, rfl, ?_⟩
    intro hr
    cases OutputCustomHistory with
    | none => rfl
    | some Slot => simp [ExtractCustomHistory, hr]

/-- Witness of C20, writable: on the sample inputs the output history after
the pass holds the new output texture `(101, 1280x720)` and the three input
textures, with the rect `1280x720` and the extent `(1280,720)`. -/
theorem C20_history_updated_when_writable_witness :
    FViewInfo.sample.bStatePrevViewInfoIsReadOnly = false ∧
    ∃ r, AddDLSSPass Externals.sample Globals.sample PassSettings.sample
        Statics.samplePooled 1 ⟨.Performance⟩ FViewInfo.sample FDLSSPassParameters.sample
        FTemporalAAHistory.sample (some FTemporalAAHistory.sample) none (some none) 100 DebugDump.initial =
        .ok r ∧
      r.SceneColor = ⟨101, ⟨1280, 720⟩⟩ ∧
      r.OutputHistory =
        some ⟨[some ⟨101, ⟨1280, 720⟩⟩, some ⟨1, ⟨640, 360⟩⟩, some ⟨2, ⟨640, 360⟩⟩,
          some ⟨3, ⟨640, 360⟩⟩], ⟨⟨0, 0⟩, ⟨1280, 720⟩⟩, ⟨1280, 720⟩⟩ := by
  refine ⟨rfl, ?_⟩
  obtain ⟨r, c, hr, hc, -, hH⟩ :=
    (C20_history_updated_when_writable Externals.sample Globals.sample PassSettings.sample
      Statics.samplePooled 1 ⟨.Performance⟩ FViewInfo.sample FDLSSPassParameters.sample
      FTemporalAAHistory.sample (some FTemporalAAHistory.sample) none (some none) 100 _
      DebugDump.initial _ sample_validation).1 FTemporalAAHistory.sample ⟨2, ⟨640, 360⟩⟩ ⟨3, ⟨640, 360⟩⟩ rfl rfl
      rfl rfl rfl
  have hcol : c = ⟨1, ⟨640, 360⟩⟩ := by
    have : FDLSSPassParameters.sample.SceneColorInput = some ⟨1, ⟨640, 360⟩⟩ := rfl
    rw [this] at hc
    exact (Option.some.inj hc).symm
  subst hcol
  have hsc : r.SceneColor = ⟨101, ⟨1280, 720⟩⟩ := by
    have h2 := AddDLSSPass_eq Externals.sample Globals.sample PassSettings.sample
      Statics.samplePooled 1 ⟨.Performance⟩ FViewInfo.sample FDLSSPassParameters.sample
      FTemporalAAHistory.sample (some FTemporalAAHistory.sample) none (some none) 100 _
      DebugDump.initial _ .MaxPerf _ sample_validation rfl
      (ExtractHistory_writable FViewInfo.sample FDLSSPassParameters.sample _ _ _
        FTemporalAAHistory.sample ⟨1, ⟨640, 360⟩⟩ ⟨2, ⟨640, 360⟩⟩ ⟨3, ⟨640, 360⟩⟩ rfl rfl rfl rfl
        rfl)
    rw [h2] at hr
    rw [← Except.ok.inj hr]
  refine ⟨r, hr, hsc, ?_⟩
  rw [hH, hsc]
  rfl

/-! ### The backend state and the custom-history slot -/

/-- With a completed validation stage and non-null depth and velocity inputs
the pass completes; its state and custom-history slot are those of
`ResolveDLSSState` and `ExtractCustomHistory`. -/
theorem AddDLSSPass_state (ext : Externals) (g : Globals) (cfg : PassSettings) (s : Statics)
    (This : Nat) (Self : FDLSSUpscaler) (View : FViewInfo) (Inputs : FDLSSPassParameters)
    (InputHistory : FTemporalAAHistory) (OutputHistory : Option FTemporalAAHistory)
    (InputCustomHistory : Option FDLSSUpscalerHistory)
    (OutputCustomHistory : Option (Option FDLSSUpscalerHistory)) (Fresh : Nat)
    (L : PassLocals) (D D1 : DebugDump) (d v : FRDGTexture)
    (hV : AddDLSSPassValidation ext g s This Self View Inputs InputHistory OutputHistory D =
      .ok (L, D1))
    (hd : Inputs.SceneDepthInput = some d) (hv : Inputs.SceneVelocityInput = some v) :
    ∃ r, AddDLSSPass ext g cfg s This Self View Inputs InputHistory OutputHistory
        InputCustomHistory OutputCustomHistory Fresh D = .ok r ∧
      r.DLSSState = (ResolveDLSSState InputCustomHistory (Fresh + 1)).1 ∧
      r.OutputCustomHistory =
        (ExtractCustomHistory View (ResolveDLSSState InputCustomHistory (Fresh + 1)).1
          (ResolveDLSSState InputCustomHistory (Fresh + 1)).2 OutputCustomHistory).1 ∧
      r.Fresh =
        (ExtractCustomHistory View (ResolveDLSSState InputCustomHistory (Fresh + 1)).1
          (ResolveDLSSState InputCustomHistory (Fresh + 1)).2 OutputCustomHistory).2 := by
  obtain ⟨-, -, -, -, -, ⟨q, hq⟩, ⟨c, hc⟩, -⟩ :=
    AddDLSSPassValidation_inv ext g s This Self View Inputs InputHistory OutputHistory L D D1 hV
  obtain ⟨H, hH⟩ := ExtractHistory_total View Inputs ⟨Fresh + 1, L.OutputExtent⟩ L.DestRect
    L.OutputExtent OutputHistory c d v hc hd hv
  exact ⟨_, AddDLSSPass_eq ext g cfg s This Self View Inputs InputHistory OutputHistory
    InputCustomHistory OutputCustomHistory Fresh L D D1 q H hV hq hH, rfl, rfl, rfl⟩

theorem ResolveDLSSState_new (InputCustomHistory : Option FDLSSUpscalerHistory) (Fresh : Nat)
    (h : InputCustomHistory = none ∨ ∃ c, InputCustomHistory = some c ∧ c.DLSSState = 0) :
    ResolveDLSSState InputCustomHistory Fresh = (Fresh + 1, Fresh + 1) := by
  rcases h with h | ⟨c, h, hc⟩
  · rw [h]; rfl
  · rw [h]; simp [ResolveDLSSState, hc]

theorem ResolveDLSSState_existing (c : FDLSSUpscalerHistory) (Fresh : Nat)
    (hc : c.DLSSState ≠ 0) :
    ResolveDLSSState (some c) Fresh = (c.DLSSState, Fresh) := by
  simp [ResolveDLSSState, hc]

/-- C21 as stated fails: on the sample inputs with a read-only view, no input
custom history and an empty custom-history slot, the pass completes and
dispatches a newly made state, but the slot is still empty after the pass. -/
theorem C21_counterexample :
    ∃ r, AddDLSSPass Externals.sample Globals.sample PassSettings.sample
        Statics.samplePooled 1 ⟨.Performance⟩ FViewInfo.sampleReadOnly
        FDLSSPassParameters.sample FTemporalAAHistory.sample (some FTemporalAAHistory.sample)
        none (some none) 100 DebugDump.initial = .ok r ∧
      r.DLSSState = 102 ∧ r.OutputCustomHistory = some none := by
  obtain ⟨r, hr, hs, hc, -⟩ := AddDLSSPass_state Externals.sample Globals.sample
    PassSettings.sample Statics.samplePooled 1 ⟨.Performance⟩ FViewInfo.sampleReadOnly
    FDLSSPassParameters.sample FTemporalAAHistory.sample (some FTemporalAAHistory.sample)
    none (some none) 100 _ DebugDump.initial _ ⟨2, ⟨640, 360⟩⟩ ⟨3, ⟨640, 360⟩⟩
    (sample_validation_view FViewInfo.sampleReadOnly) rfl rfl
  exact ⟨r, hr, hs, hc⟩

/-- C21, amended: with a completed validation stage (non-null depth and
velocity inputs) the pass completes. When the input custom history
is null or carries no state, a new backend state is made at a fresh address
and is the state handed to the backend; and when moreover the view's history
is writable and the custom-history slot exists and is empty, the slot holds
after the pass a new container wrapping that state. When the input custom
history carries a state, that state is the one handed to the backend and no
state is made. -/
theorem C21_state_created_on_first_use (ext : Externals) (g : Globals) (cfg : PassSettings)
    (s : Statics) (This : Nat) (Self : FDLSSUpscaler) (View : FViewInfo)
    (Inputs : FDLSSPassParameters) (InputHistory : FTemporalAAHistory)
    (OutputHistory : Option FTemporalAAHistory)
    (InputCustomHistory : Option FDLSSUpscalerHistory)
    (OutputCustomHistory : Option (Option FDLSSUpscalerHistory)) (Fresh : Nat)
    (L : PassLocals) (D D1 : DebugDump) (d v : FRDGTexture)
    (hV : AddDLSSPassValidation ext g s This Self View Inputs InputHistory OutputHistory D =
      .ok (L, D1))
    (hd : Inputs.SceneDepthInput = some d) (hv : Inputs.SceneVelocityInput = some v) :
    ∃ r, AddDLSSPass ext g cfg s This Self View Inputs InputHistory OutputHistory
        InputCustomHistory OutputCustomHistory Fresh D = .ok r ∧
      ((InputCustomHistory = none ∨ ∃ c, InputCustomHistory = some c ∧ c.DLSSState = 0) →
        r.DLSSState = Fresh + 2 ∧
        ResolveDLSSState InputCustomHistory (Fresh + 1) = (Fresh + 2, Fresh + 2) ∧
        (View.bStatePrevViewInfoIsReadOnly = false → OutputCustomHistory = some none →
          r.OutputCustomHistory = some (some ⟨Fresh + 3, r.DLSSState⟩))) ∧
      (∀ c, InputCustomHistory = some c → c.DLSSState ≠ 0 →
        r.DLSSState = c.DLSSState ∧
        ResolveDLSSState InputCustomHistory (Fresh + 1) = (c.DLSSState, Fresh + 1)) := by
  obtain ⟨r, hr, hs, hc, -⟩ := AddDLSSPass_state ext g cfg s This Self View Inputs
    InputHistory OutputHistory InputCustomHistory OutputCustomHistory Fresh L D D1 d v hV hd hv
  refine ⟨r, hr, ?_, ?_⟩
  · intro hnone
    have hres := ResolveDLSSState_new InputCustomHistory (Fresh + 1) hnone
    rw [hres] at hs hc
    refine ⟨hs, hres, ?_⟩
    intro hw hslot
    rw [hc, hs, hslot]
    simp [ExtractCustomHistory, hw]
  · intro c hsome hne
    rw [hsome] at hs ⊢
    have hres := ResolveDLSSState_existing c (Fresh + 1) hne
    rw [hres] at hs
    exact ⟨hs, hres⟩

/-- Witness of the amended C21: on the sample inputs with a writable view, no
input custom history and an empty slot, the state `102` is made and the slot
holds the new container `103` wrapping it. -/
theorem C21_state_created_on_first_use_witness :
    ∃ r, AddDLSSPass Externals.sample Globals.sample PassSettings.sample
        Statics.samplePooled 1 ⟨.Performance⟩ FViewInfo.sample FDLSSPassParameters.sample
        FTemporalAAHistory.sample (some FTemporalAAHistory.sample) none (some none) 100 DebugDump.initial =
        .ok r ∧
      r.DLSSState = 102 ∧ r.OutputCustomHistory = some (some ⟨103, r.DLSSState⟩) := by
  obtain ⟨r, hr, hnew, -⟩ := C21_state_created_on_first_use Externals.sample Globals.sample
    PassSettings.sample Statics.samplePooled 1 ⟨.Performance⟩ FViewInfo.sample
    FDLSSPassParameters.sample FTemporalAAHistory.sample (some FTemporalAAHistory.sample)
    none (some none) 100 _ DebugDump.initial _ ⟨2, ⟨640, 360⟩⟩ ⟨3, ⟨640, 360⟩⟩
    sample_validation rfl rfl
  obtain ⟨h1, -, h3⟩ := hnew (Or.inl rfl)
  exact ⟨r, hr, h1, h3 rfl rfl⟩

/-- C22 as stated fails: on the sample inputs with a writable view whose
custom-history slot already holds the container at address `7`, the pass
completes and the slot still holds that same container, not a new one. -/
theorem C22_counterexample :
    FViewInfo.sample.bStatePrevViewInfoIsReadOnly = false ∧
    ∃ r, AddDLSSPass Externals.sample Globals.sample PassSettings.sample
        Statics.samplePooled 1 ⟨.Performance⟩ FViewInfo.sample FDLSSPassParameters.sample
        FTemporalAAHistory.sample (some FTemporalAAHistory.sample) (some ⟨7, 5⟩)
        (some (some ⟨7, 5⟩)) 100 DebugDump.initial = .ok r ∧
      r.OutputCustomHistory = some (some ⟨7, 5⟩) := by
  refine ⟨rfl, ?_⟩
  obtain ⟨r, hr, -, hc, -⟩ := AddDLSSPass_state Externals.sample Globals.sample
    PassSettings.sample Statics.samplePooled 1 ⟨.Performance⟩ FViewInfo.sample
    FDLSSPassParameters.sample FTemporalAAHistory.sample (some FTemporalAAHistory.sample)
    (some ⟨7, 5⟩) (some (some ⟨7, 5⟩)) 100 _ DebugDump.initial _ ⟨2, ⟨640, 360⟩⟩
    ⟨3, ⟨640, 360⟩⟩ sample_validation rfl rfl
  exact ⟨r, hr, hc⟩

/-- C22, amended: in a frame in which the view's history is writable and the
custom-history slot exists (a completed validation stage, non-null depth and
velocity inputs), the pass completes; when the slot is empty it
holds after the pass a container made in this frame, at an address above every
identity in use before the pass, wrapping the state handed to the backend;
when the slot already holds a container, it holds the same container after the
pass. -/
theorem C22_container_created_when_slot_empty (ext : Externals) (g : Globals)
    (cfg : PassSettings) (s : Statics) (This : Nat) (Self : FDLSSUpscaler) (View : FViewInfo)
    (Inputs : FDLSSPassParameters) (InputHistory : FTemporalAAHistory)
    (OutputHistory : Option FTemporalAAHistory)
    (InputCustomHistory : Option FDLSSUpscalerHistory)
    (Slot : Option FDLSSUpscalerHistory) (Fresh : Nat)
    (L : PassLocals) (D D1 : DebugDump) (d v : FRDGTexture)
    (hV : AddDLSSPassValidation ext g s This Self View Inputs InputHistory OutputHistory D =
      .ok (L, D1))
    (hd : Inputs.SceneDepthInput = some d) (hv : Inputs.SceneVelocityInput = some v)
    (hw : View.bStatePrevViewInfoIsReadOnly = false) :
    ∃ r, AddDLSSPass ext g cfg s This Self View Inputs InputHistory OutputHistory
        InputCustomHistory (some Slot) Fresh D = .ok r ∧
      (Slot = none →
        ∃ a, r.OutputCustomHistory = some (some ⟨a, r.DLSSState⟩) ∧ Fresh < a ∧ a = r.Fresh) ∧
      (∀ Held, Slot = some Held → r.OutputCustomHistory = some (some Held)) := by
  obtain ⟨r, hr, hs, hc, hf⟩ := AddDLSSPass_state ext g cfg s This Self View Inputs
    InputHistory OutputHistory InputCustomHistory (some Slot) Fresh L D D1 d v hV hd hv
  refine ⟨r, hr, ?_, ?_⟩
  · intro hnone
    subst hnone
    refine ⟨(ResolveDLSSState InputCustomHistory (Fresh + 1)).2 + 1, ?_, ?_, ?_⟩
    · rw [hc, hs]
      simp [ExtractCustomHistory, hw]
    · have : Fresh + 1 ≤ (ResolveDLSSState InputCustomHistory (Fresh + 1)).2 := by
        unfold ResolveDLSSState
        split
        · split <;> simp
        · simp
      omega
    · rw [hf]
      simp [ExtractCustomHistory, hw]
  · intro Held hheld
    subst hheld
    rw [hc]
    simp [ExtractCustomHistory, hw]

/-- Witness of the amended C22: on the sample inputs with an empty slot the
slot holds after the pass the new container `103`. -/
theorem C22_container_created_when_slot_empty_witness :
    FViewInfo.sample.bStatePrevViewInfoIsReadOnly = false ∧
    ∃ r, AddDLSSPass Externals.sample Globals.sample PassSettings.sample
        Statics.samplePooled 1 ⟨.Performance⟩ FViewInfo.sample FDLSSPassParameters.sample
        FTemporalAAHistory.sample (some FTemporalAAHistory.sample) none (some none) 100 DebugDump.initial =
        .ok r ∧
      ∃ a, r.OutputCustomHistory = some (some ⟨a, r.DLSSState⟩) ∧ 100 < a ∧ a = r.Fresh := by
  refine ⟨rfl, ?_⟩
  obtain ⟨r, hr, hnew, -⟩ := C22_container_created_when_slot_empty Externals.sample
    Globals.sample PassSettings.sample Statics.samplePooled 1 ⟨.Performance⟩ FViewInfo.sample
    FDLSSPassParameters.sample FTemporalAAHistory.sample (some FTemporalAAHistory.sample)
    none none 100 _ DebugDump.initial _ ⟨2, ⟨640, 360⟩⟩ ⟨3, ⟨640, 360⟩⟩ sample_validation
    rfl rfl rfl
  exact ⟨r, hr, hnew rfl⟩

/-! ### Startup: single construction, required modes, sentinels -/

/-- A completed startup leaves the backend handle set. -/
theorem Startup_handle (ext : Externals) (s : Statics) (In : Option NGXRHI) (s' : Statics)
    (h : FDLSSUpscaler.Startup ext s In = .ok s') : s'.NGXRHIExtensions.isSome = true := by
  obtain ⟨-, B, hIn, -, hs', -, -, -⟩ := (Startup_ok_iff ext s In s').1 h
  rw [hs', StartupEffects_handle]
  simp [StartupEntry, hIn]

theorem Startup_of_handle (ext : Externals) (s : Statics) (In : Option NGXRHI)
    (h : s.NGXRHIExtensions.isSome = true) :
    FDLSSUpscaler.Startup ext s In = .error .check := by
  simp [FDLSSUpscaler.Startup, h]

/-- C23: after a completed startup constructor, running the constructor again
ends in its first statement, the `checkf` on the stored handle, with whatever
backend it is given; this is also so after `ReleaseStaticResources`, which
leaves the stored handle, the global bounds and the mode count as they
were. -/
theorem C23_second_startup_fails (ext : Externals) (s : Statics) (In In2 : Option NGXRHI)
    (s' : Statics) (h : FDLSSUpscaler.Startup ext s In = .ok s') :
    FDLSSUpscaler.Startup ext s' In2 = .error .check ∧
    FDLSSUpscaler.Startup ext (ReleaseStaticResources s') In2 = .error .check ∧
    (ReleaseStaticResources s').NGXRHIExtensions.isSome = true ∧
    (ReleaseStaticResources s').MinResolutionFraction = s'.MinResolutionFraction ∧
    (ReleaseStaticResources s').MaxResolutionFraction = s'.MaxResolutionFraction ∧
    (ReleaseStaticResources s').NumRuntimeQualityModes = s'.NumRuntimeQualityModes := by
  have hh := Startup_handle ext s In s' h
  exact ⟨Startup_of_handle ext s' In2 hh,
    Startup_of_handle ext (ReleaseStaticResources s') In2 hh, hh, rfl, rfl, rfl⟩

/-- Witness of C23: after startup with the three-mode backend a second
startup fails, before and after teardown. -/
theorem C23_second_startup_fails_witness :
    ∃ s', FDLSSUpscaler.Startup Externals.sample (Statics.initial Externals.sample)
        (some Backend.threeModes) = .ok s' ∧
      FDLSSUpscaler.Startup Externals.sample s' (some Backend.allModes) = .error .check ∧
      FDLSSUpscaler.Startup Externals.sample (ReleaseStaticResources s')
        (some Backend.allModes) = .error .check :=
  have hS := Startup_ok_of_supported Externals.sample (Statics.initial Externals.sample)
    Backend.threeModes sample_injective sample_range rfl rfl rfl rfl
  ⟨_, hS,
   (C23_second_startup_fails Externals.sample _ _ (some Backend.allModes) _ hS).1,
   (C23_second_startup_fails Externals.sample _ _ (some Backend.allModes) _ hS).2.1⟩

/-- C28: with distinct vendor enumerator values, the startup constructor
completes only if the backend reports Performance, Balanced and Quality as
supported; when one of the three is reported unsupported the constructor ends
in a fatal error; and in every state that a completed constructor leaves the
three modes are supported. -/
theorem C28_startup_requires_three_modes (ext : Externals) (s : Statics) (B : NGXRHI)
    (hinj : Function.Injective ext.PerfQualityValue) :
    (∀ s', FDLSSUpscaler.Startup ext s (some B) = .ok s' →
      ((B.GetDLSSOptimalSettings .MaxPerf).bIsSupported = true ∧
        (B.GetDLSSOptimalSettings .Balanced).bIsSupported = true ∧
        (B.GetDLSSOptimalSettings .MaxQuality).bIsSupported = true) ∧
      IsQualityModeSupported ext s' .Performance = .ok true ∧
      IsQualityModeSupported ext s' .Balanced = .ok true ∧
      IsQualityModeSupported ext s' .Quality = .ok true) ∧
    (¬ ((B.GetDLSSOptimalSettings .MaxPerf).bIsSupported = true ∧
        (B.GetDLSSOptimalSettings .Balanced).bIsSupported = true ∧
        (B.GetDLSSOptimalSettings .MaxQuality).bIsSupported = true) →
      ∃ e, FDLSSUpscaler.Startup ext s (some B) = .error e) := by
  have key : ∀ s', FDLSSUpscaler.Startup ext s (some B) = .ok s' →
      ((B.GetDLSSOptimalSettings .MaxPerf).bIsSupported = true ∧
        (B.GetDLSSOptimalSettings .Balanced).bIsSupported = true ∧
        (B.GetDLSSOptimalSettings .MaxQuality).bIsSupported = true) ∧
      IsQualityModeSupported ext s' .Performance = .ok true ∧
      IsQualityModeSupported ext s' .Balanced = .ok true ∧
      IsQualityModeSupported ext s' .Quality = .ok true := by
    intro s' h
    obtain ⟨-, -, -, -, -, hP, hBa, hQ⟩ := (Startup_ok_iff ext s (some B) s').1 h
    obtain ⟨B2, hB2, -, hrec⟩ := Startup_records ext s (some B) s' hinj h
    cases hB2
    refine ⟨⟨?_, ?_, ?_⟩, hP, hBa, hQ⟩
    · have h1 := (hrec .Performance .MaxPerf rfl).2.2
      rw [hP] at h1
      exact (Except.ok.inj h1).symm
    · have h1 := (hrec .Balanced .Balanced rfl).2.2
      rw [hBa] at h1
      exact (Except.ok.inj h1).symm
    · have h1 := (hrec .Quality .MaxQuality rfl).2.2
      rw [hQ] at h1
      exact (Except.ok.inj h1).symm
  refine ⟨key, ?_⟩
  intro hn
  cases hS : FDLSSUpscaler.Startup ext s (some B) with
  | error e => exact ⟨e, rfl⟩
  | ok s' => exact absurd (key s' hS).1 hn

/-- Witness of C28: startup with the three-mode backend completes with the
three modes supported; startup with a backend that supports no mode fails. -/
theorem C28_startup_requires_three_modes_witness :
    (∃ s', FDLSSUpscaler.Startup Externals.sample (Statics.initial Externals.sample)
        (some Backend.threeModes) = .ok s' ∧
      IsQualityModeSupported Externals.sample s' .Performance = .ok true ∧
      IsQualityModeSupported Externals.sample s' .Balanced = .ok true ∧
      IsQualityModeSupported Externals.sample s' .Quality = .ok true) ∧
    ∃ e, FDLSSUpscaler.Startup Externals.sample (Statics.initial Externals.sample)
      (some Backend.noModes) = .error e :=
  have hS := Startup_ok_of_supported Externals.sample (Statics.initial Externals.sample)
    Backend.threeModes sample_injective sample_range rfl rfl rfl rfl
  ⟨⟨_, hS,
    ((C28_startup_requires_three_modes Externals.sample (Statics.initial Externals.sample)
      Backend.threeModes sample_injective).1 _ hS).2⟩,
   (C28_startup_requires_three_modes Externals.sample (Statics.initial Externals.sample)
      Backend.noModes sample_injective).2 (by decide)⟩

theorem mem_CountedFractions (B : NGXRHI) (q : NVSDK_NGX_PerfQuality_Value)
    (hq : CountsForBounds (B.GetDLSSOptimalSettings q) = true) :
    (B.GetDLSSOptimalSettings q).OptimalResolutionFraction ∈
      CountedFractions B NVSDK_NGX_PerfQuality_Value.visited := by
  unfold CountedFractions
  exact List.mem_map.2 ⟨q, List.mem_filter.2 ⟨mem_visited q, hq⟩, rfl⟩

theorem CountedFractions_nil (B : NGXRHI)
    (h : ∀ q, CountsForBounds (B.GetDLSSOptimalSettings q) = false) :
    CountedFractions B NVSDK_NGX_PerfQuality_Value.visited = [] := by
  unfold CountedFractions
  rw [List.map_eq_nil_iff, List.filter_eq_nil_iff]
  intro q _
  simp [h q]

/-- C29: after the startup constructor has run on freshly initialised statics,
when at least one mode is supported and not fixed-resolution the global
minimum is at most the global maximum and the optimal fraction of every such
mode lies between them; when there is no such mode the two bounds still hold
their initial values, `TNumericLimits<float>::Max()` for the minimum and
`TNumericLimits<float>::Min()` for the maximum, and `NumRuntimeQualityModes`
is `0`. -/
theorem C29_bounds_enclose_or_keep_sentinels (ext : Externals) (In : Option NGXRHI)
    (s' : Statics) (h : FDLSSUpscaler.Startup ext (Statics.initial ext) In = .ok s') :
    ∃ B, In = some B ∧
      ((∃ q, CountsForBounds (B.GetDLSSOptimalSettings q) = true) →
        GetMinUpsampleResolutionFraction s' ≤ GetMaxUpsampleResolutionFraction s' ∧
        ∀ q, CountsForBounds (B.GetDLSSOptimalSettings q) = true →
          GetMinUpsampleResolutionFraction s' ≤
              (B.GetDLSSOptimalSettings q).OptimalResolutionFraction ∧
            (B.GetDLSSOptimalSettings q).OptimalResolutionFraction ≤
              GetMaxUpsampleResolutionFraction s') ∧
      ((∀ q, CountsForBounds (B.GetDLSSOptimalSettings q) = false) →
        GetMinUpsampleResolutionFraction s' = ext.NumericLimitsMax ∧
        GetMaxUpsampleResolutionFraction s' = ext.NumericLimitsMin ∧
        s'.NumRuntimeQualityModes = 0) := by
  obtain ⟨B, hB, hmin, hmax, -⟩ := Startup_bounds_exact ext In s' h
  obtain ⟨B2, hB2, hnum⟩ := Startup_count ext In s' h
  have hBB : B2 = B := by
    rw [hB] at hB2
    exact (Option.some.inj hB2).symm
  subst hBB
  obtain ⟨a1, -, -⟩ :=
    foldl_min_spec (CountedFractions B2 NVSDK_NGX_PerfQuality_Value.visited)
      ext.NumericLimitsMax
  obtain ⟨b1, -, -⟩ :=
    foldl_max_spec (CountedFractions B2 NVSDK_NGX_PerfQuality_Value.visited)
      ext.NumericLimitsMin
  have hall : ∀ q, CountsForBounds (B2.GetDLSSOptimalSettings q) = true →
      GetMinUpsampleResolutionFraction s' ≤
          (B2.GetDLSSOptimalSettings q).OptimalResolutionFraction ∧
        (B2.GetDLSSOptimalSettings q).OptimalResolutionFraction ≤
          GetMaxUpsampleResolutionFraction s' := by
    intro q hq
    rw [hmin, hmax]
    exact ⟨a1 _ (mem_CountedFractions B2 q hq), b1 _ (mem_CountedFractions B2 q hq)⟩
  refine ⟨B2, hB, ?_, ?_⟩
  · rintro ⟨q, hq⟩
    exact ⟨le_trans (hall q hq).1 (hall q hq).2, hall⟩
  · intro hnone
    have hnil := CountedFractions_nil B2 hnone
    rw [hmin, hmax, hnum, hnil]
    exact ⟨rfl, rfl, rfl⟩

/-- Witness of C29: with the three-mode backend the bounds enclose the
optimal fraction of Performance; with the backend whose supported modes are
all fixed-resolution the bounds keep the two sentinels and the count is `0`. -/
theorem C29_bounds_enclose_or_keep_sentinels_witness :
    (∃ s', FDLSSUpscaler.Startup Externals.sample (Statics.initial Externals.sample)
        (some Backend.threeModes) = .ok s' ∧
      GetMinUpsampleResolutionFraction s' ≤ 1 / 2 ∧
      1 / 2 ≤ GetMaxUpsampleResolutionFraction s') ∧
    (∃ s', FDLSSUpscaler.Startup Externals.sample (Statics.initial Externals.sample)
        (some Backend.fixedOnly) = .ok s' ∧
      GetMinUpsampleResolutionFraction s' = Externals.sample.NumericLimitsMax ∧
      GetMaxUpsampleResolutionFraction s' = Externals.sample.NumericLimitsMin ∧
      s'.NumRuntimeQualityModes = 0) := by
  have hS := Startup_ok_of_supported Externals.sample (Statics.initial Externals.sample)
    Backend.threeModes sample_injective sample_range rfl rfl rfl rfl
  have hF := Startup_ok_of_supported Externals.sample (Statics.initial Externals.sample)
    Backend.fixedOnly sample_injective sample_range rfl rfl rfl rfl
  constructor
  · obtain ⟨B, hB, hsome, -⟩ :=
      C29_bounds_enclose_or_keep_sentinels Externals.sample _ _ hS
    cases hB
    exact ⟨_, hS, (hsome ⟨.MaxPerf, rfl⟩).2 .MaxPerf rfl⟩
  · obtain ⟨B, hB, -, hnone⟩ :=
      C29_bounds_enclose_or_keep_sentinels Externals.sample _ _ hF
    cases hB
    exact ⟨_, hF, hnone (by intro q; cases q <;> rfl)⟩

/-! ### The entry point `AddPasses` -/

theorem GetOutputExtent_error (ext : Externals) (p : FDLSSPassParameters) (e : Fatal)
    (h : p.GetOutputExtent ext = .error e) : e = .check := by
  unfold FDLSSPassParameters.GetOutputExtent FDLSSPassParameters.Validate at h
  by_cases h0 : p.OutputViewRect.Min = FIntPoint.ZeroValue
  · cases hc : p.SceneColorInput with
    | none =>
      simp [h0, hc] at h
      exact h.symm
    | some c => simp [h0, hc] at h
  · simp [h0] at h
    exact h.symm

/-- What `DumpTexture` does to the list of files: at most one file is added at
the end. -/
theorem DumpTexture_files (ext : Externals) (Files Files1 : List DumpFile) (Filename : DumpFile)
    (Texture : Option FRHITexture) (h : DumpTexture ext Files Filename Texture = .ok Files1) :
    ∃ l, Files1 = Files ++ l ∧ l.length ≤ 1 := by
  unfold DumpTexture at h
  cases Texture with
  | none => cases h
  | some T =>
    have h2 := Except.ok.inj h
    by_cases ho : ext.OpenForWriting Filename = true
    · rw [if_pos ho] at h2
      exact ⟨[Filename], h2.symm, le_refl _⟩
    · rw [if_neg ho] at h2
      exact ⟨[], by simp [← h2], by simp⟩

/-- The capture ends the process only by a null dereference. -/
theorem CaptureInputHistory_error (ext : Externals) (D : DebugDump)
    (InputHistory : FTemporalAAHistory) (e : Fatal)
    (h : CaptureInputHistory ext D InputHistory = .error e) : e = .nullDeref := by
  have hdump : ∀ (Files : List DumpFile) (Filename : DumpFile) (Texture : Option FRHITexture)
      (e : Fatal), DumpTexture ext Files Filename Texture = .error e → e = .nullDeref := by
    intro Files Filename Texture e he
    unfold DumpTexture at he
    cases Texture with
    | none => exact (Except.error.inj he).symm
    | some T => cases he
  have hwrite : ∀ (T1 T2 T3 T4 : Option FRHITexture) (e : Fatal),
      TextureWriting_RenderThread ext D T1 T2 T3 T4 = .error e → e = .nullDeref := by
    intro T1 T2 T3 T4 e he
    unfold TextureWriting_RenderThread at he
    cases T1 with
    | none => cases he
    | some a =>
      cases T2 with
      | none => cases he
      | some b =>
        cases T4 with
        | none => exact (Except.error.inj he).symm
        | some d =>
          dsimp only at he
          cases h1 : DumpTexture ext D.Files ⟨"DLSS_", D.count, a.SizeX, a.SizeY, "_output.txt"⟩
            (some a) with
          | error e1 =>
            rw [h1] at he
            rw [← Except.error.inj he]
            exact hdump _ _ _ _ h1
          | ok F1 =>
            rw [h1] at he
            dsimp only at he
            cases h2 : DumpTexture ext F1 ⟨"DLSS_", D.count, a.SizeX, a.SizeY, "_input.txt"⟩
              (some b) with
            | error e2 =>
              rw [h2] at he
              rw [← Except.error.inj he]
              exact hdump _ _ _ _ h2
            | ok F2 =>
              rw [h2] at he
              dsimp only at he
              cases h3 : DumpTexture ext F2 ⟨"DLSS_", D.count, a.SizeX, a.SizeY, "_depth.txt"⟩
                T3 with
              | error e3 =>
                rw [h3] at he
                rw [← Except.error.inj he]
                exact hdump _ _ _ _ h3
              | ok F3 =>
                rw [h3] at he
                dsimp only at he
                cases h4 : DumpTexture ext F3
                  ⟨"DLSS_", D.count, d.SizeX, d.SizeY, "_velocity.txt"⟩ (some d) with
                | error e4 =>
                  rw [h4] at he
                  rw [← Except.error.inj he]
                  exact hdump _ _ _ _ h4
                | ok F4 =>
                  rw [h4] at he
                  cases he
  unfold CaptureInputHistory at h
  split at h
  · split at h
    · exact hwrite _ _ _ _ e h
    · exact (Except.error.inj h).symm
  · cases h

/-- What `TextureWriting_RenderThread` does to the debug dump: nothing, or
`count` is incremented and at most four files are added at the end. -/
theorem TextureWriting_dump (ext : Externals) (D D1 : DebugDump)
    (T1 T2 T3 T4 : Option FRHITexture)
    (h : TextureWriting_RenderThread ext D T1 T2 T3 T4 = .ok D1) :
    (D1.count = D.count ∨ D1.count = wrap32 (D.count + 1)) ∧
      ∃ l, D1.Files = D.Files ++ l ∧ l.length ≤ 4 := by
  unfold TextureWriting_RenderThread at h
  cases T1 with
  | none =>
    rw [← Except.ok.inj h]
    exact ⟨Or.inl rfl, [], by simp, by simp⟩
  | some a =>
    cases T2 with
    | none =>
      rw [← Except.ok.inj h]
      exact ⟨Or.inl rfl, [], by simp, by simp⟩
    | some b =>
      cases T4 with
      | none => cases h
      | some d =>
        dsimp only at h
        cases h1 : DumpTexture ext D.Files ⟨"DLSS_", D.count, a.SizeX, a.SizeY, "_output.txt"⟩
          (some a) with
        | error e1 =>
          rw [h1] at h
          cases h
        | ok F1 =>
          rw [h1] at h
          dsimp only at h
          cases h2 : DumpTexture ext F1 ⟨"DLSS_", D.count, a.SizeX, a.SizeY, "_input.txt"⟩
            (some b) with
          | error e2 =>
            rw [h2] at h
            cases h
          | ok F2 =>
            rw [h2] at h
            dsimp only at h
            cases h3 : DumpTexture ext F2 ⟨"DLSS_", D.count, a.SizeX, a.SizeY, "_depth.txt"⟩
              T3 with
            | error e3 =>
              rw [h3] at h
              cases h
            | ok F3 =>
              rw [h3] at h
              dsimp only at h
              cases h4 : DumpTexture ext F3
                ⟨"DLSS_", D.count, d.SizeX, d.SizeY, "_velocity.txt"⟩ (some d) with
              | error e4 =>
                rw [h4] at h
                cases h
              | ok F4 =>
                rw [h4] at h
                rw [← Except.ok.inj h]
                obtain ⟨l1, e1, n1⟩ := DumpTexture_files ext _ _ _ _ h1
                obtain ⟨l2, e2, n2⟩ := DumpTexture_files ext _ _ _ _ h2
                obtain ⟨l3, e3, n3⟩ := DumpTexture_files ext _ _ _ _ h3
                obtain ⟨l4, e4, n4⟩ := DumpTexture_files ext _ _ _ _ h4
                refine ⟨Or.inr rfl, l1 ++ l2 ++ l3 ++ l4, ?_, ?_⟩
                · dsimp only
                  rw [e4, e3, e2, e1]
                  simp
                · simp only [List.length_append]
                  omega

/-- With non-null first and second textures a completed
`TextureWriting_RenderThread` increments `count`, and writes four files when
every file opens. -/
theorem TextureWriting_count (ext : Externals) (D D1 : DebugDump) (T0 T1 : FRHITexture)
    (T2 T3 : Option FRHITexture)
    (h : TextureWriting_RenderThread ext D (some T0) (some T1) T2 T3 = .ok D1) :
    D1.count = wrap32 (D.count + 1) ∧
      ((∀ f, ext.OpenForWriting f = true) → D1.Files.length = D.Files.length + 4) := by
  unfold TextureWriting_RenderThread at h
  cases T3 with
  | none => cases h
  | some d =>
    cases T2 with
    | none =>
      simp only [DumpTexture] at h
      cases h
    | some c =>
      simp only [DumpTexture] at h
      rw [← Except.ok.inj h]
      refine ⟨rfl, fun hopen => ?_⟩
      simp [hopen]

/-- The capture does nothing when `RT[0]` of the input history is not valid. -/
theorem CaptureInputHistory_skipped (ext : Externals) (D : DebugDump)
    (InputHistory : FTemporalAAHistory)
    (h0 : InputHistory.RT[0]? = none ∨ InputHistory.RT[0]? = some none) :
    CaptureInputHistory ext D InputHistory = .ok D := by
  unfold CaptureInputHistory
  rcases h0 with h0 | h0 <;> rw [h0]

/-- A completed capture of a history whose first two render targets are valid
and have targetable textures increments `count`, and writes four files when
every file opens. -/
theorem CaptureInputHistory_run (ext : Externals) (D D1 : DebugDump)
    (InputHistory : FTemporalAAHistory) (t0 t1 : FRDGTexture) (T0 T1 : FRHITexture)
    (h0 : InputHistory.RT[0]? = some (some t0)) (h1 : InputHistory.RT[1]? = some (some t1))
    (hT0 : ext.TargetableTexture t0 = some T0) (hT1 : ext.TargetableTexture t1 = some T1)
    (h : CaptureInputHistory ext D InputHistory = .ok D1) :
    D1.count = wrap32 (D.count + 1) ∧
      ((∀ f, ext.OpenForWriting f = true) → D1.Files.length = D.Files.length + 4) := by
  unfold CaptureInputHistory at h
  rw [h0, h1] at h
  dsimp only at h
  split at h
  · rename_i heq1 heq2 heq3
    have e1 := Option.some.inj (Option.some.inj heq1)
    subst e1
    rw [hT0, hT1] at h
    exact TextureWriting_count ext D D1 T0 T1 _ _ h
  · cases h

/-- The readback passes write two files when every file opens. -/
theorem ReadbackPasses_open (ext : Externals) (D : DebugDump) (OutputExtent : FIntPoint)
    (SrcRect : FIntRect) (hopen : ∀ f, ext.OpenForWriting f = true) :
    (ReadbackPasses ext D OutputExtent SrcRect).Files.length = D.Files.length + 2 := by
  simp [ReadbackPasses, hopen]

/-- What the capture does to the debug dump. -/
theorem CaptureInputHistory_dump (ext : Externals) (D D1 : DebugDump)
    (InputHistory : FTemporalAAHistory)
    (h : CaptureInputHistory ext D InputHistory = .ok D1) :
    (D1.count = D.count ∨ D1.count = wrap32 (D.count + 1)) ∧
      ∃ l, D1.Files = D.Files ++ l ∧ l.length ≤ 4 := by
  unfold CaptureInputHistory at h
  split at h
  · split at h
    · exact TextureWriting_dump ext D D1 _ _ _ _ h
    · cases h
  · rw [← Except.ok.inj h]
    exact ⟨Or.inl rfl, [], by simp, by simp⟩

/-- What the readback passes do to the debug dump: `count` is kept and at most
two files are added at the end. -/
theorem ReadbackPasses_dump (ext : Externals) (D : DebugDump) (OutputExtent : FIntPoint)
    (SrcRect : FIntRect) :
    (ReadbackPasses ext D OutputExtent SrcRect).count = D.count ∧
      ∃ l, (ReadbackPasses ext D OutputExtent SrcRect).Files = D.Files ++ l ∧ l.length ≤ 2 := by
  refine ⟨rfl, ?_⟩
  unfold ReadbackPasses
  dsimp only
  by_cases h1 : ext.OpenForWriting
      ⟨"map_DLSS_", D.count, OutputExtent.X, OutputExtent.Y, "_output.txt"⟩ = true
  · by_cases h2 : ext.OpenForWriting
        ⟨"map_DLSS_", D.count, SrcRect.Width, SrcRect.Height, "_input.txt"⟩ = true
    · rw [if_pos h1, if_pos h2]
      exact ⟨[⟨"map_DLSS_", D.count, OutputExtent.X, OutputExtent.Y, "_output.txt"⟩,
        ⟨"map_DLSS_", D.count, SrcRect.Width, SrcRect.Height, "_input.txt"⟩], by simp, by simp⟩
    · rw [if_pos h1, if_neg h2]
      exact ⟨[⟨"map_DLSS_", D.count, OutputExtent.X, OutputExtent.Y, "_output.txt"⟩], rfl,
        by simp⟩
  · by_cases h2 : ext.OpenForWriting
        ⟨"map_DLSS_", D.count, SrcRect.Width, SrcRect.Height, "_input.txt"⟩ = true
    · rw [if_neg h1, if_pos h2]
      exact ⟨[⟨"map_DLSS_", D.count, SrcRect.Width, SrcRect.Height, "_input.txt"⟩], rfl,
        by simp⟩
    · rw [if_neg h1, if_neg h2]
      exact ⟨[], by simp, by simp⟩

/-- With the `NumValues` sentinel or an unsupported quality mode the validation
stage ends fatally: in a `check`, unless the capture, which runs before the
quality-mode checks, dereferences a null pointer. -/
theorem AddDLSSPassValidation_bad_mode (ext : Externals) (g : Globals) (s : Statics)
    (This : Nat) (Self : FDLSSUpscaler) (View : FViewInfo) (Inputs : FDLSSPassParameters)
    (InputHistory : FTemporalAAHistory) (OutputHistory : Option FTemporalAAHistory)
    (D : DebugDump)
    (h : Self.DLSSQualityMode = .NumValues ∨
      IsQualityModeSupported ext s Self.DLSSQualityMode = .ok false) :
    (∃ e, AddDLSSPassValidation ext g s This Self View Inputs InputHistory OutputHistory D =
        .error e ∧ (e = .check ∨ e = .nullDeref)) ∧
    (∀ D1, CaptureInputHistory ext D InputHistory = .ok D1 →
      AddDLSSPassValidation ext g s This Self View Inputs InputHistory OutputHistory D =
        .error .check) := by
  have hQ : CheckQualityMode ext s Self.DLSSQualityMode = .error .check := by
    unfold CheckQualityMode
    rcases h with h | h
    · simp [h]
    · by_cases hn : Self.DLSSQualityMode = .NumValues
      · simp [hn]
      · simp [hn, h, Check]
  have hcheck : ∀ D1, CaptureInputHistory ext D InputHistory = .ok D1 →
      AddDLSSPassValidation ext g s This Self View Inputs InputHistory OutputHistory D =
        .error .check := by
    intro D1 hC
    unfold AddDLSSPassValidation
    by_cases h1 : IsValidUpscalerInstance s This = true
    · by_cases h2 : IsDLSSActive g s This = true
      · cases hE : Inputs.GetOutputExtent ext with
        | error e =>
          have := GetOutputExtent_error ext Inputs e hE
          subst this
          simp [h1, h2]
        | ok E => simp [h1, h2, hC, hQ]
      · simp [h1, h2]
    · simp [h1]
  refine ⟨?_, hcheck⟩
  cases hC : CaptureInputHistory ext D InputHistory with
  | ok D1 => exact ⟨.check, hcheck D1 hC, Or.inl rfl⟩
  | error e =>
    have he := CaptureInputHistory_error ext D InputHistory e hC
    subst he
    unfold AddDLSSPassValidation
    by_cases h1 : IsValidUpscalerInstance s This = true
    · by_cases h2 : IsDLSSActive g s This = true
      · cases hE : Inputs.GetOutputExtent ext with
        | error e =>
          have := GetOutputExtent_error ext Inputs e hE
          subst this
          exact ⟨.check, by simp [h1, h2], Or.inl rfl⟩
        | ok E => exact ⟨.nullDeref, by simp [h1, h2, hC], Or.inr rfl⟩
      · exact ⟨.check, by simp [h1, h2], Or.inl rfl⟩
    · exact ⟨.check, by simp [h1], Or.inl rfl⟩

/-- C24: `AddPasses` ends in a `checkf`, whatever its other inputs, when the
pass inputs allow downsampling the scene color or the view's primary
screen-percentage method is not `TemporalUpscale`; and `AddDLSSPass` ends
fatally, whatever its other inputs, when the instance's quality mode is the
`NumValues` sentinel or is not supported: in a `check`, unless the capture of
lines 437-450, which runs before the quality-mode checks, dereferences a null
pointer first. -/
theorem C24_fatal_preconditions (ext : Externals) (g : Globals) (cfg : PassSettings)
    (Dilate : Int) (Combined : Option FRDGTexture) (st : FrameState) (This : Nat)
    (View : FPassView) (PassInputs : FPassInputs) (s : Statics) (Self : FDLSSUpscaler)
    (Info : FViewInfo) (Inputs : FDLSSPassParameters) (InputHistory : FTemporalAAHistory)
    (OutputHistory : Option FTemporalAAHistory)
    (InputCustomHistory : Option FDLSSUpscalerHistory)
    (OutputCustomHistory : Option (Option FDLSSUpscalerHistory)) (Fresh : Nat)
    (D : DebugDump) :
    (PassInputs.bAllowDownsampleSceneColor = true ∨
        View.PrimaryScreenPercentageMethod ≠ .TemporalUpscale →
      AddPasses ext g cfg Dilate Combined st This View PassInputs = .error .check) ∧
    (Self.DLSSQualityMode = .NumValues ∨
        IsQualityModeSupported ext s Self.DLSSQualityMode = .ok false →
      (∃ e, AddDLSSPass ext g cfg s This Self Info Inputs InputHistory OutputHistory
          InputCustomHistory OutputCustomHistory Fresh D = .error e ∧
        (e = .check ∨ e = .nullDeref)) ∧
      (∀ D1, CaptureInputHistory ext D InputHistory = .ok D1 →
        AddDLSSPass ext g cfg s This Self Info Inputs InputHistory OutputHistory
          InputCustomHistory OutputCustomHistory Fresh D = .error .check)) := by
  constructor
  · intro h
    unfold AddPasses
    by_cases ha : PassInputs.bAllowDownsampleSceneColor = true
    · simp [ha]
    · rcases h with h | h
      · exact absurd h ha
      · simp [ha, h]
  · intro h
    obtain ⟨⟨e, he, hkind⟩, hcheck⟩ := AddDLSSPassValidation_bad_mode ext g s This Self Info
      Inputs InputHistory OutputHistory D h
    constructor
    · refine ⟨e, ?_, hkind⟩
      unfold AddDLSSPass
      rw [he]
    · intro D1 hC
      unfold AddDLSSPass
      rw [hcheck D1 hC]

/-- Witness of C24: the sample pass inputs with downsampling allowed are
rejected by `AddPasses`; an instance whose mode is the `NumValues` sentinel is
rejected by `AddDLSSPass`, after the capture of the sample history, in a
`check`. -/
theorem C24_fatal_preconditions_witness :
    AddPasses Externals.sample Globals.sample PassSettings.sample 1 (some ⟨3, ⟨640, 360⟩⟩)
      FrameState.sample 1 FPassView.sample
      { FPassInputs.sample with bAllowDownsampleSceneColor := true } = .error .check ∧
    CaptureInputHistory Externals.sample DebugDump.initial FTemporalAAHistory.sample =
      .ok DebugDump.sampleCaptured ∧
    AddDLSSPass Externals.sample Globals.sample PassSettings.sample Statics.samplePooled 1
      ⟨.NumValues⟩ FViewInfo.sample FDLSSPassParameters.sample FTemporalAAHistory.sample
      (some FTemporalAAHistory.sample) none (some none) 100 DebugDump.initial = .error .check :=
  ⟨(C24_fatal_preconditions Externals.sample Globals.sample PassSettings.sample 1
      (some ⟨3, ⟨640, 360⟩⟩) FrameState.sample 1 FPassView.sample
      { FPassInputs.sample with bAllowDownsampleSceneColor := true } Statics.samplePooled
      ⟨.NumValues⟩ FViewInfo.sample FDLSSPassParameters.sample FTemporalAAHistory.sample
      (some FTemporalAAHistory.sample) none (some none) 100 DebugDump.initial).1 (Or.inl rfl),
   sample_capture,
   ((C24_fatal_preconditions Externals.sample Globals.sample PassSettings.sample 1
      (some ⟨3, ⟨640, 360⟩⟩) FrameState.sample 1 FPassView.sample
      { FPassInputs.sample with bAllowDownsampleSceneColor := true } Statics.samplePooled
      ⟨.NumValues⟩ FViewInfo.sample FDLSSPassParameters.sample FTemporalAAHistory.sample
      (some FTemporalAAHistory.sample) none (some none) 100 DebugDump.initial).2
        (Or.inl rfl)).2 _ sample_capture⟩

/-- What a completed `AddDLSSPass` says about its stages and its result. -/
theorem AddDLSSPass_inv (ext : Externals) (g : Globals) (cfg : PassSettings) (s : Statics)
    (This : Nat) (Self : FDLSSUpscaler) (View : FViewInfo) (Inputs : FDLSSPassParameters)
    (InputHistory : FTemporalAAHistory) (OutputHistory : Option FTemporalAAHistory)
    (InputCustomHistory : Option FDLSSUpscalerHistory)
    (OutputCustomHistory : Option (Option FDLSSUpscalerHistory)) (Fresh : Nat)
    (D : DebugDump) (r : FDLSSPassResult)
    (h : AddDLSSPass ext g cfg s This Self View Inputs InputHistory OutputHistory
      InputCustomHistory OutputCustomHistory Fresh D = .ok r) :
    ∃ L D1 H, AddDLSSPassValidation ext g s This Self View Inputs InputHistory OutputHistory D =
        .ok (L, D1) ∧
      ExtractHistory View Inputs ⟨Fresh + 1, L.OutputExtent⟩ L.DestRect L.OutputExtent
        OutputHistory = .ok H ∧
      r.Statics = s ∧ r.Instance = Self ∧
      r.Dump = ReadbackPasses ext D1 L.OutputExtent L.SrcRect ∧
      r.OutputHistory = H ∧
      r.OutputCustomHistory =
        (ExtractCustomHistory View (ResolveDLSSState InputCustomHistory (Fresh + 1)).1
          (ResolveDLSSState InputCustomHistory (Fresh + 1)).2 OutputCustomHistory).1 ∧
      r.Fresh =
        (ExtractCustomHistory View (ResolveDLSSState InputCustomHistory (Fresh + 1)).1
          (ResolveDLSSState InputCustomHistory (Fresh + 1)).2 OutputCustomHistory).2 := by
  cases hV : AddDLSSPassValidation ext g s This Self View Inputs InputHistory OutputHistory D
    with
  | error e =>
    unfold AddDLSSPass at h
    rw [hV] at h
    cases h
  | ok LD =>
    obtain ⟨L, D1⟩ := LD
    obtain ⟨-, -, -, -, -, ⟨q, hq⟩, -, -⟩ :=
      AddDLSSPassValidation_inv ext g s This Self View Inputs InputHistory OutputHistory L D D1 hV
    cases hH : ExtractHistory View Inputs ⟨Fresh + 1, L.OutputExtent⟩ L.DestRect L.OutputExtent
      OutputHistory with
    | error e =>
      unfold AddDLSSPass at h
      simp only [hV, hq, hH] at h
      cases h
    | ok H =>
      rw [AddDLSSPass_eq ext g cfg s This Self View Inputs InputHistory OutputHistory
        InputCustomHistory OutputCustomHistory Fresh L D D1 q H hV hq hH] at h
      rw [← Except.ok.inj h]
      exact ⟨L, D1, H, rfl, hH, rfl, rfl, rfl, rfl, rfl, rfl⟩

/-- What a completed `AddPasses` leaves: the static members, the scheduler
object and the debug dump that `AddDLSSPass` returns, the view state written
back from its result, and the identity counter advanced. -/
theorem AddPasses_inv (ext : Externals) (g : Globals) (cfg : PassSettings)
    (Dilate : Int) (Combined : Option FRDGTexture) (st : FrameState) (This : Nat)
    (View : FPassView) (PassInputs : FPassInputs) (out : FAddPassesOutputs)
    (st' : FrameState)
    (h : AddPasses ext g cfg Dilate Combined st This View PassInputs = .ok (out, st')) :
    ∃ r, AddDLSSPass ext g cfg st.Statics This st.Instance View.Info
        { View.PassParameters with
          SceneColorInput := PassInputs.SceneColorTexture
          SceneVelocityInput := Combined
          SceneDepthInput := PassInputs.SceneDepthTexture
          bHighResolutionMotionVectors := Dilate != 0 }
        View.PrevViewInfo.TemporalAAHistory (st.ViewState.map (·.TemporalAAHistory))
        View.PrevViewInfo.CustomTemporalAAHistory
        (st.ViewState.map (·.CustomTemporalAAHistory)) st.Fresh st.Dump = .ok r ∧
      st' = { Statics := r.Statics, Instance := r.Instance,
              ViewState := WriteBack st.ViewState r, Fresh := r.Fresh, Dump := r.Dump } ∧
      out.OutSceneColorTexture = some r.SceneColor := by
  unfold AddPasses at h
  by_cases ha : PassInputs.bAllowDownsampleSceneColor = true
  · simp [ha] at h
  · by_cases hm : View.PrimaryScreenPercentageMethod = .TemporalUpscale
    · simp only [ha, hm, ne_eq, not_true_eq_false, if_false] at h
      cases hr : AddDLSSPass ext g cfg st.Statics This st.Instance View.Info
          { View.PassParameters with
            SceneColorInput := PassInputs.SceneColorTexture
            SceneVelocityInput := Combined
            SceneDepthInput := PassInputs.SceneDepthTexture
            bHighResolutionMotionVectors := Dilate != 0 }
          View.PrevViewInfo.TemporalAAHistory (st.ViewState.map (·.TemporalAAHistory))
          View.PrevViewInfo.CustomTemporalAAHistory
          (st.ViewState.map (·.CustomTemporalAAHistory)) st.Fresh st.Dump with
      | error e =>
        rw [hr] at h
        cases h
      | ok r =>
        rw [hr] at h
        have h2 := Except.ok.inj h
        refine ⟨r, rfl, ?_, ?_⟩
        · exact (congrArg Prod.snd h2).symm
        · exact (congrArg (fun x => x.1.OutSceneColorTexture) h2).symm
    · simp [ha, hm] at h

/-- The history extraction keeps a null pointer null and a non-null pointer
non-null. -/
theorem ExtractHistory_shape (View : FViewInfo) (Inputs : FDLSSPassParameters)
    (SceneColor : FRDGTexture) (DestRect : FIntRect) (OutputExtent : FIntPoint)
    (OutputHistory H : Option FTemporalAAHistory)
    (h : ExtractHistory View Inputs SceneColor DestRect OutputExtent OutputHistory = .ok H) :
    (OutputHistory = none → H = none) ∧
      (∀ History, OutputHistory = some History → ∃ New, H = some New) := by
  cases OutputHistory with
  | none =>
    have : H = none := (Except.ok.inj h).symm
    exact ⟨fun _ => this, fun _ hn => (by cases hn)⟩
  | some History =>
    refine ⟨fun hn => (by cases hn), fun _ _ => ?_⟩
    unfold ExtractHistory at h
    dsimp only at h
    by_cases hro : View.bStatePrevViewInfoIsReadOnly = true
    · rw [if_pos hro] at h
      exact ⟨History, (Except.ok.inj h).symm⟩
    · rw [if_neg hro] at h
      cases h0 : QueueTextureExtraction (some SceneColor) with
      | error e => simp [h0] at h
      | ok r0 =>
        cases h1 : QueueTextureExtraction Inputs.SceneColorInput with
        | error e => simp [h0, h1] at h
        | ok r1 =>
          cases h2 : QueueTextureExtraction Inputs.SceneDepthInput with
          | error e => simp [h0, h1, h2] at h
          | ok r2 =>
            cases h3 : QueueTextureExtraction Inputs.SceneVelocityInput with
            | error e => simp [h0, h1, h2, h3] at h
            | ok r3 =>
              simp only [h0, h1, h2, h3] at h
              exact ⟨_, (Except.ok.inj h).symm⟩

/-- The custom-history step keeps a null pointer null and a non-null pointer
non-null, leaves the slot of a read-only view as it is, and does not lower the
identity counter. -/
theorem ExtractCustomHistory_shape (View : FViewInfo) (DLSSState Fresh : Nat)
    (OutputCustomHistory : Option (Option FDLSSUpscalerHistory)) :
    (OutputCustomHistory = none →
      (ExtractCustomHistory View DLSSState Fresh OutputCustomHistory).1 = none) ∧
    (∀ Slot, OutputCustomHistory = some Slot →
      ∃ New, (ExtractCustomHistory View DLSSState Fresh OutputCustomHistory).1 = some New) ∧
    (View.bStatePrevViewInfoIsReadOnly = true →
      (ExtractCustomHistory View DLSSState Fresh OutputCustomHistory).1 = OutputCustomHistory) ∧
    Fresh ≤ (ExtractCustomHistory View DLSSState Fresh OutputCustomHistory).2 := by
  cases OutputCustomHistory with
  | none => exact ⟨fun _ => rfl, fun _ hn => (by cases hn), fun _ => rfl, le_refl _⟩
  | some Slot =>
    refine ⟨fun hn => (by cases hn), fun _ _ => ?_, fun hro => ?_, ?_⟩
    · unfold ExtractCustomHistory
      dsimp only
      by_cases hro : View.bStatePrevViewInfoIsReadOnly = true
      · rw [if_pos hro]
        exact ⟨_, rfl⟩
      · rw [if_neg hro]
        cases Slot with
        | none => exact ⟨_, rfl⟩
        | some Held => exact ⟨_, rfl⟩
    · simp [ExtractCustomHistory, hro]
    · unfold ExtractCustomHistory
      dsimp only
      by_cases hro : View.bStatePrevViewInfoIsReadOnly = true
      · rw [if_pos hro]
      · rw [if_neg hro]
        cases Slot with
        | none => exact Nat.le_succ _
        | some Held => exact le_refl _

theorem ResolveDLSSState_fresh (InputCustomHistory : Option FDLSSUpscalerHistory) (Fresh : Nat) :
    Fresh ≤ (ResolveDLSSState InputCustomHistory Fresh).2 := by
  unfold ResolveDLSSState
  split
  · split <;> simp
  · simp

/-- The sample `AddPasses` call completes; after it `count` is `1` and six
files have been written. -/
theorem AddPasses_sample :
    ∃ out st', AddPasses Externals.sample Globals.sample PassSettings.sample 1
        (some ⟨3, ⟨640, 360⟩⟩) FrameState.sample 1 FPassView.sample FPassInputs.sample =
        .ok (out, st') ∧
      st'.Dump =
        ⟨1, [⟨"DLSS_", 0, 1280, 720, "_output.txt"⟩, ⟨"DLSS_", 0, 1280, 720, "_input.txt"⟩,
          ⟨"DLSS_", 0, 1280, 720, "_depth.txt"⟩, ⟨"DLSS_", 0, 640, 360, "_velocity.txt"⟩,
          ⟨"map_DLSS_", 1, 1280, 720, "_output.txt"⟩,
          ⟨"map_DLSS_", 1, 640, 360, "_input.txt"⟩]⟩ := by
  have key : ∃ r, AddDLSSPass Externals.sample Globals.sample PassSettings.sample
      Statics.samplePooled 1 ⟨.Performance⟩ FViewInfo.sample FDLSSPassParameters.sample
      FTemporalAAHistory.sample (some FTemporalAAHistory.sample) none (some none) 100
      DebugDump.initial = .ok r ∧
      r.Dump =
        ⟨1, [⟨"DLSS_", 0, 1280, 720, "_output.txt"⟩, ⟨"DLSS_", 0, 1280, 720, "_input.txt"⟩,
          ⟨"DLSS_", 0, 1280, 720, "_depth.txt"⟩, ⟨"DLSS_", 0, 640, 360, "_velocity.txt"⟩,
          ⟨"map_DLSS_", 1, 1280, 720, "_output.txt"⟩,
          ⟨"map_DLSS_", 1, 640, 360, "_input.txt"⟩]⟩ :=
    ⟨_, AddDLSSPass_eq Externals.sample Globals.sample PassSettings.sample
      Statics.samplePooled 1 ⟨.Performance⟩ FViewInfo.sample FDLSSPassParameters.sample
      FTemporalAAHistory.sample (some FTemporalAAHistory.sample) none (some none) 100 _
      DebugDump.initial _ .MaxPerf _ sample_validation rfl
      (ExtractHistory_writable FViewInfo.sample FDLSSPassParameters.sample _ _ _
        FTemporalAAHistory.sample ⟨1, ⟨640, 360⟩⟩ ⟨2, ⟨640, 360⟩⟩ ⟨3, ⟨640, 360⟩⟩ rfl rfl rfl rfl
        rfl), by decide⟩
  obtain ⟨r, hr, hd⟩ := key
  have hr2 : AddDLSSPass Externals.sample Globals.sample PassSettings.sample
      FrameState.sample.Statics 1 FrameState.sample.Instance FPassView.sample.Info
      { FPassView.sample.PassParameters with
        SceneColorInput := FPassInputs.sample.SceneColorTexture
        SceneVelocityInput := some ⟨3, ⟨640, 360⟩⟩
        SceneDepthInput := FPassInputs.sample.SceneDepthTexture
        bHighResolutionMotionVectors := (1 : Int) != 0 }
      FPassView.sample.PrevViewInfo.TemporalAAHistory
      (FrameState.sample.ViewState.map (·.TemporalAAHistory))
      FPassView.sample.PrevViewInfo.CustomTemporalAAHistory
      (FrameState.sample.ViewState.map (·.CustomTemporalAAHistory)) FrameState.sample.Fresh
      FrameState.sample.Dump = .ok r := hr
  refine ⟨⟨some r.SceneColor, FPassView.sample.PassParameters.OutputViewRect, none,
      ⟨FIntPoint.ZeroValue, FIntPoint.ZeroValue⟩, r.DLSSState, r.Request⟩,
    { Statics := r.Statics, Instance := r.Instance,
      ViewState := WriteBack FrameState.sample.ViewState r, Fresh := r.Fresh,
      Dump := r.Dump }, ?_, hd⟩
  unfold AddPasses
  rw [if_neg (by decide), if_neg (by decide)]
  dsimp only
  rw [hr2]

/-- C25 as stated fails: the sample `AddPasses` call, started with `count = 0`
and no file written, completes and leaves `count = 1` and six files written by
the capture and the readback passes. State other than the output history and
the custom-history slot has been written. -/
theorem C25_counterexample :
    FrameState.sample.Dump = ⟨0, []⟩ ∧
    ∃ out st', AddPasses Externals.sample Globals.sample PassSettings.sample 1
        (some ⟨3, ⟨640, 360⟩⟩) FrameState.sample 1 FPassView.sample FPassInputs.sample =
        .ok (out, st') ∧
      st'.Dump.count = 1 ∧ st'.Dump.Files.length = 6 ∧ st'.Dump ≠ FrameState.sample.Dump := by
  refine ⟨rfl, ?_⟩
  obtain ⟨out, st', h, hd⟩ := AddPasses_sample
  refine ⟨out, st', h, ?_, ?_, ?_⟩
  · rw [hd]
  · rw [hd]
    rfl
  · rw [hd]
    decide

/-- C25, amended: a completed `AddPasses` leaves the static members (the
instance pool with its objects, the settings table, the global fraction
bounds, the mode count) and the scheduler object with its quality mode
unchanged. It writes the view state: a view state that exists holds afterwards
the output history and the custom-history slot that `AddDLSSPass` leaves, and
is unchanged when the view's history is read-only. Besides the view state it
writes the debug dump of the capture: `count` is unchanged or incremented by
one, and at most six files are added to the files written so far. When `RT[0]`
of the input history is not valid, `count` is unchanged and, if every file
opens, two files are added; when `RT[0]` and `RT[1]` are valid and have
targetable textures, `count` is incremented and, if every file opens, six
files are added. The identity counter is not lowered. -/
theorem C25_statics_and_instance_unchanged (ext : Externals) (g : Globals)
    (cfg : PassSettings) (Dilate : Int) (Combined : Option FRDGTexture) (st : FrameState)
    (This : Nat) (View : FPassView) (PassInputs : FPassInputs) (out : FAddPassesOutputs)
    (st' : FrameState)
    (h : AddPasses ext g cfg Dilate Combined st This View PassInputs = .ok (out, st')) :
    st'.Statics = st.Statics ∧ st'.Instance = st.Instance ∧
    st'.Instance.DLSSQualityMode = st.Instance.DLSSQualityMode ∧
    st'.Statics.DLSSUpscalerInstancesPerViewFamily =
      st.Statics.DLSSUpscalerInstancesPerViewFamily ∧
    st'.Statics.Heap = st.Statics.Heap ∧
    st'.Statics.ResolutionSettings = st.Statics.ResolutionSettings ∧
    st'.Statics.MinResolutionFraction = st.Statics.MinResolutionFraction ∧
    st'.Statics.MaxResolutionFraction = st.Statics.MaxResolutionFraction ∧
    st'.Statics.NumRuntimeQualityModes = st.Statics.NumRuntimeQualityModes ∧
    (∃ r, AddDLSSPass ext g cfg st.Statics This st.Instance View.Info
        { View.PassParameters with
          SceneColorInput := PassInputs.SceneColorTexture
          SceneVelocityInput := Combined
          SceneDepthInput := PassInputs.SceneDepthTexture
          bHighResolutionMotionVectors := Dilate != 0 }
        View.PrevViewInfo.TemporalAAHistory (st.ViewState.map (·.TemporalAAHistory))
        View.PrevViewInfo.CustomTemporalAAHistory
        (st.ViewState.map (·.CustomTemporalAAHistory)) st.Fresh st.Dump = .ok r ∧
      st'.ViewState = WriteBack st.ViewState r ∧
      (∀ V, st.ViewState = some V →
        ∃ History Custom, r.OutputHistory = some History ∧
          r.OutputCustomHistory = some Custom ∧ st'.ViewState = some ⟨History, Custom⟩)) ∧
    (st.ViewState = none → st'.ViewState = none) ∧
    (View.Info.bStatePrevViewInfoIsReadOnly = true → st'.ViewState = st.ViewState) ∧
    (st'.Dump.count = st.Dump.count ∨ st'.Dump.count = wrap32 (st.Dump.count + 1)) ∧
    (∃ l, st'.Dump.Files = st.Dump.Files ++ l ∧ l.length ≤ 6) ∧
    (View.PrevViewInfo.TemporalAAHistory.RT[0]? = none ∨
        View.PrevViewInfo.TemporalAAHistory.RT[0]? = some none →
      st'.Dump.count = st.Dump.count ∧
        ((∀ f, ext.OpenForWriting f = true) →
          st'.Dump.Files.length = st.Dump.Files.length + 2)) ∧
    (∀ t0 t1 T0 T1, View.PrevViewInfo.TemporalAAHistory.RT[0]? = some (some t0) →
      View.PrevViewInfo.TemporalAAHistory.RT[1]? = some (some t1) →
      ext.TargetableTexture t0 = some T0 → ext.TargetableTexture t1 = some T1 →
      st'.Dump.count = wrap32 (st.Dump.count + 1) ∧
        ((∀ f, ext.OpenForWriting f = true) →
          st'.Dump.Files.length = st.Dump.Files.length + 6)) ∧
    st.Fresh ≤ st'.Fresh := by
  obtain ⟨r, hr, hst, -⟩ := AddPasses_inv ext g cfg Dilate Combined st This View PassInputs
    out st' h
  obtain ⟨L, D1, H, hV, hH, hS, hI, hD, hOH, hOC, hF⟩ := AddDLSSPass_inv ext g cfg st.Statics
    This st.Instance View.Info _ _ _ _ _ st.Fresh st.Dump r hr
  obtain ⟨-, -, -, -, -, -, -, hC⟩ := AddDLSSPassValidation_inv ext g st.Statics This
    st.Instance View.Info _ _ _ L st.Dump D1 hV
  obtain ⟨hnone, hsome⟩ := ExtractHistory_shape _ _ _ _ _ _ _ hH
  obtain ⟨cnone, csome, cro, cfresh⟩ := ExtractCustomHistory_shape View.Info
    (ResolveDLSSState View.PrevViewInfo.CustomTemporalAAHistory (st.Fresh + 1)).1
    (ResolveDLSSState View.PrevViewInfo.CustomTemporalAAHistory (st.Fresh + 1)).2
    (st.ViewState.map (·.CustomTemporalAAHistory))
  obtain ⟨hcount, l1, hl1, hn1⟩ := CaptureInputHistory_dump ext st.Dump D1 _ hC
  obtain ⟨rcount, l2, hl2, hn2⟩ := ReadbackPasses_dump ext D1 L.OutputExtent L.SrcRect
  have hview : ∀ V, st.ViewState = some V →
      ∃ History Custom, r.OutputHistory = some History ∧
        r.OutputCustomHistory = some Custom ∧
        WriteBack st.ViewState r = some ⟨History, Custom⟩ := by
    intro V hVS
    obtain ⟨New, hNew⟩ := hsome V.TemporalAAHistory (by rw [hVS]; rfl)
    obtain ⟨NewC, hNewC⟩ := csome V.CustomTemporalAAHistory (by rw [hVS]; rfl)
    refine ⟨New, NewC, by rw [hOH, hNew], by rw [hOC, hNewC], ?_⟩
    unfold WriteBack
    rw [hVS, hOH, hNew, hOC, hNewC]
  subst hst
  refine ⟨hS, hI, by rw [hI], by rw [hS], by rw [hS], by rw [hS], by rw [hS], by rw [hS],
    by rw [hS], ⟨r, hr, rfl, hview⟩, ?_, ?_, ?_, ?_, ?_, ?_, ?_⟩
  · intro hVS
    show WriteBack st.ViewState r = none
    unfold WriteBack
    rw [hVS]
  · intro hro
    show WriteBack st.ViewState r = st.ViewState
    cases hVS : st.ViewState with
    | none =>
      unfold WriteBack
      rfl
    | some V =>
      have e1 : r.OutputHistory = some V.TemporalAAHistory := by
        rw [hOH]
        have := ExtractHistory_unwritable View.Info
          { View.PassParameters with
            SceneColorInput := PassInputs.SceneColorTexture
            SceneVelocityInput := Combined
            SceneDepthInput := PassInputs.SceneDepthTexture
            bHighResolutionMotionVectors := Dilate != 0 }
          ⟨st.Fresh + 1, L.OutputExtent⟩ L.DestRect L.OutputExtent
          (st.ViewState.map (·.TemporalAAHistory)) (Or.inl hro)
        rw [this] at hH
        rw [← Except.ok.inj hH, hVS]
        rfl
      have e2 : r.OutputCustomHistory = some V.CustomTemporalAAHistory := by
        rw [hOC, cro hro, hVS]
        rfl
      unfold WriteBack
      rw [e1, e2]
  · show r.Dump.count = st.Dump.count ∨ r.Dump.count = wrap32 (st.Dump.count + 1)
    rw [hD, rcount]
    exact hcount
  · refine ⟨l1 ++ l2, ?_, ?_⟩
    · show r.Dump.Files = st.Dump.Files ++ (l1 ++ l2)
      rw [hD, hl2, hl1, List.append_assoc]
    · rw [List.length_append]
      omega
  · intro hskip
    have hD1 : D1 = st.Dump := by
      rw [CaptureInputHistory_skipped ext st.Dump _ hskip] at hC
      exact (Except.ok.inj hC).symm
    show r.Dump.count = st.Dump.count ∧
      ((∀ f, ext.OpenForWriting f = true) → r.Dump.Files.length = st.Dump.Files.length + 2)
    rw [hD, hD1]
    exact ⟨rfl, fun hopen => ReadbackPasses_open ext st.Dump _ _ hopen⟩
  · intro t0 t1 T0 T1 h0 h1 hT0 hT1
    obtain ⟨hc1, hf1⟩ := CaptureInputHistory_run ext st.Dump D1 _ t0 t1 T0 T1 h0 h1 hT0 hT1 hC
    show r.Dump.count = wrap32 (st.Dump.count + 1) ∧
      ((∀ f, ext.OpenForWriting f = true) → r.Dump.Files.length = st.Dump.Files.length + 6)
    rw [hD]
    refine ⟨by rw [rcount, hc1], fun hopen => ?_⟩
    rw [ReadbackPasses_open ext D1 _ _ hopen, hf1 hopen]
  · show st.Fresh ≤ r.Fresh
    rw [hF]
    have := ResolveDLSSState_fresh View.PrevViewInfo.CustomTemporalAAHistory (st.Fresh + 1)
    omega

/-- Witness of the amended C25: the sample `AddPasses` call completes and
leaves the statics and the Performance instance as they were; `count` goes from
`0` to `1`. -/
theorem C25_statics_and_instance_unchanged_witness :
    ∃ out st', AddPasses Externals.sample Globals.sample PassSettings.sample 1
        (some ⟨3, ⟨640, 360⟩⟩) FrameState.sample 1 FPassView.sample FPassInputs.sample =
        .ok (out, st') ∧
      st'.Statics = FrameState.sample.Statics ∧ st'.Instance = ⟨.Performance⟩ ∧
      (∃ History Custom, st'.ViewState = some ⟨History, Custom⟩) ∧
      st'.Dump.count = 1 ∧ st'.Dump.Files.length = 6 := by
  obtain ⟨out, st', h, -⟩ := AddPasses_sample
  have hc := C25_statics_and_instance_unchanged Externals.sample Globals.sample
    PassSettings.sample 1 (some ⟨3, ⟨640, 360⟩⟩) FrameState.sample 1 FPassView.sample
    FPassInputs.sample out st' h
  obtain ⟨h1, h2, -, -, -, -, -, -, -, ⟨r, -, -, hview⟩, -, -, -, -, -, hrun, -⟩ := hc
  obtain ⟨History, Custom, -, -, hvs⟩ := hview _ rfl
  obtain ⟨hcount, hfiles⟩ := hrun ⟨10, ⟨1280, 720⟩⟩ ⟨11, ⟨640, 360⟩⟩ ⟨1280, 720⟩ ⟨640, 360⟩
    rfl rfl rfl rfl
  exact ⟨out, st', h, h1, h2, ⟨History, Custom, hvs⟩, hcount, hfiles (fun _ => rfl)⟩

/-! ### View-family setup -/

/-- C26 as stated fails: DLSS is active, auto-quality mode is on and the
selector returns no selection for the `1280x720` render target, but
`GCustomStaticScreenPercentage` is set to another object, and
`SetupMainGameViewFamily` ends in the `checkf` of line 688. -/
theorem C26_counterexample :
    IsDLSSActive Globals.sampleMain Statics.sample 1000 = true ∧
    IsAutoQualityMode SetupGlobals.sampleOtherPlugin = true ∧
    GetAutoQualityModeFromViewFamily Externals.sample Statics.sample FSceneViewFamily.sample =
      .ok none ∧
    SetupMainGameViewFamily Externals.sample Globals.sampleMain SetupGlobals.sampleOtherPlugin
      Statics.sample 1000 ⟨.NumValues⟩ FSceneViewFamily.sample = .error .check :=
  ⟨by decide, rfl, by decide, rfl⟩

/-- C26, amended: when `GTemporalUpscaler` and `GCustomStaticScreenPercentage`
are this upscaler, auto-quality mode is on and the selector returns no
selection for the view family's render target, `SetupMainGameViewFamily`
returns without a fatal error and leaves the view family and the statics, the
instance pool among them, unchanged (whether or not DLSS is active). -/
theorem C26_silent_fallback (ext : Externals) (g : Globals) (G : SetupGlobals) (s : Statics)
    (This : Nat) (Self : FDLSSUpscaler) (ViewFamily : FSceneViewFamily)
    (hT : g.GTemporalUpscaler = This) (hC : G.GCustomStaticScreenPercentage = This)
    (hauto : IsAutoQualityMode G = true)
    (hsel : GetAutoQualityModeFromViewFamily ext s ViewFamily = .ok none) :
    SetupMainGameViewFamily ext g G s This Self ViewFamily = .ok (ViewFamily, s) := by
  unfold SetupMainGameViewFamily
  dsimp only
  split_ifs <;> simp_all

/-- Witness of the amended C26: with both globals set to the module's
upscaler and DLSS active, the `1280x720` view family comes back unchanged. -/
theorem C26_silent_fallback_witness :
    IsDLSSActive Globals.sampleMain Statics.sample 1000 = true ∧
    SetupMainGameViewFamily Externals.sample Globals.sampleMain SetupGlobals.sample
      Statics.sample 1000 ⟨.NumValues⟩ FSceneViewFamily.sample =
      .ok (FSceneViewFamily.sample, Statics.sample) :=
  ⟨by decide,
   C26_silent_fallback Externals.sample Globals.sampleMain SetupGlobals.sample Statics.sample
     1000 ⟨.NumValues⟩ FSceneViewFamily.sample rfl rfl rfl (by decide)⟩

/-- A mode that the selector returns was answered as supported and is one of
the three modes of the cascade. -/
theorem AutoQuality_selected (ext : Externals) (s : Statics) (p : Int) (m : EDLSSQualityMode)
    (h : GetAutoQualityModeFromPixels ext s p = .ok (some m)) :
    IsQualityModeSupported ext s m = .ok true ∧
      (m = .UltraPerformance ∨ m = .Performance ∨ m = .Quality) := by
  unfold GetAutoQualityModeFromPixels at h
  have key : ∀ (a : Bool) (c : Checked Bool), andAlso a c = .ok true → c = .ok true := by
    intro a c hc
    cases a <;> simp [andAlso] at hc
    exact hc
  split at h
  · cases h
  · rename_i h1
    cases h
    exact ⟨key _ _ h1, Or.inl rfl⟩
  · split at h
    · cases h
    · rename_i h2
      cases h
      exact ⟨key _ _ h2, Or.inr (Or.inl rfl)⟩
    · split at h
      · cases h
      · rename_i h3
        cases h
        exact ⟨key _ _ h3, Or.inr (Or.inr rfl)⟩
      · cases h

theorem GetUpscalerInstance_table (ext : Externals) (s s1 : Statics) (U : FDLSSUpscaler)
    (m : EDLSSQualityMode) (p : Nat)
    (h : GetUpscalerInstanceForViewFamily ext s U m = .ok (p, s1)) :
    s1.ResolutionSettings = s.ResolutionSettings := by
  unfold GetUpscalerInstanceForViewFamily at h
  split at h
  · cases h
  · dsimp only at h
    split at h
    · cases h
    · split at h
      · split at h
        · cases h
        · cases h
          rfl
      · cases h
        rfl

theorem GetOptimalResolutionFraction_congr (ext : Externals) (s s1 : Statics)
    (m : EDLSSQualityMode) (h : s1.ResolutionSettings = s.ResolutionSettings) :
    GetOptimalResolutionFractionForQuality ext s1 m =
      GetOptimalResolutionFractionForQuality ext s m := by
  simp only [GetOptimalResolutionFractionForQuality, SupportedField, IsQualityModeSupported,
    ResolutionSettingsAt, h]

/-- C27: a mode that `GetAutoQualityModeFromPixels` returns is supported and is
UltraPerformance, Performance or Quality, so the optimal-fraction getter
returns a value for it; and when `SetupMainGameViewFamily` runs in
auto-quality mode with a selected mode, a completed pool request and a view
family that shows screen percentage and has no interface yet, it completes
and installs a driver with that mode's optimal fraction. -/
theorem C27_selected_mode_is_supported (ext : Externals) (s : Statics) (p : Int)
    (m : EDLSSQualityMode) (h : GetAutoQualityModeFromPixels ext s p = .ok (some m)) :
    IsQualityModeSupported ext s m = .ok true ∧
    (m = .UltraPerformance ∨ m = .Performance ∨ m = .Quality) ∧
    (∃ f, GetOptimalResolutionFractionForQuality ext s m = .ok f ∧
      ∀ (g : Globals) (G : SetupGlobals) (This : Nat) (Self : FDLSSUpscaler)
        (ViewFamily : FSceneViewFamily) (ptr : Nat) (s1 : Statics),
        IsDLSSActive g s This = true →
        (!G.GIsAutomationTesting ||
          (G.GIsAutomationTesting && (G.CVarNGXDLSSAutomationTesting != 0))) = true →
        g.GTemporalUpscaler = This → G.GCustomStaticScreenPercentage = This →
        (!G.GIsEditor ||
          (G.GIsEditor && G.GIsPlayInEditorWorld && EnableDLSSInPlayInEditorViewports G)) =
          true →
        IsAutoQualityMode G = true →
        GetAutoQualityModeFromViewFamily ext s ViewFamily =
          GetAutoQualityModeFromPixels ext s p →
        GetUpscalerInstanceForViewFamily ext s Self m = .ok (ptr, s1) → ptr ≠ 0 →
        ViewFamily.TemporalUpscalerInterface = 0 →
        ViewFamily.ScreenPercentageShowFlag = true →
        ViewFamily.ScreenPercentageInterface = none →
        SetupMainGameViewFamily ext g G s This Self ViewFamily =
          .ok ({ ViewFamily with
                 TemporalUpscalerInterface := ptr
                 ScreenPercentageInterface := some ⟨f, false⟩ }, s1)) := by
  obtain ⟨hsup, hm⟩ := AutoQuality_selected ext s p m h
  refine ⟨hsup, hm, ?_⟩
  cases hr : ResolutionSettingsAt ext s m with
  | error e => simp [IsQualityModeSupported, hr] at hsup
  | ok r =>
    have hb : r.bIsSupported = true := by
      simpa [IsQualityModeSupported, hr] using hsup
    have hopt : GetOptimalResolutionFractionForQuality ext s m =
        .ok r.OptimalResolutionFraction :=
      SupportedField_of_entry ext s m r (·.OptimalResolutionFraction) hr hb
    refine ⟨_, hopt, ?_⟩
    intro g G This Self ViewFamily ptr s1 hA hauto hT hC hed hq hsel hcall hptr hT0 hshow hnone
    have hopt1 : GetOptimalResolutionFractionForQuality ext s1 m =
        .ok r.OptimalResolutionFraction := by
      rw [GetOptimalResolutionFraction_congr ext s s1 m
        (GetUpscalerInstance_table ext s s1 Self m ptr hcall)]
      exact hopt
    unfold SetupMainGameViewFamily
    simp only [hA, hauto, hT, hC, hed, hq, hsel, h, hcall, SetTemporalUpscalerInterface, hptr,
      hT0, hshow, hnone, hopt1, Bool.and_self, if_true, if_false, ne_eq, not_true_eq_false,
      Option.isSome_none, Option.isNone_none]

/-- Witness of C27: on the all-modes statics the `3840x2160` view family has
8,294,400 pixels, Performance is selected and supported, and the setup
installs the Performance instance and a driver with its optimal fraction. -/
theorem C27_selected_mode_is_supported_witness :
    GetAutoQualityModeFromPixels Externals.sample Statics.sampleAllModes 8294400 =
      .ok (some .Performance) ∧
    IsQualityModeSupported Externals.sample Statics.sampleAllModes .Performance = .ok true ∧
    ∃ f s1, GetOptimalResolutionFractionForQuality Externals.sample Statics.sampleAllModes
        .Performance = .ok f ∧
      SetupMainGameViewFamily Externals.sample Globals.sampleMain SetupGlobals.sample
        Statics.sampleAllModes 1000 ⟨.NumValues⟩ FSceneViewFamily.sample4K =
        .ok ({ FSceneViewFamily.sample4K with
               TemporalUpscalerInterface := 1
               ScreenPercentageInterface := some ⟨f, false⟩ }, s1) := by
  obtain ⟨hsup, -, f, hf, hsetup⟩ :=
    C27_selected_mode_is_supported Externals.sample Statics.sampleAllModes 8294400
      .Performance (by decide)
  refine ⟨by decide, hsup, f,
    { Statics.sampleAllModes with
      Heap := [⟨.Performance⟩]
      DLSSUpscalerInstancesPerViewFamily := [1, 0, 0, 0, 0] }, hf, ?_⟩
  exact hsetup Globals.sampleMain SetupGlobals.sample 1000 ⟨.NumValues⟩
    FSceneViewFamily.sample4K 1
    { Statics.sampleAllModes with
      Heap := [⟨.Performance⟩]
      DLSSUpscalerInstancesPerViewFamily := [1, 0, 0, 0, 0] }
    (by decide) rfl rfl rfl rfl rfl rfl rfl (by decide) rfl rfl rfl

theorem wrap32_of_range (x : Int) (h0 : -2147483648 ≤ x) (h1 : x ≤ 2147483647) :
    wrap32 x = x := by
  unfold wrap32
  omega

/-- C30: `GetAutoQualityModeFromViewFamily` returns no selection when the view
family has no render target; otherwise it returns the selection of
`GetAutoQualityModeFromPixels` for the product of the two sizes wrapped into
`int32`, which is the selection for the true pixel count whenever that count
is at most `2^31 - 1`. -/
theorem C30_pixel_count_is_int32 (ext : Externals) (s : Statics)
    (ViewFamily : FSceneViewFamily) :
    (ViewFamily.RenderTarget = none →
      GetAutoQualityModeFromViewFamily ext s ViewFamily = .ok none) ∧
    (∀ ViewSize, ViewFamily.RenderTarget = some ViewSize →
      GetAutoQualityModeFromViewFamily ext s ViewFamily =
        GetAutoQualityModeFromPixels ext s (wrap32 (ViewSize.X * ViewSize.Y))) ∧
    (∀ ViewSize, ViewFamily.RenderTarget = some ViewSize →
      0 ≤ ViewSize.X * ViewSize.Y → ViewSize.X * ViewSize.Y ≤ 2147483647 →
      GetAutoQualityModeFromViewFamily ext s ViewFamily =
        GetAutoQualityModeFromPixels ext s (ViewSize.X * ViewSize.Y)) := by
  refine ⟨?_, ?_, ?_⟩
  · intro h
    simp [GetAutoQualityModeFromViewFamily, h]
  · intro ViewSize h
    simp [GetAutoQualityModeFromViewFamily, h]
  · intro ViewSize h h0 h1
    simp only [GetAutoQualityModeFromViewFamily, h]
    rw [wrap32_of_range _ (by omega) h1]

/-- Witness of C30 on the all-modes statics: without a render target nothing
is selected; `3840x2160` is classified by its true count, 8,294,400 pixels,
as Performance; `65536x32768` has `2^31` pixels, which alone would select
UltraPerformance, but is classified by the wrapped value `-2^31` and selects
nothing. -/
theorem C30_pixel_count_is_int32_witness :
    GetAutoQualityModeFromViewFamily Externals.sample Statics.sampleAllModes
      ⟨none, true, 0, none⟩ = .ok none ∧
    GetAutoQualityModeFromViewFamily Externals.sample Statics.sampleAllModes
      FSceneViewFamily.sample4K = .ok (some .Performance) ∧
    wrap32 (65536 * 32768) = -2147483648 ∧
    GetAutoQualityModeFromPixels Externals.sample Statics.sampleAllModes (65536 * 32768) =
      .ok (some .UltraPerformance) ∧
    GetAutoQualityModeFromViewFamily Externals.sample Statics.sampleAllModes
      FSceneViewFamily.sampleHuge = .ok none :=
  ⟨(C30_pixel_count_is_int32 Externals.sample Statics.sampleAllModes
      ⟨none, true, 0, none⟩).1 rfl,
   ((C30_pixel_count_is_int32 Externals.sample Statics.sampleAllModes
      FSceneViewFamily.sample4K).2.2 ⟨3840, 2160⟩ rfl (by decide) (by decide)).trans
      (by decide),
   by decide, by decide,
   ((C30_pixel_count_is_int32 Externals.sample Statics.sampleAllModes
      FSceneViewFamily.sampleHuge).2.1 ⟨65536, 32768⟩ rfl).trans (by decide)⟩

end DLSS
